import Mathlib

/-!
# Data Respons video pipeline: VDMA channel manager and frame synchronizer

A shallow embedding of `drivers/gpu/drm/datarespons/video-vdma.c` and
`drivers/gpu/drm/datarespons/video-sync.c`, followed by theorems about the
embedded functions.

Conventions of the embedding

* A C `u32` is a `Nat`; every `u32` operation that can leave the range is
  followed by `% 2 ^ 32` (see `u32`, `inc32`, `mul32`, `sub32`).
* `ch->regs` / `synchronizer->regs` is a register window `Regs`: `ioread32`
  returns the current content of an offset, `iowrite32` records the write in
  program order in `log` and latches the value at that offset.
* Kernel memory is a function from byte address to byte value.
* Calls into the DRM core are recorded, in program order, in a call log.
* `dev_err` / `dev_info` only print to the kernel log and are not modelled.
-/

namespace DataRespons

/-! ## Machine arithmetic -/

/-- Truncation of a value to a C `u32`. -/
def u32 (x : Nat) : Nat := x % 2 ^ 32

/-- The C statement `++x` on a `u32`. -/
def inc32 (x : Nat) : Nat := (x + 1) % 2 ^ 32

/-- The C expression `a * b` on two `u32` operands. -/
def mul32 (a b : Nat) : Nat := (a * b) % 2 ^ 32

/-- The low 32 bits of the C expression `a - b`: what `iowrite32` receives when
the difference of two `dma_addr_t` values is passed as its `u32` argument.  The
result does not depend on whether `dma_addr_t` is 32 or 64 bits wide. -/
def sub32 (a b : Nat) : Nat := (a % 2 ^ 32 + (2 ^ 32 - b % 2 ^ 32)) % 2 ^ 32

/-- The C expression `~m` used as a `u32` mask (`m` a `u32`). -/
def not32 (m : Nat) : Nat := 2 ^ 32 - 1 - m % 2 ^ 32

/-! ## Error numbers and interrupt return values -/

def EINVAL : Int := 22
def ENOMEM : Int := 12
def ENOTSUPP : Int := 524

/-- The kernel type `irqreturn_t`, restricted to the two values the drivers return. -/
inductive irqreturn_t where
  | IRQ_NONE
  | IRQ_HANDLED
  deriving DecidableEq, Repr

/-! ## Register window -/

/-- A memory mapped register window: `rd` is the content read at a byte offset,
`log` the list of `(offset, value)` writes performed so far, oldest first. -/
structure Regs where
  rd : Nat → Nat
  log : List (Nat × Nat)

/-- Kernel `ioread32(regs + off)`. -/
def ioread32 (r : Regs) (off : Nat) : Nat := u32 (r.rd off)

/-- Kernel `iowrite32(v, regs + off)`. -/
def iowrite32 (v : Nat) (off : Nat) (r : Regs) : Regs :=
  { rd := fun o => if o = off then u32 v else r.rd o
    log := r.log ++ [(off, u32 v)] }

/-! ## Kernel memory -/

/-- Kernel `memcpy(dst, src, n)` on a byte addressed memory: the `n` bytes starting
at `dst` receive the `n` bytes that started at `src`; the source and destination
areas do not overlap in any use the drivers make of it. -/
def memcpy (dst src n : Nat) (mem : Nat → Nat) : Nat → Nat :=
  fun a => if dst ≤ a ∧ a < dst + n then mem (src + (a - dst)) else mem a

/-! ## video-vdma.c : register map -/

def VDMA_MM2S_CONTROL_REGISTER : Nat := 0x00
def VDMA_MM2S_STATUS_REGISTER : Nat := 0x04
def VDMA_VERSION_REGISTER : Nat := 0x2C
def VDMA_S2MM_CONTROL_REGISTER : Nat := 0x30
def VDMA_S2MM_STATUS_REGISTER : Nat := 0x34
def VDMA_MM2S_VSIZE_REGISTER : Nat := 0x50
def VDMA_MM2S_HSIZE_REGISTER : Nat := 0x54
def VDMA_MM2S_FRMDLY_STRIDE_REGISTER : Nat := 0x58
def VDMA_MM2S_START_ADDRESS_REGISTER (x : Nat) : Nat := 0x5C + x * 4
def VDMA_S2MM_VSIZE_REGISTER : Nat := 0xA0
def VDMA_S2MM_HSIZE_REGISTER : Nat := 0xA4
def VDMA_S2MM_FRMDLY_STRIDE_REGISTER : Nat := 0xA8
def VDMA_S2MM_START_ADDRESS_REGISTER : Nat := 0xAC

def VDMA_MM2S_ERR_IRQ_EN_BITMASK : Nat := 1 <<< 14
def VDMA_MM2S_FRAME_CNT_IRQ_EN_BITMASK : Nat := 1 <<< 12
def VDMA_MM2S_CONTROL_GENLOCK_BITMASK : Nat := 1 <<< 7
def VDMA_MM2S_CIRCULAR_PARK_BITMASK : Nat := 1 <<< 1
def VDMA_MM2S_CONTROL_RS_BITMASK : Nat := 1 <<< 0

def VDMA_MM2S_STATUS_ERR_IRQ_BITMASK : Nat := 1 <<< 14
def VDMA_MM2S_STATUS_FRAME_CNT_BITMASK : Nat := 1 <<< 12
def VDMA_MM2S_STATUS_SOF_EARLY_ERR_BITMASK : Nat := 1 <<< 7
def VDMA_MM2S_STATUS_DEC_ERR_BITMASK : Nat := 1 <<< 6
def VDMA_MM2S_STATUS_SLV_ERR_BITMASK : Nat := 1 <<< 5
def VDMA_MM2S_STATUS_INT_ERR_BITMASK : Nat := 1 <<< 4
def VDMA_MM2S_STATUS_HALTED_BITMASK : Nat := 1 <<< 0

def VDMA_S2MM_ERR_IRQ_EN_BITMASK : Nat := 1 <<< 14
def VDMA_S2MM_FRAME_CNT_EN_BITMASK : Nat := 1 <<< 12
def VDMA_S2MM_CONTROL_GENLOCK_BITMASK : Nat := 1 <<< 7
def VDMA_S2MM_CONTROL_RS_BITMASK : Nat := 1 <<< 0

def VDMA_S2MM_STATUS_EOL_LATE_ERR_BITMASK : Nat := 1 <<< 15
def VDMA_S2MM_STATUS_ERR_BITMASK : Nat := 1 <<< 14
def VDMA_S2MM_STATUS_FRAME_CNT_BITMASK : Nat := 1 <<< 12
def VDMA_S2MM_STATUS_SOF_LATE_ERR_BITMASK : Nat := 1 <<< 11
def VDMA_S2MM_STATUS_EOL_EARLY_ERR_BITMASK : Nat := 1 <<< 8
def VDMA_S2MM_STATUS_SOF_EARLY_ERR_BITMASK : Nat := 1 <<< 7
def VDMA_S2MM_STATUS_DEC_ERR_BITMASK : Nat := 1 <<< 6
def VDMA_S2MM_STATUS_SLV_ERR_BITMASK : Nat := 1 <<< 5
def VDMA_S2MM_STATUS_INT_ERR_BITMASK : Nat := 1 <<< 4
def VDMA_S2MM_STATUS_HALTED_BITMASK : Nat := 1 <<< 0

/-! ## video-vdma.c : `struct vdma_channel` -/

/-- The `mm2s` member of `struct vdma_channel`.  Pointers (`buffer`,
`buffer_even`, `buffer_odd`) are byte addresses, `0` being `NULL`; `irq` is the
C `int`, `-1` meaning that no interrupt line is attached. -/
structure vdma_mm2s where
  buffer : Nat
  phys_addr_offset : Nat
  phys_addr : Nat
  interlaced : Bool
  buffer_even : Nat
  buffer_odd : Nat
  phys_addr_even : Nat
  phys_addr_odd : Nat
  frame_bpp : Nat
  frame_width : Nat
  frame_height : Nat
  frame_stride : Nat
  frame_ppi : Nat
  active : Bool
  always_on : Bool
  dma_malloced : Bool
  genlock : Bool
  irq : Int
  err : Nat
  sof_early_err : Nat
  decode_err : Nat
  slave_err : Nat
  internal_err : Nat
  frame_cnt : Nat

/-- The `s2mm` member of `struct vdma_channel`. -/
structure vdma_s2mm where
  buffer : Nat
  phys_addr_offset : Nat
  phys_addr : Nat
  frame_bpp : Nat
  frame_width : Nat
  frame_height : Nat
  frame_stride : Nat
  active : Bool
  always_on : Bool
  dma_malloced : Bool
  genlock : Bool
  irq : Int
  eol_late_err : Nat
  err : Nat
  sof_late_err : Nat
  eol_early_err : Nat
  sof_early_err : Nat
  decode_err : Nat
  slave_err : Nat
  internal_err : Nat
  frame_cnt : Nat

/-- The C `struct vdma_channel` (the device-model handles `pdev`, `dev`, `cdev`,
`pclass` and `node` carry no data the embedded functions compute with). -/
structure vdma_channel where
  mm2s : vdma_mm2s
  s2mm : vdma_s2mm
  regs : Regs
  red_offset : Nat
  green_offset : Nat
  blue_offset : Nat
  alpha_offset : Nat
  red_support : Bool
  green_support : Bool
  blue_support : Bool
  alpha_support : Bool

/-! ## video-vdma.c : start of the mm2s direction -/

/-- Embedding of `vdma_mm2s_start`. -/
def vdma_mm2s_start (ch : vdma_channel) : vdma_channel := Id.run do
  let mut regs := ch.regs
  if ch.mm2s.active then
    let mut ctrl := 0
    if ch.mm2s.irq ≠ -1 then
      ctrl := ctrl ||| (VDMA_MM2S_ERR_IRQ_EN_BITMASK ||| VDMA_MM2S_FRAME_CNT_IRQ_EN_BITMASK)
    if ch.mm2s.interlaced then
      ctrl := ctrl ||| VDMA_MM2S_CIRCULAR_PARK_BITMASK
    if ch.mm2s.genlock then
      ctrl := ctrl ||| VDMA_MM2S_CONTROL_GENLOCK_BITMASK
    ctrl := ctrl ||| VDMA_MM2S_CONTROL_RS_BITMASK
    regs := iowrite32 ctrl VDMA_MM2S_CONTROL_REGISTER regs
    regs := iowrite32 (mul32 (ch.mm2s.frame_bpp / 8) ch.mm2s.frame_width)
      VDMA_MM2S_HSIZE_REGISTER regs
    if ch.mm2s.interlaced then
      regs := iowrite32 (mul32 ch.mm2s.frame_stride 2) VDMA_MM2S_FRMDLY_STRIDE_REGISTER regs
      regs := iowrite32 (sub32 ch.mm2s.phys_addr_even ch.mm2s.phys_addr_offset)
        (VDMA_MM2S_START_ADDRESS_REGISTER 0) regs
      regs := iowrite32 (sub32 ch.mm2s.phys_addr_odd ch.mm2s.phys_addr_offset)
        (VDMA_MM2S_START_ADDRESS_REGISTER 1) regs
      regs := iowrite32 (ch.mm2s.frame_height / 2) VDMA_MM2S_VSIZE_REGISTER regs
    else
      regs := iowrite32 ch.mm2s.frame_stride VDMA_MM2S_FRMDLY_STRIDE_REGISTER regs
      regs := iowrite32 (sub32 ch.mm2s.phys_addr ch.mm2s.phys_addr_offset)
        (VDMA_MM2S_START_ADDRESS_REGISTER 0) regs
      regs := iowrite32 ch.mm2s.frame_height VDMA_MM2S_VSIZE_REGISTER regs
  return { ch with regs := regs }

/-! ## video-vdma.c : interrupt handlers -/

/-- Embedding of `s2mm_irq_handler(irq, data)` with `data` the channel `ch`. -/
def s2mm_irq_handler (irq : Int) (ch : vdma_channel) : irqreturn_t × vdma_channel :=
  if irq ≠ ch.s2mm.irq then (irqreturn_t.IRQ_NONE, ch) else Id.run do
    let mut s := ch.s2mm
    let mut regs := ch.regs
    let mut clr_status := 0
    let status := ioread32 regs VDMA_S2MM_STATUS_REGISTER
    if (status &&& VDMA_S2MM_STATUS_EOL_LATE_ERR_BITMASK) != 0 then
      s := { s with eol_late_err := inc32 s.eol_late_err }
      clr_status := clr_status ||| VDMA_S2MM_STATUS_EOL_LATE_ERR_BITMASK
    if (status &&& VDMA_S2MM_STATUS_ERR_BITMASK) != 0 then
      s := { s with err := inc32 s.err }
      clr_status := clr_status ||| VDMA_S2MM_STATUS_ERR_BITMASK
    if (status &&& VDMA_S2MM_STATUS_SOF_LATE_ERR_BITMASK) != 0 then
      s := { s with sof_late_err := inc32 s.sof_late_err }
      clr_status := clr_status ||| VDMA_S2MM_STATUS_SOF_LATE_ERR_BITMASK
    if (status &&& VDMA_S2MM_STATUS_EOL_EARLY_ERR_BITMASK) != 0 then
      s := { s with eol_early_err := inc32 s.eol_early_err }
      clr_status := clr_status ||| VDMA_S2MM_STATUS_EOL_EARLY_ERR_BITMASK
    if (status &&& VDMA_S2MM_STATUS_SOF_EARLY_ERR_BITMASK) != 0 then
      s := { s with sof_early_err := inc32 s.sof_early_err }
      clr_status := clr_status ||| VDMA_S2MM_STATUS_SOF_EARLY_ERR_BITMASK
    if (status &&& VDMA_S2MM_STATUS_DEC_ERR_BITMASK) != 0 then
      s := { s with decode_err := inc32 s.decode_err }
      clr_status := clr_status ||| VDMA_S2MM_STATUS_DEC_ERR_BITMASK
    if (status &&& VDMA_S2MM_STATUS_SLV_ERR_BITMASK) != 0 then
      s := { s with slave_err := inc32 s.slave_err }
      clr_status := clr_status ||| VDMA_S2MM_STATUS_SLV_ERR_BITMASK
    if (status &&& VDMA_S2MM_STATUS_INT_ERR_BITMASK) != 0 then
      s := { s with internal_err := inc32 s.internal_err }
      clr_status := clr_status ||| VDMA_S2MM_STATUS_INT_ERR_BITMASK
    if (status &&& VDMA_S2MM_STATUS_FRAME_CNT_BITMASK) != 0 then
      s := { s with frame_cnt := inc32 s.frame_cnt }
      clr_status := clr_status ||| VDMA_S2MM_STATUS_FRAME_CNT_BITMASK
    regs := iowrite32 clr_status VDMA_S2MM_STATUS_REGISTER regs
    let mut ctrl := ioread32 regs VDMA_S2MM_CONTROL_REGISTER
    ctrl := ctrl ||| VDMA_S2MM_CONTROL_RS_BITMASK
    regs := iowrite32 ctrl VDMA_S2MM_CONTROL_REGISTER regs
    return (irqreturn_t.IRQ_HANDLED, { ch with s2mm := s, regs := regs })

/-- Embedding of `mm2s_irq_handler(irq, data)` with `data` the channel `ch`. -/
def mm2s_irq_handler (irq : Int) (ch : vdma_channel) : irqreturn_t × vdma_channel :=
  if irq ≠ ch.mm2s.irq then (irqreturn_t.IRQ_NONE, ch) else Id.run do
    let mut m := ch.mm2s
    let mut regs := ch.regs
    let mut clr_status := 0
    let status := ioread32 regs VDMA_MM2S_STATUS_REGISTER
    if (status &&& VDMA_MM2S_STATUS_ERR_IRQ_BITMASK) != 0 then
      m := { m with err := inc32 m.err }
      clr_status := clr_status ||| VDMA_MM2S_STATUS_ERR_IRQ_BITMASK
    if (status &&& VDMA_MM2S_STATUS_SOF_EARLY_ERR_BITMASK) != 0 then
      m := { m with sof_early_err := inc32 m.sof_early_err }
      clr_status := clr_status ||| VDMA_MM2S_STATUS_SOF_EARLY_ERR_BITMASK
    if (status &&& VDMA_MM2S_STATUS_DEC_ERR_BITMASK) != 0 then
      m := { m with decode_err := inc32 m.decode_err }
      clr_status := clr_status ||| VDMA_MM2S_STATUS_DEC_ERR_BITMASK
    if (status &&& VDMA_MM2S_STATUS_SLV_ERR_BITMASK) != 0 then
      m := { m with slave_err := inc32 m.slave_err }
      clr_status := clr_status ||| VDMA_MM2S_STATUS_SLV_ERR_BITMASK
    if (status &&& VDMA_MM2S_STATUS_INT_ERR_BITMASK) != 0 then
      m := { m with internal_err := inc32 m.internal_err }
      clr_status := clr_status ||| VDMA_MM2S_STATUS_INT_ERR_BITMASK
    if (status &&& VDMA_MM2S_STATUS_FRAME_CNT_BITMASK) != 0 then
      m := { m with frame_cnt := inc32 m.frame_cnt }
      clr_status := clr_status ||| VDMA_MM2S_STATUS_FRAME_CNT_BITMASK
    regs := iowrite32 clr_status VDMA_MM2S_STATUS_REGISTER regs
    let mut ctrl := ioread32 regs VDMA_MM2S_CONTROL_REGISTER
    ctrl := ctrl ||| VDMA_MM2S_CONTROL_RS_BITMASK
    regs := iowrite32 ctrl VDMA_MM2S_CONTROL_REGISTER regs
    return (irqreturn_t.IRQ_HANDLED, { ch with mm2s := m, regs := regs })

/-! ## video-vdma.c : exported accessors -/

/-- Embedding of `vdma_mm2s_get_fb_addr`: the return code and the values stored
through `paddr` and `vaddr`. -/
def vdma_mm2s_get_fb_addr (ch : vdma_channel) : Int × Nat × Nat :=
  (0, ch.mm2s.phys_addr, ch.mm2s.buffer)

/-- Embedding of `vdma_mm2s_set_data(ch, buffer, size)`: `buffer` is the address
of the frame of the caller, `mem` the kernel memory before the call; the result is the
return code and the memory after the call. -/
def vdma_mm2s_set_data (ch : vdma_channel) (buffer size : Nat) (mem : Nat → Nat) :
    Int × (Nat → Nat) :=
  let expected_size :=
    mul32 (mul32 ch.mm2s.frame_width ch.mm2s.frame_height) (ch.mm2s.frame_bpp / 8)
  if expected_size ≠ size then (-EINVAL, mem)
  else (0, memcpy ch.mm2s.buffer buffer size mem)

/-- Modelled from the spec: `vdma_toggle_interlaced_buffer(ch, even)` is called by
`irq_handler` of video-sync.c, but video-vdma.c does not define it and
video-vdma.h does not declare it.  The spec (DMA Channel Manager,
`toggle_interlaced_buffer(which: Even|Odd)`) says: for interlaced mm2s it swaps
the current physical address exposed to display between the even and odd buffer,
without touching the DMA engine (no register access); it only affects what
`get_buffer_address` (`vdma_mm2s_get_fb_addr`) reports afterwards. -/
def vdma_toggle_interlaced_buffer (ch : vdma_channel) (even : Bool) : vdma_channel :=
  if ch.mm2s.interlaced then
    { ch with mm2s := { ch.mm2s with
        phys_addr := if even then ch.mm2s.phys_addr_even else ch.mm2s.phys_addr_odd } }
  else ch

/-! ## video-vdma.c : probing of the mm2s direction -/

/-- The memory region that `of_address_to_resource` stores for a device-tree node:
its first byte address (`start`) and its byte size (the value `resource_size`
returns for it). -/
structure resource where
  start : Nat
  size : Nat

/-- Kernel `resource_size(&res)`. -/
def resource_size (r : resource) : Nat := r.size

/-- The device-tree child node `mm2s` as the `of_*` accessors present it.
A `u32` property is `none` when `of_property_read_u32` fails (the accessor then
returns a negative errno, taken to be `-EINVAL`).  `memory_block` and
`memory_addr` are `none` when `of_parse_phandle` yields no node, `some none`
when the node exists but `of_address_to_resource` fails (with `-EINVAL`), and
`some (some r)` when it stores the region `r`. -/
structure mm2s_node where
  frame_bpp : Option Nat
  frame_width : Option Nat
  frame_stride : Option Nat
  frame_height : Option Nat
  frame_ppi : Option Nat
  always_on : Bool
  interlaced : Bool
  genlock : Bool
  memory_block : Option (Option resource)
  memory_addr : Option (Option resource)
  interrupts : Bool

/-- What the kernel services used while probing answer: the widths of
`unsigned long` and `dma_addr_t` on the target, the address `memremap` returns
for `(start, size)` (`0` is `NULL`), the pair `(cpu address, dma handle)` that
`dmam_alloc_coherent` returns for a size (`cpu address = 0` is `NULL`), the
interrupt number `irq_of_parse_and_map` returns and the return code of
`request_irq`. -/
structure probe_env where
  bits_per_long : Nat
  dma_addr_bits : Nat
  memremap : Nat → Nat → Nat
  dmam_alloc_coherent : Nat → Nat × Nat
  irq_of_parse_and_map : Int
  request_irq : Int

/-- Kernel `IS_ERR(ptr)`: the pointer lies in the last `MAX_ERRNO = 4095` addresses. -/
def IS_ERR (env : probe_env) (ptr : Nat) : Bool :=
  decide (2 ^ env.bits_per_long - 4095 ≤ ptr % 2 ^ env.bits_per_long)

/-- Kernel `PTR_ERR(ptr)`: the pointer value read as a (negative) `long`. -/
def PTR_ERR (env : probe_env) (ptr : Nat) : Int :=
  (ptr % 2 ^ env.bits_per_long : Nat) - (2 ^ env.bits_per_long : Nat)

/-- Embedding of `vdma_mm2s_probe(pdev, vdma, child)`: the return code and the
channel as the call leaves it. -/
def vdma_mm2s_probe (env : probe_env) (vdma : vdma_channel) (child : mm2s_node) :
    Int × vdma_channel := Id.run do
  let mut m := vdma.mm2s
  m := { m with active := true, err := 0, sof_early_err := 0, decode_err := 0,
                slave_err := 0, internal_err := 0, frame_cnt := 0 }
  match child.frame_bpp with
  | none => return (-EINVAL, { vdma with mm2s := m })
  | some v => m := { m with frame_bpp := v }
  match child.frame_width with
  | none => return (-EINVAL, { vdma with mm2s := m })
  | some v => m := { m with frame_width := v }
  match child.frame_stride with
  | none => m := { m with frame_stride := mul32 m.frame_width (m.frame_bpp / 8) }
  | some v => m := { m with frame_stride := v }
  match child.frame_height with
  | none => return (-EINVAL, { vdma with mm2s := m })
  | some v => m := { m with frame_height := v }
  match child.frame_ppi with
  | none => m := { m with frame_ppi := 0 }
  | some v => m := { m with frame_ppi := v }
  m := { m with always_on := child.always_on, interlaced := child.interlaced,
                genlock := child.genlock, phys_addr_offset := 0 }
  match child.memory_block with
  | some (some mem_res) => m := { m with phys_addr_offset := mem_res.start }
  | _ => pure ()
  let mem_size := mul32 m.frame_stride m.frame_height
  match child.memory_addr with
  | some none => return (-EINVAL, { vdma with mm2s := m })
  | some (some mem_res) =>
    if resource_size mem_res ≠ mem_size then
      return (-EINVAL, { vdma with mm2s := m })
    m := { m with phys_addr := mem_res.start,
                  buffer := env.memremap mem_res.start mem_size,
                  dma_malloced := false }
  | none =>
    m := { m with buffer := (env.dmam_alloc_coherent mem_size).1,
                  phys_addr := (env.dmam_alloc_coherent mem_size).2,
                  dma_malloced := true }
  if m.buffer = 0 then
    return (-ENOMEM, { vdma with mm2s := m })
  if IS_ERR env m.buffer then
    return (PTR_ERR env m.buffer, { vdma with mm2s := m })
  if m.interlaced then
    m := { m with buffer_even := m.buffer,
                  buffer_odd := (m.buffer + m.frame_stride) % 2 ^ env.bits_per_long,
                  phys_addr_even := m.phys_addr,
                  phys_addr_odd := (m.phys_addr + m.frame_stride) % 2 ^ env.dma_addr_bits }
  else
    m := { m with buffer_even := 0, buffer_odd := 0, phys_addr_even := 0, phys_addr_odd := 0 }
  if child.interrupts then
    m := { m with irq := env.irq_of_parse_and_map }
    if env.request_irq ≠ 0 then
      return (env.request_irq, { vdma with mm2s := m })
  else
    m := { m with irq := -1 }
  return (0, { vdma with mm2s := m })

/-! ## video-vdma.c : start of the s2mm direction, stop of both directions -/

/-- Embedding of `vdma_s2mm_start`. -/
def vdma_s2mm_start (ch : vdma_channel) : vdma_channel := Id.run do
  let mut regs := ch.regs
  if ch.s2mm.active then
    let mut ctrl := 0
    if ch.s2mm.irq ≠ -1 then
      ctrl := ctrl ||| (VDMA_S2MM_ERR_IRQ_EN_BITMASK ||| VDMA_S2MM_FRAME_CNT_EN_BITMASK)
    if ch.s2mm.genlock then
      ctrl := ctrl ||| VDMA_S2MM_CONTROL_GENLOCK_BITMASK
    ctrl := ctrl ||| VDMA_S2MM_CONTROL_RS_BITMASK
    regs := iowrite32 ctrl VDMA_S2MM_CONTROL_REGISTER regs
    regs := iowrite32 (sub32 ch.s2mm.phys_addr ch.s2mm.phys_addr_offset)
      VDMA_S2MM_START_ADDRESS_REGISTER regs
    regs := iowrite32 ch.s2mm.frame_stride VDMA_S2MM_FRMDLY_STRIDE_REGISTER regs
    regs := iowrite32 (mul32 (ch.s2mm.frame_bpp / 8) ch.s2mm.frame_width)
      VDMA_S2MM_HSIZE_REGISTER regs
    regs := iowrite32 ch.s2mm.frame_height VDMA_S2MM_VSIZE_REGISTER regs
  return { ch with regs := regs }

/-- Embedding of `vdma_mm2s_stop`. -/
def vdma_mm2s_stop (ch : vdma_channel) : vdma_channel :=
  if ch.mm2s.active then
    { ch with regs := iowrite32 0x0 VDMA_MM2S_CONTROL_REGISTER ch.regs }
  else ch

/-- Embedding of `vdma_s2mm_stop`.  The guard of the C function reads
`ch->mm2s.active`. -/
def vdma_s2mm_stop (ch : vdma_channel) : vdma_channel :=
  if ch.mm2s.active then
    { ch with regs := iowrite32 0x0 VDMA_S2MM_CONTROL_REGISTER ch.regs }
  else ch

/-! ## video-vdma.c : geometry and pixel format accessors -/

/-- Embedding of `vdma_mm2s_get_px_width`. -/
def vdma_mm2s_get_px_width (ch : vdma_channel) : Nat := ch.mm2s.frame_width

/-- Embedding of `vdma_mm2s_get_stride`. -/
def vdma_mm2s_get_stride (ch : vdma_channel) : Nat := ch.mm2s.frame_stride

/-- Embedding of `vdma_mm2s_get_px_height`. -/
def vdma_mm2s_get_px_height (ch : vdma_channel) : Nat := ch.mm2s.frame_height

/-- Embedding of `vdma_mm2s_get_bit_per_px`. -/
def vdma_mm2s_get_bit_per_px (ch : vdma_channel) : Nat := ch.mm2s.frame_bpp

/-- Embedding of `vdma_mm2s_get_px_per_inch`. -/
def vdma_mm2s_get_px_per_inch (ch : vdma_channel) : Nat := ch.mm2s.frame_ppi

/-- The bus format code `MEDIA_BUS_FMT_ARGB8888_1X32` of the kernel header
`media-bus-format.h`: 32 bits per pixel, alpha in the top byte. -/
def MEDIA_BUS_FMT_ARGB8888_1X32 : Nat := 0x100d

/-- Embedding of `vdma_get_px_format(ch, fmt)`: `fmt` is the content of `*fmt`
before the call; the result is the return code and the content of `*fmt` after
the call. -/
def vdma_get_px_format (ch : vdma_channel) (fmt : Nat) : Int × Nat := Id.run do
  if ch.red_support && ch.green_support && ch.blue_support && ch.alpha_support then
    if ch.red_offset = 0 ∧ ch.green_offset = 8 ∧ ch.blue_offset = 16 ∧ ch.alpha_offset = 24 then
      return (0, MEDIA_BUS_FMT_ARGB8888_1X32)
  return (-EINVAL, fmt)

/-! ## video-vdma.c : probing of the s2mm direction -/

/-- The device-tree child node `s2mm` as the `of_*` accessors present it; the
fields are those of `mm2s_node` that `vdma_s2mm_probe` reads. -/
structure s2mm_node where
  frame_bpp : Option Nat
  frame_width : Option Nat
  frame_stride : Option Nat
  frame_height : Option Nat
  always_on : Bool
  genlock : Bool
  memory_block : Option (Option resource)
  memory_addr : Option (Option resource)
  interrupts : Bool

/-- Embedding of `vdma_s2mm_probe(pdev, vdma, child)`: the return code and the
channel as the call leaves it. -/
def vdma_s2mm_probe (env : probe_env) (vdma : vdma_channel) (child : s2mm_node) :
    Int × vdma_channel := Id.run do
  let mut s := vdma.s2mm
  s := { s with active := true, eol_late_err := 0, err := 0, sof_late_err := 0,
                eol_early_err := 0, sof_early_err := 0, decode_err := 0, slave_err := 0,
                internal_err := 0, frame_cnt := 0 }
  match child.frame_bpp with
  | none => return (-EINVAL, { vdma with s2mm := s })
  | some v => s := { s with frame_bpp := v }
  match child.frame_width with
  | none => return (-EINVAL, { vdma with s2mm := s })
  | some v => s := { s with frame_width := v }
  match child.frame_stride with
  | none => s := { s with frame_stride := mul32 s.frame_width (s.frame_bpp / 8) }
  | some v => s := { s with frame_stride := v }
  match child.frame_height with
  | none => return (-EINVAL, { vdma with s2mm := s })
  | some v => s := { s with frame_height := v }
  s := { s with always_on := child.always_on, genlock := child.genlock, phys_addr_offset := 0 }
  match child.memory_block with
  | some (some mem_res) => s := { s with phys_addr_offset := mem_res.start }
  | _ => pure ()
  let mem_size := mul32 s.frame_stride s.frame_height
  match child.memory_addr with
  | some none => return (-EINVAL, { vdma with s2mm := s })
  | some (some mem_res) =>
    if resource_size mem_res ≠ mem_size then
      return (-EINVAL, { vdma with s2mm := s })
    s := { s with phys_addr := mem_res.start,
                  buffer := env.memremap mem_res.start mem_size,
                  dma_malloced := false }
  | none =>
    s := { s with buffer := (env.dmam_alloc_coherent mem_size).1,
                  phys_addr := (env.dmam_alloc_coherent mem_size).2,
                  dma_malloced := true }
  if s.buffer = 0 then
    return (-ENOMEM, { vdma with s2mm := s })
  if IS_ERR env s.buffer then
    return (PTR_ERR env s.buffer, { vdma with s2mm := s })
  if child.interrupts then
    s := { s with irq := env.irq_of_parse_and_map }
    if env.request_irq ≠ 0 then
      return (env.request_irq, { vdma with s2mm := s })
  else
    s := { s with irq := -1 }
  return (0, { vdma with s2mm := s })

/-! ## video-sync.c : register map -/

def VIDEO_SYNC_CONTROL_REGISTER : Nat := 0x00
def VIDEO_SYNC_STATUS_REGISTER : Nat := 0x04
def VIDEO_SYNC_TOTAL_SIZE_REGISTER : Nat := 0x08
def VIDEO_SYNC_ACTIVE_SIZE_REGISTER : Nat := 0x0C
def VIDEO_SYNC_DELAY_LINES_REGISTER : Nat := 0x10
def VIDEO_SYNC_IRQ_ENABLE_REGISTER : Nat := 0x14
def VIDEO_SYNC_GLOBAL_ALPHA_REGISTER : Nat := 0x18
def VIDEO_SYNC_FW_VERSION_REGISTER : Nat := 0x1C

def VIDEO_SYNC_CTRL_RUN_MASK : Nat := 1 <<< 0
def VIDEO_SYNC_CTRL_EXT_SYNC_MASK : Nat := 1 <<< 1
def VIDEO_SYNC_CTRL_ILACE_MASK : Nat := 1 <<< 2
def VIDEO_SYNC_CTRL_IRQEN_MASK : Nat := 1 <<< 3
def VIDEO_SYNC_CTRL_VIDEO_EN_MASK : Nat := 1 <<< 4
def VIDEO_SYNC_CTRL_DYN_BLEND_MASK : Nat := 1 <<< 5
def VIDEO_SYNC_CTRL_SLAVE_VDMA_MASK : Nat := 1 <<< 6
def VIDEO_SYNC_CTRL_AUXRST_MASK : Nat := 1 <<< 29
def VIDEO_SYNC_CTRL_CLRIRQ_MASK : Nat := 1 <<< 30
def VIDEO_SYNC_CTRL_SW_RST_MASK : Nat := 1 <<< 31

def VIDEO_SYNC_STATUS_PL_ERR_MASK : Nat := 1 <<< 0
def VIDEO_SYNC_STATUS_SOF_ERR_MASK : Nat := 1 <<< 1
def VIDEO_SYNC_STATUS_URUN_MASK : Nat := 1 <<< 2
def VIDEO_SYNC_STATUS_SYNC_TO_MASK : Nat := 1 <<< 3
def VIDEO_SYNC_STATUS_FRAME_DONE_MASK : Nat := 1 <<< 4
def VIDEO_SYNC_STATUS_SHORT_LINE_ERR_MASK : Nat := 1 <<< 5
def VIDEO_SYNC_STATUS_LONG_LINE_ERR_MASK : Nat := 1 <<< 6
def VIDEO_SYNC_STATUS_SYNC_TX_MASK : Nat := 1 <<< 7
def VIDEO_SYNC_STATUS_SYNC_FIELD_MASK : Nat := 1 <<< 8
def VIDEO_SYNC_STATUS_COMPLETED_FIELD_MASK : Nat := 1 <<< 9
def VIDEO_SYNC_STATUS_FIELD_EXT_MASK : Nat := 1 <<< 10
def VIDEO_SYNC_STATUS_DMA_BUF_INDEX_MASK : Nat := 0x1F <<< 11
def VIDEO_SYNC_STATUS_PL_LATE_MASK : Nat := 1 <<< 24

/-! ## video-sync.c : `struct video_sync` -/

/-- A `struct drm_pending_vblank_event`: `id` identifies the event object, `pipe`
is its `pipe` member. -/
structure drm_pending_vblank_event where
  id : Nat
  pipe : Nat
  deriving DecidableEq, Repr

/-- The calls into the DRM core that the embedded functions make. -/
inductive drm_call where
  | drm_crtc_handle_vblank
  | drm_crtc_send_vblank_event (event : drm_pending_vblank_event)
  | drm_crtc_vblank_put
  | drm_crtc_vblank_on
  | drm_crtc_vblank_get
  deriving DecidableEq, Repr

/-- The part of `struct drm_crtc` the driver uses: `drm_crtc_index(crtc)` and
`crtc->state->event` (`none` is `NULL`). -/
structure drm_crtc where
  index : Nat
  state_event : Option drm_pending_vblank_event

/-- The C `struct video_sync_plane` (without its `drm_plane` base). -/
structure video_sync_plane where
  vdma : vdma_channel
  format : Nat

/-- The C `struct video_sync`.  The two `struct vdma_channel *` members are
embedded as the channels they point to; `vblank_event = none` is `NULL`;
`drm_calls` is the list of calls made into the DRM core so far, oldest first. -/
structure video_sync where
  regs : Regs
  irq : Int
  interlaced : Bool
  vblank_enabled : Bool
  pl_err : Nat
  sof_err : Nat
  urun_err : Nat
  sync_to_err : Nat
  short_line_err : Nat
  long_line_err : Nat
  frames_done : Nat
  even_frames_done : Nat
  odd_frames_done : Nat
  crtc : drm_crtc
  video_vdma : vdma_channel
  overlay_plane : video_sync_plane
  vblank_event : Option drm_pending_vblank_event
  drm_calls : List drm_call

/-! ## video-sync.c : interrupt handler and CRTC callbacks -/

/-- Embedding of `irq_handler(irq, data)` of video-sync.c with `data` the
synchronizer.  The event spin lock is taken and released around the hand-over of
the pending event; it has no effect on a single thread of execution. -/
def irq_handler (irq : Int) (synchronizer : video_sync) : irqreturn_t × video_sync :=
  if irq ≠ synchronizer.irq then (irqreturn_t.IRQ_NONE, synchronizer) else Id.run do
    let mut s := synchronizer
    let status := ioread32 s.regs VIDEO_SYNC_STATUS_REGISTER
    if (status &&& VIDEO_SYNC_STATUS_PL_ERR_MASK) != 0 then
      s := { s with pl_err := inc32 s.pl_err }
    if (status &&& VIDEO_SYNC_STATUS_SOF_ERR_MASK) != 0 then
      s := { s with sof_err := inc32 s.sof_err }
    if (status &&& VIDEO_SYNC_STATUS_URUN_MASK) != 0 then
      s := { s with urun_err := inc32 s.urun_err }
    if (status &&& VIDEO_SYNC_STATUS_SYNC_TO_MASK) != 0 then
      s := { s with sync_to_err := inc32 s.sync_to_err }
    if (status &&& VIDEO_SYNC_STATUS_SHORT_LINE_ERR_MASK) != 0 then
      s := { s with short_line_err := inc32 s.short_line_err }
    if (status &&& VIDEO_SYNC_STATUS_LONG_LINE_ERR_MASK) != 0 then
      s := { s with long_line_err := inc32 s.long_line_err }
    if (status &&& VIDEO_SYNC_STATUS_FRAME_DONE_MASK) != 0 then
      s := { s with frames_done := inc32 s.frames_done }
      if s.vblank_enabled then
        s := { s with drm_calls := s.drm_calls ++ [drm_call.drm_crtc_handle_vblank] }
        let event := s.vblank_event
        s := { s with vblank_event := none }
        match event with
        | some e =>
          s := { s with drm_calls := s.drm_calls ++
                  [drm_call.drm_crtc_send_vblank_event e, drm_call.drm_crtc_vblank_put] }
        | none => pure ()
    if s.interlaced && ((status &&& VIDEO_SYNC_STATUS_SYNC_TX_MASK) != 0) then
      let even := (status &&& VIDEO_SYNC_STATUS_SYNC_FIELD_MASK) == 0
      if even then
        s := { s with even_frames_done := inc32 s.even_frames_done }
      else
        s := { s with odd_frames_done := inc32 s.odd_frames_done }
      s := { s with overlay_plane := { s.overlay_plane with
                      vdma := vdma_toggle_interlaced_buffer s.overlay_plane.vdma even } }
      s := { s with video_vdma := vdma_toggle_interlaced_buffer s.video_vdma even }
    let mut ctrl := ioread32 s.regs VIDEO_SYNC_CONTROL_REGISTER
    ctrl := ctrl ||| VIDEO_SYNC_CTRL_CLRIRQ_MASK
    s := { s with regs := iowrite32 ctrl VIDEO_SYNC_CONTROL_REGISTER s.regs }
    ctrl := ctrl &&& not32 VIDEO_SYNC_CTRL_CLRIRQ_MASK
    ctrl := ctrl ||| VIDEO_SYNC_CTRL_IRQEN_MASK
    s := { s with regs := iowrite32 ctrl VIDEO_SYNC_CONTROL_REGISTER s.regs }
    return (irqreturn_t.IRQ_HANDLED, s)

/-- Embedding of `video_sync_crtc_atomic_begin(crtc, old_crtc_state)`, a `void`
function, on the synchronizer that contains `crtc`. -/
def video_sync_crtc_atomic_begin (sync : video_sync) : video_sync := Id.run do
  let mut s := sync
  s := { s with drm_calls := s.drm_calls ++ [drm_call.drm_crtc_vblank_on] }
  match s.crtc.state_event with
  | some event =>
    let event := { event with pipe := s.crtc.index }
    s := { s with drm_calls := s.drm_calls ++ [drm_call.drm_crtc_vblank_get] }
    s := { s with vblank_event := some event }
    s := { s with crtc := { s.crtc with state_event := none } }
  | none => pure ()
  return s

/-- Embedding of `video_sync_crtc_get_fb_addr(crtc, paddr, vaddr)` on the
synchronizer that contains `crtc`. -/
def video_sync_crtc_get_fb_addr (sync : video_sync) : Int × Nat × Nat :=
  vdma_mm2s_get_fb_addr sync.overlay_plane.vdma

/-- Embedding of `video_sync_crtc_enable_vblank` on the synchronizer that contains
the CRTC: the return code and the synchronizer after the call. -/
def video_sync_crtc_enable_vblank (sync : video_sync) : Int × video_sync :=
  (0, { sync with vblank_enabled := true })

/-- Embedding of `video_sync_crtc_disable_vblank`, a `void` function. -/
def video_sync_crtc_disable_vblank (sync : video_sync) : video_sync :=
  { sync with vblank_enabled := false }

/-- The members of the kernel `struct drm_display_mode` that the driver reads;
all three are C `int`: the pixel clock in kHz and the total line length and line
count. -/
structure drm_display_mode where
  clock : Int
  htotal : Int
  vtotal : Int

/-- The value of a C `int` expression whose mathematical value is `x`: the kernel
is compiled with wrapping signed arithmetic. -/
def int32 (x : Int) : Int := (x + 2 ^ 31) % 2 ^ 32 - 2 ^ 31

/-- What a call of `video_sync_crtc_atomic_enable` does apart from returning:
it logs "invalid mode parameter" through `dev_err` and returns early, or it
sleeps `msleep(msecs)` (`msecs` the `unsigned int` argument), or one of
its two integer divisions has a zero divisor. -/
inductive atomic_enable_effect where
  | invalid_mode
  | msleep (msecs : Nat)
  | division_by_zero
  deriving DecidableEq, Repr

/-- Embedding of `video_sync_crtc_atomic_enable(crtc, old_crtc_state)`, a `void`
function, on the synchronizer that contains `crtc`, with `adjusted_mode` the mode
`crtc->state->adjusted_mode`: the synchronizer after the call and what the call
did.  C integer division truncates towards zero. -/
def video_sync_crtc_atomic_enable (sync : video_sync) (adjusted_mode : drm_display_mode) :
    video_sync × atomic_enable_effect := Id.run do
  if adjusted_mode.clock = 0 ∨ adjusted_mode.vtotal = 0 ∨ adjusted_mode.htotal = 0 then
    return (sync, atomic_enable_effect.invalid_mode)
  let divisor := int32 (adjusted_mode.vtotal * adjusted_mode.htotal)
  if divisor = 0 then
    return (sync, atomic_enable_effect.division_by_zero)
  let vrefresh := int32 (Int.tdiv (int32 (adjusted_mode.clock * 1000)) divisor)
  if vrefresh = 0 then
    return (sync, atomic_enable_effect.division_by_zero)
  return (sync, atomic_enable_effect.msleep ((Int.tdiv (3 * 1000) vrefresh) % 2 ^ 32).toNat)

/-! ## Events around the embedded functions

The functions above are entered by the hardware (an interrupt) or by the DRM core
(a commit).  The definitions below compose them with what the caller does first,
so that properties over several calls can be stated. -/

/-- One interrupt of the synchronizer on its own line: the hardware shows `status`
in the status register, then the kernel runs `irq_handler` with the interrupt
number of the synchronizer. -/
def video_sync_interrupt (status : Nat) (s : video_sync) : video_sync :=
  (irq_handler s.irq
    { s with regs := { s.regs with
        rd := fun o => if o = VIDEO_SYNC_STATUS_REGISTER then status else s.regs.rd o } }).2

/-- Consecutive interrupts of the synchronizer, one per status value, first to last. -/
def video_sync_interrupts : List Nat → video_sync → video_sync
  | [], s => s
  | status :: rest, s => video_sync_interrupts rest (video_sync_interrupt status s)

/-- A commit that carries a completion event: the DRM core stores the event in
`crtc->state->event` and calls `video_sync_crtc_atomic_begin`. -/
def request_completion_event (event : drm_pending_vblank_event) (s : video_sync) : video_sync :=
  video_sync_crtc_atomic_begin { s with crtc := { s.crtc with state_event := some event } }

/-! ## Concrete inputs -/

/-- A register window whose registers all read `0` and that has seen no write. -/
def regs_zero : Regs := { rd := fun _ => 0, log := [] }

/-- A register window in which the register at `off` reads `v` and all others `0`. -/
def regs_with (off v : Nat) : Regs := { rd := fun o => if o = off then v else 0, log := [] }

/-- The `mm2s` member of a channel as `kzalloc` returns it. -/
def mm2s_zero : vdma_mm2s :=
  { buffer := 0, phys_addr_offset := 0, phys_addr := 0, interlaced := false, buffer_even := 0,
    buffer_odd := 0, phys_addr_even := 0, phys_addr_odd := 0, frame_bpp := 0, frame_width := 0,
    frame_height := 0, frame_stride := 0, frame_ppi := 0, active := false, always_on := false,
    dma_malloced := false, genlock := false, irq := 0, err := 0, sof_early_err := 0,
    decode_err := 0, slave_err := 0, internal_err := 0, frame_cnt := 0 }

/-- The `s2mm` member of a channel as `kzalloc` returns it. -/
def s2mm_zero : vdma_s2mm :=
  { buffer := 0, phys_addr_offset := 0, phys_addr := 0, frame_bpp := 0, frame_width := 0,
    frame_height := 0, frame_stride := 0, active := false, always_on := false,
    dma_malloced := false, genlock := false, irq := 0, eol_late_err := 0, err := 0,
    sof_late_err := 0, eol_early_err := 0, sof_early_err := 0, decode_err := 0, slave_err := 0,
    internal_err := 0, frame_cnt := 0 }

/-- A channel as `kzalloc` returns it, attached to the register window `regs`. -/
def channel_zero (regs : Regs) : vdma_channel :=
  { mm2s := mm2s_zero, s2mm := s2mm_zero, regs := regs, red_offset := 0, green_offset := 0,
    blue_offset := 0, alpha_offset := 0, red_support := false, green_support := false,
    blue_support := false, alpha_support := false }

/-- An active progressive mm2s channel of `width` x `height` pixels at `bpp` bits per
pixel with the default stride, whose buffer is at address `0x100000`. -/
def channel_of_geometry (width height bpp : Nat) : vdma_channel :=
  { channel_zero regs_zero with
    mm2s := { mm2s_zero with
      active := true, frame_width := width, frame_height := height, frame_bpp := bpp,
      frame_stride := mul32 width (bpp / 8), buffer := 0x100000, phys_addr := 0x30000000,
      irq := -1 } }

/-- A kernel memory whose byte at address `a` is `a % 251`. -/
def mem_pattern : Nat → Nat := fun a => a % 251

/-- A channel with interrupt line 54 in each direction whose mm2s and s2mm status
registers both read `status`. -/
def channel_with_status (status : Nat) : vdma_channel :=
  { channel_zero { rd := fun o => if o = VDMA_MM2S_STATUS_REGISTER ∨ o = VDMA_S2MM_STATUS_REGISTER
                            then status else 0,
                   log := [] } with
    mm2s := { mm2s_zero with active := true, irq := 54 }
    s2mm := { s2mm_zero with active := true, irq := 54 } }

/-- An interlaced mm2s channel as `vdma_mm2s_probe` leaves it for a 720 x 576 frame at
32 bits per pixel whose buffer is at bus address `0x30000000`. -/
def channel_interlaced : vdma_channel :=
  { channel_zero regs_zero with
    mm2s := { mm2s_zero with
      active := true, interlaced := true, frame_width := 720, frame_height := 576,
      frame_bpp := 32, frame_stride := 2880, buffer := 0x100000, buffer_even := 0x100000,
      buffer_odd := 0x100B40, phys_addr := 0x30000000, phys_addr_even := 0x30000000,
      phys_addr_odd := 0x30000B40, irq := -1 } }

/-- A synchronizer with interrupt line 61, zero counters, no pending event, the
interlaced channel above as overlay and video channel, whose status register reads
`status`. -/
def sync_with_status (interlaced vblank_enabled : Bool) (status : Nat) : video_sync :=
  { regs := regs_with VIDEO_SYNC_STATUS_REGISTER status
    irq := 61
    interlaced := interlaced
    vblank_enabled := vblank_enabled
    pl_err := 0, sof_err := 0, urun_err := 0, sync_to_err := 0, short_line_err := 0
    long_line_err := 0, frames_done := 0, even_frames_done := 0, odd_frames_done := 0
    crtc := { index := 0, state_event := none }
    video_vdma := channel_interlaced
    overlay_plane := { vdma := channel_interlaced, format := 0 }
    vblank_event := none
    drm_calls := [] }

/-- A channel with only the s2mm direction configured, as `vdma_probe` leaves it for
a device node without `mm2s` child: 1920 x 1080 pixels at 32 bits per pixel, default
stride, no interrupt line. -/
def channel_s2mm_only : vdma_channel :=
  { channel_zero regs_zero with
    s2mm := { s2mm_zero with
      active := true, frame_width := 1920, frame_height := 1080, frame_bpp := 32,
      frame_stride := 7680, buffer := 0x200000, phys_addr := 0x31000000, irq := -1 } }

/-! ## video-vdma.c : field widths of the geometry registers -/

def VDMA_MM2S_VSIZE_LINES_BITMASK : Nat := 0xFFF
def VDMA_MM2S_HSIZE_BYTES_BITMASK : Nat := 0xFFFF
def VDMA_MM2S_STRIDE_BYTES_BITMASK : Nat := 0xFFFF
def VDMA_S2MM_VSIZE_LINES_BITMASK : Nat := 0xFFF
def VDMA_S2MM_HSIZE_BYTES_BITMASK : Nat := 0xFFFF
def VDMA_S2MM_STRIDE_BYTES_BITMASK : Nat := 0xFFFF

/-- The register writes that happened between the register window `before` and the
later register window `after`, oldest first. -/
def writes_since (before after : Regs) : List (Nat × Nat) :=
  after.log.drop before.log.length

/-- Every write of the list that goes to a VSIZE, HSIZE or stride register, of
either direction, carries a value that fits the field of that register. -/
def geometry_within_field_width (writes : List (Nat × Nat)) : Prop :=
  ∀ w ∈ writes,
    (w.1 = VDMA_MM2S_VSIZE_REGISTER → w.2 ≤ VDMA_MM2S_VSIZE_LINES_BITMASK) ∧
    (w.1 = VDMA_MM2S_HSIZE_REGISTER → w.2 ≤ VDMA_MM2S_HSIZE_BYTES_BITMASK) ∧
    (w.1 = VDMA_MM2S_FRMDLY_STRIDE_REGISTER → w.2 ≤ VDMA_MM2S_STRIDE_BYTES_BITMASK) ∧
    (w.1 = VDMA_S2MM_VSIZE_REGISTER → w.2 ≤ VDMA_S2MM_VSIZE_LINES_BITMASK) ∧
    (w.1 = VDMA_S2MM_HSIZE_REGISTER → w.2 ≤ VDMA_S2MM_HSIZE_BYTES_BITMASK) ∧
    (w.1 = VDMA_S2MM_FRMDLY_STRIDE_REGISTER → w.2 ≤ VDMA_S2MM_STRIDE_BYTES_BITMASK)

instance geometry_within_field_width_decidable (writes : List (Nat × Nat)) :
    Decidable (geometry_within_field_width writes) := by
  unfold geometry_within_field_width
  infer_instance

/-- A channel whose two directions are both active with a frame of 20000 x 5000
pixels at 32 bits per pixel and the default stride of 80000 bytes. -/
def channel_oversize : vdma_channel :=
  { channel_zero regs_zero with
    mm2s := { mm2s_zero with
      active := true, frame_width := 20000, frame_height := 5000, frame_bpp := 32,
      frame_stride := 80000, buffer := 0x100000, phys_addr := 0x30000000, irq := -1 }
    s2mm := { s2mm_zero with
      active := true, frame_width := 20000, frame_height := 5000, frame_bpp := 32,
      frame_stride := 80000, buffer := 0x200000, phys_addr := 0x50000000, irq := -1 } }

/-- The answers of a 64-bit kernel in which every service succeeds: `memremap` maps
the region at `start` to the address `0xFFFF800000000000 + start`,
`dmam_alloc_coherent` returns the buffer at `0xFFFF800010000000` with bus address
`0x30000000`, the interrupt line is 54 and `request_irq` succeeds. -/
def probe_env_64 : probe_env :=
  { bits_per_long := 64
    dma_addr_bits := 64
    memremap := fun start _ => 0xFFFF800000000000 + start
    dmam_alloc_coherent := fun _ => (0xFFFF800010000000, 0x30000000)
    irq_of_parse_and_map := 54
    request_irq := 0 }

/-- A progressive `mm2s` node without interrupt line, with the three required
properties, an optional `frame-stride`, no `frame-ppi`, and an optional
`memory-addr` region. -/
def mm2s_node_of (bpp width height : Nat) (stride : Option Nat) (region : Option resource) :
    mm2s_node :=
  { frame_bpp := some bpp, frame_width := some width, frame_stride := stride,
    frame_height := some height, frame_ppi := none, always_on := false, interlaced := false,
    genlock := false, memory_block := none, memory_addr := region.map some,
    interrupts := false }

/-- An `s2mm` node without interrupt line, with the three required properties, an
optional `frame-stride` and an optional `memory-addr` region. -/
def s2mm_node_of (bpp width height : Nat) (stride : Option Nat) (region : Option resource) :
    s2mm_node :=
  { frame_bpp := some bpp, frame_width := some width, frame_stride := stride,
    frame_height := some height, always_on := false, genlock := false, memory_block := none,
    memory_addr := region.map some, interrupts := false }

/-- A channel as `vdma_probe` leaves the colour members for the `color-format` string
whose characters `r`, `g`, `b`, `a` stand at the indices `red`, `green`, `blue` and
`alpha` (`none` when the character does not occur). -/
def channel_of_color_format (red green blue alpha : Option Nat) : vdma_channel :=
  { channel_zero regs_zero with
    red_offset := (red.getD 0) * 8, green_offset := (green.getD 0) * 8,
    blue_offset := (blue.getD 0) * 8, alpha_offset := (alpha.getD 0) * 8,
    red_support := red.isSome, green_support := green.isSome,
    blue_support := blue.isSome, alpha_support := alpha.isSome }

/-! ## video-sync.c : removal of a synchronizer -/

/-- Embedding of `video_sync_remove(pdev)`.  `synchronizers` is the global array
`synchronizers[0 .. synchronizers_probed - 1]`, each synchronizer paired with the
handle of the platform device it was probed for (its `pdev` member); the result
is the return code and the array after the call. -/
def video_sync_remove (pdev : Nat) (synchronizers : List (Nat × video_sync)) :
    Int × List (Nat × video_sync) :=
  (0, synchronizers.map fun entry =>
    if entry.1 = pdev then
      (entry.1,
        { entry.2 with
          regs := iowrite32
            (ioread32 entry.2.regs VIDEO_SYNC_CONTROL_REGISTER &&&
              not32 VIDEO_SYNC_CTRL_RUN_MASK)
            VIDEO_SYNC_CONTROL_REGISTER entry.2.regs })
    else entry)

/-- A running progressive synchronizer: its control register reads `0x19` (run,
interrupt enable and video enable). -/
def sync_running : video_sync :=
  { sync_with_status false false 0 with regs := regs_with VIDEO_SYNC_CONTROL_REGISTER 0x19 }

/-! ## video-vdma.c : mapping the mm2s buffer to user space -/

/-- The mapping that `vdma_mmap` asks the kernel for once the size check has passed:
`dma_mmap_coherent(dev, vma, cpu_addr, dma_addr, size)` for an allocated buffer,
`vm_iomap_memory(vma, start, len)` for a remapped region. -/
inductive mmap_request where
  | dma_mmap_coherent (cpu_addr dma_addr size : Nat)
  | vm_iomap_memory (start len : Nat)
  deriving DecidableEq, Repr

/-- Embedding of `vdma_mmap(file_p, vma)` with `ch` the channel in
`file_p->private_data` and `vm_start`, `vm_end` the bounds of `vma`.  `kernel_rc`
is what the kernel helper returns for a request.  The result is the return code
and the request made (`none` when no helper is called).  `recv_size` is the
`u32` to which the C code assigns `vm_end - vm_start`. -/
def vdma_mmap (kernel_rc : mmap_request → Int) (ch : vdma_channel) (vm_start vm_end : Nat) :
    Int × Option mmap_request := Id.run do
  if ch.mm2s.active then
    let recv_size := sub32 vm_end vm_start
    let expected_size := mul32 ch.mm2s.frame_stride ch.mm2s.frame_height
    if recv_size ≠ expected_size then
      return (-EINVAL, none)
    if ch.mm2s.dma_malloced then
      return (kernel_rc (mmap_request.dma_mmap_coherent ch.mm2s.buffer ch.mm2s.phys_addr
                expected_size),
              some (mmap_request.dma_mmap_coherent ch.mm2s.buffer ch.mm2s.phys_addr
                expected_size))
    return (kernel_rc (mmap_request.vm_iomap_memory ch.mm2s.phys_addr expected_size),
            some (mmap_request.vm_iomap_memory ch.mm2s.phys_addr expected_size))
  return (-ENOTSUPP, none)

/-! ## video-vdma.c : the case `FBIOGET_VSCREENINFO` of `vdma_ioctl` -/

def FB_SYNC_EXT : Nat := 4
def FB_VMODE_NONINTERLACED : Nat := 0

/-- A colour field of `struct fb_var_screeninfo` (`struct fb_bitfield`). -/
structure fb_bitfield where
  offset : Nat
  length : Nat
  deriving DecidableEq, Repr

/-- The members of the kernel `struct fb_var_screeninfo` that the drivers set;
`height` and `width` are the size of the picture in millimetres. -/
structure fb_var_screeninfo where
  xres : Nat
  yres : Nat
  xres_virtual : Nat
  yres_virtual : Nat
  bits_per_pixel : Nat
  red : fb_bitfield
  green : fb_bitfield
  blue : fb_bitfield
  transp : fb_bitfield
  height : Nat
  width : Nat
  pixclock : Nat
  sync : Nat
  vmode : Nat
  deriving DecidableEq, Repr

/-- A `struct fb_var_screeninfo` after `memset(vinfo, 0, sizeof(*vinfo))`. -/
def fb_var_screeninfo_zero : fb_var_screeninfo :=
  { xres := 0, yres := 0, xres_virtual := 0, yres_virtual := 0, bits_per_pixel := 0,
    red := { offset := 0, length := 0 }, green := { offset := 0, length := 0 },
    blue := { offset := 0, length := 0 }, transp := { offset := 0, length := 0 },
    height := 0, width := 0, pixclock := 0, sync := 0, vmode := 0 }

/-- Embedding of the case `FBIOGET_VSCREENINFO` of `vdma_ioctl`: the return code and
the structure stored through `arg`. -/
def vdma_ioctl_FBIOGET_VSCREENINFO (ch : vdma_channel) : Int × fb_var_screeninfo := Id.run do
  let mut vinfo := fb_var_screeninfo_zero
  if ch.mm2s.active then
    vinfo := { vinfo with xres := ch.mm2s.frame_width, yres := ch.mm2s.frame_height,
                          xres_virtual := ch.mm2s.frame_width,
                          yres_virtual := ch.mm2s.frame_height }
    vinfo := { vinfo with bits_per_pixel := ch.mm2s.frame_bpp }
    vinfo := { vinfo with
      red := { offset := ch.red_offset, length := if ch.red_support then 8 else 0 }
      green := { offset := ch.green_offset, length := if ch.green_support then 8 else 0 }
      blue := { offset := ch.blue_offset, length := if ch.blue_support then 8 else 0 }
      transp := { offset := ch.alpha_offset, length := if ch.alpha_support then 8 else 0 } }
    if ch.mm2s.frame_ppi ≠ 0 then
      vinfo := { vinfo with height := mul32 ch.mm2s.frame_height 25 / ch.mm2s.frame_ppi }
      vinfo := { vinfo with width := mul32 ch.mm2s.frame_width 25 / ch.mm2s.frame_ppi }
    else
      vinfo := { vinfo with height := 0 }
      vinfo := { vinfo with width := 0 }
    vinfo := { vinfo with pixclock := 80, sync := FB_SYNC_EXT, vmode := FB_VMODE_NONINTERLACED }
  return (0, vinfo)

/-! ## panel-vdma.c : `panel_get_modes` -/

/-- What `panel_get_modes` stores when it succeeds: the members of the mode
(`vpanel->mode`, all C `int`) and of `connector->display_info` that it computes.
The constant flags it also sets (`mode->type`, `display_info.bus_flags`) carry no
computed value and are left out. -/
structure panel_configuration where
  clock : Int
  vrefresh : Int
  hdisplay : Int
  hsync_start : Int
  hsync_end : Int
  htotal : Int
  vdisplay : Int
  vsync_start : Int
  vsync_end : Int
  vtotal : Int
  width_mm : Nat
  height_mm : Nat
  bus_format : Nat
  deriving DecidableEq, Repr

/-- Embedding of `panel_get_modes(panel)` with `vdma` the channel `vpanel->vdma`.
`mode_created` tells whether `drm_mode_create` returned a mode.  The result is
`none` when the kernel faults on a division by zero, and otherwise the return code
(the number of modes) with what was stored. -/
def panel_get_modes (mode_created : Bool) (vdma : vdma_channel) :
    Option (Int × Option panel_configuration) := Id.run do
  if !mode_created then
    return some (0, none)
  let width := vdma_mm2s_get_px_width vdma
  let height := vdma_mm2s_get_px_height vdma
  let ppi := vdma_mm2s_get_px_per_inch vdma
  let (rc, bus_format) := vdma_get_px_format vdma 0
  if rc ≠ 0 then
    return some (0, none)
  if ppi = 0 then
    return none
  return some (1, some
    { clock := 20000, vrefresh := 60,
      hdisplay := int32 width, hsync_start := int32 width, hsync_end := int32 width,
      htotal := int32 width,
      vdisplay := int32 height, vsync_start := int32 height, vsync_end := int32 height,
      vtotal := int32 height,
      width_mm := mul32 width 25 / ppi, height_mm := mul32 height 25 / ppi,
      bus_format := bus_format })

/-! ## video-vdma-consolidator.c -/

def ERANGE : Int := 34
def MAX_VDMA_CONSOLIDATORS : Nat := 1

/-- The members of `struct vdma_consolidator` that the embedded functions compute
with. -/
structure vdma_consolidator where
  width : Nat
  width_mm : Nat
  height : Nat
  height_mm : Nat
  bpp : Nat
  stride : Nat
  fmt : Nat
  paddr : Nat
  deriving DecidableEq, Repr

/-- A `struct vdma_consolidator` as `kzalloc` returns it. -/
def vdma_consolidator_zero : vdma_consolidator :=
  { width := 0, width_mm := 0, height := 0, height_mm := 0, bpp := 0, stride := 0, fmt := 0,
    paddr := 0 }

/-- What the kernel answers while a consolidator is probed: `kernel` gives the widths
of `unsigned long` and `dma_addr_t` (its other answers are not used), `kzalloc` is
the pointer that `kzalloc` returns (`0` is `NULL`), `consolidators_probed` the number
of consolidators probed so far and `init_cdevice` the return code of
`vdma_consolidator_init_cdevice`. -/
structure consolidator_env where
  kernel : probe_env
  kzalloc : Nat
  consolidators_probed : Nat
  init_cdevice : Int

/-- The `for` loop of `vdma_consolidator_probe` over the channels that the `vdma`
phandles of the node resolve to, in order; the loop is left by `break` after the
last of them.  `first` is the C variable of that name.  The result is `none` when
the kernel faults on a division by zero, and otherwise the value the function
returns from inside the loop (`-EINVAL`) or `0` when the loop is left by `break`,
with the consolidator at that point. -/
def vdma_consolidator_probe_loop (env : consolidator_env) :
    List vdma_channel → Bool → vdma_consolidator → Option (Int × vdma_consolidator)
  | [], _, consolidator => some (0, consolidator)
  | vdma :: rest, first, consolidator => Id.run do
    let width := vdma_mm2s_get_px_width vdma
    let height := vdma_mm2s_get_px_height vdma
    let bpp := vdma_mm2s_get_bit_per_px vdma
    let ppi := vdma_mm2s_get_px_per_inch vdma
    let stride := vdma_mm2s_get_stride vdma
    let (rc, fmt) := vdma_get_px_format vdma 0
    if rc ≠ 0 then
      return some (-EINVAL, consolidator)
    let (rc, paddr, _) := vdma_mm2s_get_fb_addr vdma
    if rc ≠ 0 then
      return some (-EINVAL, consolidator)
    if first then
      if ppi = 0 then
        return none
      return vdma_consolidator_probe_loop env rest false
        { consolidator with
          width := width, height := height, bpp := bpp, stride := stride, fmt := fmt,
          width_mm := mul32 width 25 / ppi, height_mm := mul32 height 25 / ppi,
          paddr := paddr }
    if bpp ≠ consolidator.bpp then
      return some (-EINVAL, consolidator)
    if stride ≠ consolidator.stride then
      return some (-EINVAL, consolidator)
    if fmt ≠ consolidator.fmt then
      return some (-EINVAL, consolidator)
    let expected_paddr :=
      (consolidator.paddr + mul32 consolidator.stride consolidator.height) %
        2 ^ env.kernel.dma_addr_bits
    if paddr % 2 ^ env.kernel.dma_addr_bits ≠ expected_paddr then
      return some (-EINVAL, consolidator)
    if ppi = 0 then
      return none
    return vdma_consolidator_probe_loop env rest false
      { consolidator with
        height := u32 (consolidator.height + height),
        height_mm := u32 (consolidator.height_mm + mul32 height 25 / ppi) }

/-- Embedding of `vdma_consolidator_probe(pdev)` with `channels` the channels that
the `vdma` phandles of the node resolve to: `none` when the kernel faults on a
division by zero, and otherwise the return code and the consolidator. -/
def vdma_consolidator_probe (env : consolidator_env) (channels : List vdma_channel) :
    Option (Int × vdma_consolidator) := Id.run do
  if env.consolidators_probed ≥ MAX_VDMA_CONSOLIDATORS then
    return some (-ERANGE, vdma_consolidator_zero)
  if IS_ERR env.kernel env.kzalloc then
    return some (PTR_ERR env.kernel env.kzalloc, vdma_consolidator_zero)
  if env.kzalloc = 0 then
    return some (-ENOMEM, vdma_consolidator_zero)
  match vdma_consolidator_probe_loop env channels true vdma_consolidator_zero with
  | none => return none
  | some (rc, consolidator) =>
    if rc ≠ 0 then
      return some (rc, consolidator)
    if env.init_cdevice ≠ 0 then
      return some (env.init_cdevice, consolidator)
    return some (0, consolidator)

/-- Embedding of `vdma_consolidator_mmap(file_p, vma)` with `consolidator` the
consolidator in `file_p->private_data`; arguments and result as for `vdma_mmap`. -/
def vdma_consolidator_mmap (kernel_rc : mmap_request → Int) (consolidator : vdma_consolidator)
    (vm_start vm_end : Nat) : Int × Option mmap_request := Id.run do
  let recv_size := sub32 vm_end vm_start
  let expected_size := mul32 consolidator.stride consolidator.height
  if recv_size ≠ expected_size then
    return (-EINVAL, none)
  return (kernel_rc (mmap_request.vm_iomap_memory consolidator.paddr expected_size),
          some (mmap_request.vm_iomap_memory consolidator.paddr expected_size))

/-- The channel that `vdma_mm2s_probe` leaves for a 1920 x 1080 node at 32 bits per
pixel without `frame-ppi`, on a channel whose `color-format` is "rgba". -/
def channel_probed_without_ppi : vdma_channel :=
  (vdma_mm2s_probe probe_env_64
    (channel_of_color_format (some 0) (some 1) (some 2) (some 3))
    (mm2s_node_of 32 1920 1080 none none)).2

/-- The answers of a 64-bit kernel in which no consolidator has been probed yet and
every service succeeds. -/
def consolidator_env_64 : consolidator_env :=
  { kernel := probe_env_64, kzalloc := 0xFFFF800020000000, consolidators_probed := 0,
    init_cdevice := 0 }

/-- The `index`-th of the channels that each drive a strip of 1920 x 360 pixels of
one panel at 32 bits per pixel, 100 pixels per inch and colour format "rgba": the
strips lie one after the other from bus address `0x30000000`, 7680 x 360 = 2764800
bytes each. -/
def channel_strip (index : Nat) : vdma_channel :=
  { channel_of_color_format (some 0) (some 1) (some 2) (some 3) with
    mm2s := { mm2s_zero with
      active := true, frame_width := 1920, frame_height := 360, frame_bpp := 32,
      frame_stride := 7680, frame_ppi := 100, buffer := 0x100000 + index * 2764800,
      phys_addr := 0x30000000 + index * 2764800, irq := -1 } }

/-- The consolidator that `vdma_consolidator_probe` builds over three strips. -/
def consolidator_of_strips : vdma_consolidator :=
  { width := 1920, width_mm := 480, height := 1080, height_mm := 270, bpp := 32,
    stride := 7680, fmt := (vdma_get_px_format (channel_strip 0) 0).2, paddr := 0x30000000 }

/-- The `mm2s` node of the `index`-th of the channels of 16384 x 32768 pixels at 32
bits per pixel and 100 pixels per inch whose buffers of 65536 x 32768 = `0x80000000`
bytes are the `memory-addr` regions that lie one after the other from bus address
`0x100000000`. -/
def mm2s_node_tall (index : Nat) : mm2s_node :=
  { mm2s_node_of 32 16384 32768 none
      (some { start := 0x100000000 + index * 0x80000000, size := 0x80000000 }) with
    frame_ppi := some 100 }

/-- The channel that `vdma_mm2s_probe` leaves for the node above, on a channel whose
`color-format` is "rgba". -/
def channel_tall (index : Nat) : vdma_channel :=
  (vdma_mm2s_probe probe_env_64
    (channel_of_color_format (some 0) (some 1) (some 2) (some 3))
    (mm2s_node_tall index)).2

/-! ## video-sync.c : the `ioctl` of the synchronizer device -/

def VIDEO_SYNC_TOTAL_SIZE_WIDTH_MASK : Nat := 0xFFF <<< 0
def VIDEO_SYNC_TOTAL_SIZE_HEIGHT_MASK : Nat := 0xFFF <<< 16

def VIDEO_SYNC_ACTIVE_SIZE_WIDTH_MASK : Nat := 0xFFF <<< 0
def VIDEO_SYNC_ACTIVE_SIZE_HEIGHT_MASK : Nat := 0xFFF <<< 16

def VIDEO_SYNC_DELAY_EXT_SYNC_MASK : Nat := 0xFFF <<< 0
def VIDEO_SYNC_DELAY_PL_MASK : Nat := 0xFFF <<< 16

def VIDEO_SYNC_IRQ_PL_ERR_MASK : Nat := 1 <<< 0
def VIDEO_SYNC_IRQ_SOF_ERR_MASK : Nat := 1 <<< 1
def VIDEO_SYNC_IRQ_URUN_MASK : Nat := 1 <<< 2
def VIDEO_SYNC_IRQ_SYNC_TO_MASK : Nat := 1 <<< 3
def VIDEO_SYNC_IRQ_FRAME_DONE_MASK : Nat := 1 <<< 4
def VIDEO_SYNC_IRQ_ERR_SHORT_MASK : Nat := 1 <<< 5
def VIDEO_SYNC_IRQ_ERR_LONG_MASK : Nat := 1 <<< 6
def VIDEO_SYNC_IRQ_FRAME_SYNC_MASK : Nat := 1 <<< 7

def VIDEO_SYNC_CMD_GET_INFO : Nat := 0x445201
def VIDEO_SYNC_CMD_SET_INFO : Nat := 0x445202
def VIDEO_SYNC_CMD_CTL_AUXRST : Nat := 0x445203
def VIDEO_SYNC_CMD_CTL_SW_RST : Nat := 0x445204

/-- The C `struct video_sync_info`; `name` holds the 64 bytes of the array. -/
structure video_sync_info where
  name : List Nat
  running : Bool
  ext_sync : Bool
  ilace : Bool
  irqen : Bool
  videoen : Bool
  dyn_blend : Bool
  slave_vdma : Bool
  sync_field : Bool
  field_ext : Bool
  pl_late : Bool
  pl_err_irq_enabled : Bool
  sof_err_irq_enabled : Bool
  urun_err_irq_enabled : Bool
  sync_to_err_irq_enabled : Bool
  frame_done_irq_enabled : Bool
  err_short_irq_enabled : Bool
  err_long_irq_enabled : Bool
  frame_sync_irq_enabled : Bool
  version : Nat
  pl_err : Nat
  sof_err : Nat
  urun_err : Nat
  sync_to_err : Nat
  short_line_err : Nat
  long_line_err : Nat
  frames_done : Nat
  even_frames_done : Nat
  odd_frames_done : Nat
  dma_buf_index : Nat
  total_width : Nat
  total_height : Nat
  active_width : Nat
  active_height : Nat
  delay_ext_sync : Nat
  delay_pl : Nat

/-- C library `strncpy(dest, src, n)`, as the `n` bytes it leaves in `dest`: the
bytes of `src` up to its terminating `0`, cut after `n` bytes, and `0` in what
remains of the `n` bytes. -/
def strncpy (src : List Nat) (n : Nat) : List Nat :=
  ((src.takeWhile fun c => c != 0).take n) ++
    List.replicate (n - ((src.takeWhile fun c => c != 0).take n).length) 0

/-- The word that the case `VIDEO_SYNC_CMD_SET_INFO` of `video_sync_ioctl` builds
for the IRQ-enable register (`reg = 0;` and the eight `if` statements that follow). -/
def video_sync_set_info_irq_enable (info : video_sync_info) : Nat := Id.run do
  let mut reg := 0
  if info.frame_done_irq_enabled then
    reg := reg ||| VIDEO_SYNC_IRQ_FRAME_DONE_MASK
  if info.sync_to_err_irq_enabled then
    reg := reg ||| VIDEO_SYNC_IRQ_SYNC_TO_MASK
  if info.urun_err_irq_enabled then
    reg := reg ||| VIDEO_SYNC_IRQ_URUN_MASK
  if info.sof_err_irq_enabled then
    reg := reg ||| VIDEO_SYNC_IRQ_SOF_ERR_MASK
  if info.pl_err_irq_enabled then
    reg := reg ||| VIDEO_SYNC_IRQ_PL_ERR_MASK
  if info.err_short_irq_enabled then
    reg := reg ||| VIDEO_SYNC_IRQ_ERR_SHORT_MASK
  if info.err_long_irq_enabled then
    reg := reg ||| VIDEO_SYNC_IRQ_ERR_LONG_MASK
  if info.frame_sync_irq_enabled then
    reg := reg ||| VIDEO_SYNC_IRQ_FRAME_SYNC_MASK
  return reg

/-- The word that the case `VIDEO_SYNC_CMD_SET_INFO` of `video_sync_ioctl` builds
for the control register before the run bit (`reg = 0;` and the six `if` statements
that follow). -/
def video_sync_set_info_control (info : video_sync_info) : Nat := Id.run do
  let mut reg := 0
  if info.dyn_blend then
    reg := reg ||| VIDEO_SYNC_CTRL_DYN_BLEND_MASK
  if info.videoen then
    reg := reg ||| VIDEO_SYNC_CTRL_VIDEO_EN_MASK
  if info.irqen then
    reg := reg ||| VIDEO_SYNC_CTRL_IRQEN_MASK
  if info.ilace then
    reg := reg ||| VIDEO_SYNC_CTRL_ILACE_MASK
  if info.ext_sync then
    reg := reg ||| VIDEO_SYNC_CTRL_EXT_SYNC_MASK
  if info.slave_vdma then
    reg := reg ||| VIDEO_SYNC_CTRL_SLAVE_VDMA_MASK
  return reg

/-- The case `VIDEO_SYNC_CMD_GET_INFO` of `video_sync_ioctl`: the structure that
`arg` points to after the call, `info` being that structure before the call and
`pdev_name` the bytes of `synchronizer->pdev->name`. -/
def video_sync_ioctl_GET_INFO (pdev_name : List Nat) (synchronizer : video_sync)
    (info : video_sync_info) : video_sync_info := Id.run do
  let mut info := info
  info := { info with name := strncpy pdev_name 64 }
  let mut reg := ioread32 synchronizer.regs VIDEO_SYNC_CONTROL_REGISTER
  info := { info with
    running := (reg &&& VIDEO_SYNC_CTRL_RUN_MASK) != 0
    ext_sync := (reg &&& VIDEO_SYNC_CTRL_EXT_SYNC_MASK) != 0
    ilace := (reg &&& VIDEO_SYNC_CTRL_ILACE_MASK) != 0
    irqen := (reg &&& VIDEO_SYNC_CTRL_IRQEN_MASK) != 0
    videoen := (reg &&& VIDEO_SYNC_CTRL_VIDEO_EN_MASK) != 0
    dyn_blend := (reg &&& VIDEO_SYNC_CTRL_DYN_BLEND_MASK) != 0
    slave_vdma := (reg &&& VIDEO_SYNC_CTRL_SLAVE_VDMA_MASK) != 0 }
  reg := ioread32 synchronizer.regs VIDEO_SYNC_STATUS_REGISTER
  if synchronizer.irq ≠ -1 then
    info := { info with
      pl_err := synchronizer.pl_err
      sof_err := synchronizer.sof_err
      urun_err := synchronizer.urun_err
      sync_to_err := synchronizer.sync_to_err
      short_line_err := synchronizer.short_line_err
      long_line_err := synchronizer.long_line_err
      frames_done := synchronizer.frames_done }
  else
    info := { info with
      pl_err := if (reg &&& VIDEO_SYNC_STATUS_PL_ERR_MASK) != 0 then 1 else 0
      sof_err := if (reg &&& VIDEO_SYNC_STATUS_SOF_ERR_MASK) != 0 then 1 else 0
      urun_err := if (reg &&& VIDEO_SYNC_STATUS_URUN_MASK) != 0 then 1 else 0
      sync_to_err := if (reg &&& VIDEO_SYNC_STATUS_SYNC_TO_MASK) != 0 then 1 else 0
      short_line_err := if (reg &&& VIDEO_SYNC_STATUS_SHORT_LINE_ERR_MASK) != 0 then 1 else 0
      long_line_err := if (reg &&& VIDEO_SYNC_STATUS_LONG_LINE_ERR_MASK) != 0 then 1 else 0
      frames_done := 0 }
  info := { info with
    even_frames_done := synchronizer.even_frames_done
    odd_frames_done := synchronizer.odd_frames_done
    sync_field := (reg &&& VIDEO_SYNC_STATUS_SYNC_FIELD_MASK) != 0
    field_ext := (reg &&& VIDEO_SYNC_STATUS_FIELD_EXT_MASK) != 0
    pl_late := (reg &&& VIDEO_SYNC_STATUS_PL_LATE_MASK) != 0
    dma_buf_index := (reg &&& VIDEO_SYNC_STATUS_DMA_BUF_INDEX_MASK) >>> 11 }
  reg := ioread32 synchronizer.regs VIDEO_SYNC_TOTAL_SIZE_REGISTER
  info := { info with
    total_width := reg &&& VIDEO_SYNC_TOTAL_SIZE_WIDTH_MASK
    total_height := (reg &&& VIDEO_SYNC_TOTAL_SIZE_HEIGHT_MASK) >>> 16 }
  reg := ioread32 synchronizer.regs VIDEO_SYNC_ACTIVE_SIZE_REGISTER
  info := { info with
    active_width := reg &&& VIDEO_SYNC_ACTIVE_SIZE_WIDTH_MASK
    active_height := (reg &&& VIDEO_SYNC_ACTIVE_SIZE_HEIGHT_MASK) >>> 16 }
  reg := ioread32 synchronizer.regs VIDEO_SYNC_DELAY_LINES_REGISTER
  info := { info with
    delay_ext_sync := reg &&& VIDEO_SYNC_DELAY_EXT_SYNC_MASK
    delay_pl := (reg &&& VIDEO_SYNC_DELAY_PL_MASK) >>> 16 }
  reg := ioread32 synchronizer.regs VIDEO_SYNC_IRQ_ENABLE_REGISTER
  info := { info with
    pl_err_irq_enabled := (reg &&& VIDEO_SYNC_IRQ_PL_ERR_MASK) != 0
    sof_err_irq_enabled := (reg &&& VIDEO_SYNC_IRQ_SOF_ERR_MASK) != 0
    urun_err_irq_enabled := (reg &&& VIDEO_SYNC_IRQ_URUN_MASK) != 0
    sync_to_err_irq_enabled := (reg &&& VIDEO_SYNC_IRQ_SYNC_TO_MASK) != 0
    frame_done_irq_enabled := (reg &&& VIDEO_SYNC_IRQ_FRAME_DONE_MASK) != 0
    err_short_irq_enabled := (reg &&& VIDEO_SYNC_IRQ_ERR_SHORT_MASK) != 0
    err_long_irq_enabled := (reg &&& VIDEO_SYNC_IRQ_ERR_LONG_MASK) != 0
    frame_sync_irq_enabled := (reg &&& VIDEO_SYNC_IRQ_FRAME_SYNC_MASK) != 0 }
  info := { info with version := ioread32 synchronizer.regs VIDEO_SYNC_FW_VERSION_REGISTER }
  return info

/-- The case `VIDEO_SYNC_CMD_SET_INFO` of `video_sync_ioctl`: the register window
after the call, `info` being the structure that `arg` points to. -/
def video_sync_ioctl_SET_INFO (synchronizer : video_sync) (info : video_sync_info) :
    Regs := Id.run do
  let mut regs := synchronizer.regs
  let mut reg := ioread32 regs VIDEO_SYNC_CONTROL_REGISTER
  reg := reg &&& not32 VIDEO_SYNC_CTRL_RUN_MASK
  regs := iowrite32 reg VIDEO_SYNC_CONTROL_REGISTER regs
  reg := video_sync_set_info_irq_enable info
  regs := iowrite32 reg VIDEO_SYNC_IRQ_ENABLE_REGISTER regs
  reg := u32 (info.delay_pl <<< 16) &&& VIDEO_SYNC_DELAY_PL_MASK
  reg := reg ||| (info.delay_ext_sync &&& VIDEO_SYNC_DELAY_EXT_SYNC_MASK)
  regs := iowrite32 reg VIDEO_SYNC_DELAY_LINES_REGISTER regs
  reg := u32 (info.active_height <<< 16) &&& VIDEO_SYNC_ACTIVE_SIZE_HEIGHT_MASK
  reg := reg ||| (info.active_width &&& VIDEO_SYNC_ACTIVE_SIZE_WIDTH_MASK)
  regs := iowrite32 reg VIDEO_SYNC_ACTIVE_SIZE_REGISTER regs
  reg := u32 (info.total_height <<< 16) &&& VIDEO_SYNC_TOTAL_SIZE_HEIGHT_MASK
  reg := reg ||| (info.total_width &&& VIDEO_SYNC_TOTAL_SIZE_WIDTH_MASK)
  regs := iowrite32 reg VIDEO_SYNC_TOTAL_SIZE_REGISTER regs
  reg := video_sync_set_info_control info
  regs := iowrite32 reg VIDEO_SYNC_CONTROL_REGISTER regs
  if info.running then
    reg := reg ||| VIDEO_SYNC_CTRL_RUN_MASK
    regs := iowrite32 reg VIDEO_SYNC_CONTROL_REGISTER regs
  return regs

/-- Embedding of `video_sync_ioctl(file, cmd, arg)` with `synchronizer` the
synchronizer in `file->private_data`, `pdev_name` the bytes of its
`pdev->name`, and `info` the structure that `arg` points to when `cmd` takes it for
a pointer.  The result is the return code, the synchronizer and that structure
after the call. -/
def video_sync_ioctl (pdev_name : List Nat) (synchronizer : video_sync) (cmd arg : Nat)
    (info : video_sync_info) : Int × video_sync × video_sync_info := Id.run do
  if cmd = VIDEO_SYNC_CMD_GET_INFO then
    return (0, synchronizer, video_sync_ioctl_GET_INFO pdev_name synchronizer info)
  if cmd = VIDEO_SYNC_CMD_SET_INFO then
    return (0, { synchronizer with regs := video_sync_ioctl_SET_INFO synchronizer info }, info)
  if cmd = VIDEO_SYNC_CMD_CTL_AUXRST then
    let mut reg := ioread32 synchronizer.regs VIDEO_SYNC_CONTROL_REGISTER
    if arg ≠ 0 then
      reg := reg ||| VIDEO_SYNC_CTRL_AUXRST_MASK
    else
      reg := reg &&& not32 VIDEO_SYNC_CTRL_AUXRST_MASK
    return (0, { synchronizer with
                  regs := iowrite32 reg VIDEO_SYNC_CONTROL_REGISTER synchronizer.regs }, info)
  if cmd = VIDEO_SYNC_CMD_CTL_SW_RST then
    let mut reg := ioread32 synchronizer.regs VIDEO_SYNC_CONTROL_REGISTER
    if arg ≠ 0 then
      reg := reg ||| VIDEO_SYNC_CTRL_SW_RST_MASK
    else
      reg := reg &&& not32 VIDEO_SYNC_CTRL_SW_RST_MASK
    return (0, { synchronizer with
                  regs := iowrite32 reg VIDEO_SYNC_CONTROL_REGISTER synchronizer.regs }, info)
  return (-ENOTSUPP, synchronizer, info)

/-- A `struct video_sync_info` filled with zeros. -/
def video_sync_info_zero : video_sync_info :=
  { name := List.replicate 64 0, running := false, ext_sync := false, ilace := false,
    irqen := false, videoen := false, dyn_blend := false, slave_vdma := false,
    sync_field := false, field_ext := false, pl_late := false, pl_err_irq_enabled := false,
    sof_err_irq_enabled := false, urun_err_irq_enabled := false,
    sync_to_err_irq_enabled := false, frame_done_irq_enabled := false,
    err_short_irq_enabled := false, err_long_irq_enabled := false,
    frame_sync_irq_enabled := false, version := 0, pl_err := 0, sof_err := 0, urun_err := 0,
    sync_to_err := 0, short_line_err := 0, long_line_err := 0, frames_done := 0,
    even_frames_done := 0, odd_frames_done := 0, dma_buf_index := 0, total_width := 0,
    total_height := 0, active_width := 0, active_height := 0, delay_ext_sync := 0,
    delay_pl := 0 }

/-- The settings of a running interlaced synchronizer for 720 x 576 active pixels in
a frame of 864 x 625, with interrupts on frame done and on underrun. -/
def video_sync_info_576i : video_sync_info :=
  { video_sync_info_zero with
    running := true, ilace := true, irqen := true, videoen := true,
    frame_done_irq_enabled := true, urun_err_irq_enabled := true,
    total_width := 864, total_height := 625, active_width := 720, active_height := 576,
    delay_ext_sync := 3, delay_pl := 22 }

/-! ## video-vdma.c : the `color-format` property in `vdma_probe` -/

/-- The `for` loop of `vdma_probe` over the characters of `color_format`, from the
character at index `i` on; the list holds the characters from that index up to the
terminating `0`.  `i * 8` is the product of the C `int`, stored in a `u32` member. -/
def vdma_probe_color_format_loop : List Char → Nat → vdma_channel → vdma_channel
  | [], _, vdma => vdma
  | c :: rest, i, vdma =>
    vdma_probe_color_format_loop rest (i + 1)
      (if c = 'r' then { vdma with red_offset := u32 (i * 8), red_support := true }
       else if c = 'g' then { vdma with green_offset := u32 (i * 8), green_support := true }
       else if c = 'b' then { vdma with blue_offset := u32 (i * 8), blue_support := true }
       else if c = 'a' then { vdma with alpha_offset := u32 (i * 8), alpha_support := true }
       else vdma)

/-- The part of `vdma_probe` that reads the colour format, from the reset of the
eight colour members to the test of the offsets: `color_format` is the string that
`of_property_read_string` returned, without its terminating `0`.  The result is
`-ENOTSUPP` when `vdma_probe` returns it there and `0` when `vdma_probe` goes on,
with the channel at that point. -/
def vdma_probe_color_format (color_format : List Char) (vdma : vdma_channel) :
    Int × vdma_channel := Id.run do
  let mut vdma := vdma
  vdma := { vdma with
    red_offset := 0, green_offset := 0, blue_offset := 0, alpha_offset := 0,
    red_support := false, green_support := false, blue_support := false,
    alpha_support := false }
  vdma := vdma_probe_color_format_loop color_format 0 vdma
  if vdma.red_offset ≥ 32 ∨ vdma.green_offset ≥ 32 ∨ vdma.blue_offset ≥ 32 ∨
      vdma.alpha_offset ≥ 32 then
    return (-ENOTSUPP, vdma)
  return (0, vdma)

/-- The answers of a kernel with 32-bit `unsigned long` and `dma_addr_t` in which no
consolidator has been probed yet and every service succeeds. -/
def consolidator_env_32 : consolidator_env :=
  { kernel := { probe_env_64 with bits_per_long := 32, dma_addr_bits := 32 },
    kzalloc := 0xC0200000, consolidators_probed := 0, init_cdevice := 0 }

/-- An active progressive mm2s channel of 1024 x 1024 pixels at 32 bits per pixel,
100 pixels per inch and colour format "rgba", whose buffer of 4096 x 1024 =
`0x400000` bytes is at bus address `phys_addr`. -/
def channel_square (phys_addr : Nat) : vdma_channel :=
  { channel_of_color_format (some 0) (some 1) (some 2) (some 3) with
    mm2s := { mm2s_zero with
      active := true, frame_width := 1024, frame_height := 1024, frame_bpp := 32,
      frame_stride := 4096, frame_ppi := 100, buffer := 0xC1000000, phys_addr := phys_addr,
      irq := -1 } }

/-! # Theorems -/

/-! ## Auxiliary lemmas: conditionals that meet again after a C `if` block -/

theorem ite_app_unit {σ β : Type} (c : Prop) [Decidable c] (f : σ → PUnit → β) (a b : σ) :
    (if c then f a PUnit.unit else f b PUnit.unit) = f (if c then a else b) PUnit.unit := by
  split <;> rfl

theorem ite_app_clr {σ ρ β : Type} (c : Prop) [Decidable c] (f : Nat → σ → ρ → PUnit → β)
    (x y : Nat) (a b : σ) (r : ρ) :
    (if c then f x a r PUnit.unit else f y b r PUnit.unit) =
      f (if c then x else y) (if c then a else b) r PUnit.unit := by
  split <;> rfl

theorem ite_app_clr_mid {σ ρ β : Type} (c : Prop) [Decidable c] (f : Nat → ρ → σ → PUnit → β)
    (x y : Nat) (r : ρ) (a b : σ) :
    (if c then f x r a PUnit.unit else f y r b PUnit.unit) =
      f (if c then x else y) r (if c then a else b) PUnit.unit := by
  split <;> rfl

theorem ite_or_mask (c : Prop) [Decidable c] (x m : Nat) :
    (if c then x ||| m else x) = x ||| (if c then m else 0) := by
  split <;> simp

theorem ite_vdma_mm2s_mk (c : Prop) [Decidable c]
    (x0 y0 : Nat) (x1 y1 : Nat) (x2 y2 : Nat) (x3 y3 : Bool) (x4 y4 : Nat) (x5 y5 : Nat)
    (x6 y6 : Nat) (x7 y7 : Nat) (x8 y8 : Nat) (x9 y9 : Nat) (x10 y10 : Nat) (x11 y11 : Nat)
    (x12 y12 : Nat) (x13 y13 : Bool) (x14 y14 : Bool) (x15 y15 : Bool) (x16 y16 : Bool)
    (x17 y17 : Int) (x18 y18 : Nat) (x19 y19 : Nat) (x20 y20 : Nat) (x21 y21 : Nat)
    (x22 y22 : Nat) (x23 y23 : Nat) :
    (if c then vdma_mm2s.mk
        x0 x1 x2 x3 x4 x5 x6 x7 x8 x9 x10 x11 x12 x13 x14 x15 x16 x17 x18 x19 x20 x21 x22 x23
      else vdma_mm2s.mk
        y0 y1 y2 y3 y4 y5 y6 y7 y8 y9 y10 y11 y12 y13 y14 y15 y16 y17 y18 y19 y20 y21 y22 y23) =
      vdma_mm2s.mk
        (if c then x0 else y0) (if c then x1 else y1) (if c then x2 else y2)
        (if c then x3 else y3) (if c then x4 else y4) (if c then x5 else y5)
        (if c then x6 else y6) (if c then x7 else y7) (if c then x8 else y8)
        (if c then x9 else y9) (if c then x10 else y10) (if c then x11 else y11)
        (if c then x12 else y12) (if c then x13 else y13) (if c then x14 else y14)
        (if c then x15 else y15) (if c then x16 else y16) (if c then x17 else y17)
        (if c then x18 else y18) (if c then x19 else y19) (if c then x20 else y20)
        (if c then x21 else y21) (if c then x22 else y22) (if c then x23 else y23) := by
  split <;> rfl

theorem ite_vdma_s2mm_mk (c : Prop) [Decidable c]
    (x0 y0 : Nat) (x1 y1 : Nat) (x2 y2 : Nat) (x3 y3 : Nat) (x4 y4 : Nat) (x5 y5 : Nat)
    (x6 y6 : Nat) (x7 y7 : Bool) (x8 y8 : Bool) (x9 y9 : Bool) (x10 y10 : Bool) (x11 y11 : Int)
    (x12 y12 : Nat) (x13 y13 : Nat) (x14 y14 : Nat) (x15 y15 : Nat) (x16 y16 : Nat)
    (x17 y17 : Nat) (x18 y18 : Nat) (x19 y19 : Nat) (x20 y20 : Nat) :
    (if c then vdma_s2mm.mk
        x0 x1 x2 x3 x4 x5 x6 x7 x8 x9 x10 x11 x12 x13 x14 x15 x16 x17 x18 x19 x20
      else vdma_s2mm.mk
        y0 y1 y2 y3 y4 y5 y6 y7 y8 y9 y10 y11 y12 y13 y14 y15 y16 y17 y18 y19 y20) =
      vdma_s2mm.mk
        (if c then x0 else y0) (if c then x1 else y1) (if c then x2 else y2)
        (if c then x3 else y3) (if c then x4 else y4) (if c then x5 else y5)
        (if c then x6 else y6) (if c then x7 else y7) (if c then x8 else y8)
        (if c then x9 else y9) (if c then x10 else y10) (if c then x11 else y11)
        (if c then x12 else y12) (if c then x13 else y13) (if c then x14 else y14)
        (if c then x15 else y15) (if c then x16 else y16) (if c then x17 else y17)
        (if c then x18 else y18) (if c then x19 else y19) (if c then x20 else y20) := by
  split <;> rfl

theorem ite_video_sync_mk (c : Prop) [Decidable c]
    (x0 y0 : Regs) (x1 y1 : Int) (x2 y2 : Bool) (x3 y3 : Bool) (x4 y4 : Nat) (x5 y5 : Nat)
    (x6 y6 : Nat) (x7 y7 : Nat) (x8 y8 : Nat) (x9 y9 : Nat) (x10 y10 : Nat) (x11 y11 : Nat)
    (x12 y12 : Nat) (x13 y13 : drm_crtc) (x14 y14 : vdma_channel) (x15 y15 : video_sync_plane)
    (x16 y16 : Option drm_pending_vblank_event) (x17 y17 : List drm_call) :
    (if c then video_sync.mk
        x0 x1 x2 x3 x4 x5 x6 x7 x8 x9 x10 x11 x12 x13 x14 x15 x16 x17
      else video_sync.mk
        y0 y1 y2 y3 y4 y5 y6 y7 y8 y9 y10 y11 y12 y13 y14 y15 y16 y17) =
      video_sync.mk
        (if c then x0 else y0) (if c then x1 else y1) (if c then x2 else y2)
        (if c then x3 else y3) (if c then x4 else y4) (if c then x5 else y5)
        (if c then x6 else y6) (if c then x7 else y7) (if c then x8 else y8)
        (if c then x9 else y9) (if c then x10 else y10) (if c then x11 else y11)
        (if c then x12 else y12) (if c then x13 else y13) (if c then x14 else y14)
        (if c then x15 else y15) (if c then x16 else y16) (if c then x17 else y17) := by
  split <;> rfl

/-! ## Auxiliary lemmas: registers and bit masks -/

theorem ioread32_lt (r : Regs) (off : Nat) : ioread32 r off < 2 ^ 32 := by
  unfold ioread32 u32
  exact Nat.mod_lt _ (by norm_num)

theorem u32_of_lt {x : Nat} (h : x < 2 ^ 32) : u32 x = x := by
  unfold u32
  exact Nat.mod_eq_of_lt h

theorem ioread32_iowrite32_of_ne (v o o2 : Nat) (r : Regs) (h : o2 ≠ o) :
    ioread32 (iowrite32 v o r) o2 = ioread32 r o2 := by
  simp [ioread32, iowrite32, h]

theorem iowrite32_log (v o : Nat) (r : Regs) :
    (iowrite32 v o r).log = r.log ++ [(o, u32 v)] := rfl

/-- Testing one bit and setting it in an accumulator when it is set extracts
that bit. -/
theorem ite_and_one_shiftLeft (n k : Nat) :
    (if ((n &&& 1 <<< k) != 0) = true then 1 <<< k else 0) = n &&& 1 <<< k := by
  rw [Nat.one_shiftLeft, Nat.and_two_pow]
  cases n.testBit k <;> simp

/-- A bit of a value is decided by the value restricted to a mask that contains
the bit. -/
theorem and_eq_of_and_mask {s h m v : Nat} (hm : h &&& m = m) (hv : s &&& h = v) :
    s &&& m = v &&& m := by
  rw [← hv, Nat.and_assoc, hm]

/-- Setting bit `k` of a value sets that bit and keeps every other. -/
theorem testBit_or_one_shiftLeft (c k i : Nat) :
    (c ||| 1 <<< k).testBit i = (decide (i = k) || c.testBit i) := by
  rw [Nat.one_shiftLeft, Nat.testBit_or, Nat.testBit_two_pow, Bool.or_comm]
  congr 1
  exact decide_eq_decide.mpr eq_comm

/-- Clearing bit `k` of a 32-bit value with the `u32` mask `~(1 << k)` clears that
bit and keeps every other. -/
theorem testBit_and_not32_one_shiftLeft (c k i : Nat) (hc : c < 2 ^ 32) (hk : k < 32) :
    (c &&& not32 (1 <<< k)).testBit i = (!decide (i = k) && c.testBit i) := by
  have hpow : 2 ^ k < 2 ^ 32 := Nat.pow_lt_pow_right (by norm_num) hk
  have hnot : not32 (1 <<< k) = 2 ^ 32 - 1 - 2 ^ k := by
    unfold not32
    rw [Nat.one_shiftLeft, Nat.mod_eq_of_lt hpow]
  rw [Nat.testBit_and, hnot, Nat.sub_sub, Nat.add_comm, Nat.testBit_two_pow_sub_succ hpow,
    Nat.testBit_two_pow]
  by_cases hik : i = k
  · subst hik; simp
  · have hki : ¬ k = i := fun h => hik h.symm
    by_cases hi : i < 32
    · simp [hik, hki, hi]
    · have : c.testBit i = false :=
        Nat.testBit_lt_two_pow (lt_of_lt_of_le hc (Nat.pow_le_pow_right (by norm_num) (by omega)))
      simp [this]

/-! ## Closed forms of the interrupt handlers -/

/-- On its own line `mm2s_irq_handler` returns `IRQ_HANDLED`; each counter advances
when its status bit is set; the status register receives the tested bits that
were set, and the control register the value read with the run bit set. -/
theorem mm2s_irq_handler_eq (ch : vdma_channel) :
    mm2s_irq_handler ch.mm2s.irq ch =
      (irqreturn_t.IRQ_HANDLED,
        { ch with
          mm2s := { ch.mm2s with
            err :=
              if (ioread32 ch.regs VDMA_MM2S_STATUS_REGISTER &&&
                  VDMA_MM2S_STATUS_ERR_IRQ_BITMASK) != 0
              then inc32 ch.mm2s.err else ch.mm2s.err
            sof_early_err :=
              if (ioread32 ch.regs VDMA_MM2S_STATUS_REGISTER &&&
                  VDMA_MM2S_STATUS_SOF_EARLY_ERR_BITMASK) != 0
              then inc32 ch.mm2s.sof_early_err else ch.mm2s.sof_early_err
            decode_err :=
              if (ioread32 ch.regs VDMA_MM2S_STATUS_REGISTER &&&
                  VDMA_MM2S_STATUS_DEC_ERR_BITMASK) != 0
              then inc32 ch.mm2s.decode_err else ch.mm2s.decode_err
            slave_err :=
              if (ioread32 ch.regs VDMA_MM2S_STATUS_REGISTER &&&
                  VDMA_MM2S_STATUS_SLV_ERR_BITMASK) != 0
              then inc32 ch.mm2s.slave_err else ch.mm2s.slave_err
            internal_err :=
              if (ioread32 ch.regs VDMA_MM2S_STATUS_REGISTER &&&
                  VDMA_MM2S_STATUS_INT_ERR_BITMASK) != 0
              then inc32 ch.mm2s.internal_err else ch.mm2s.internal_err
            frame_cnt :=
              if (ioread32 ch.regs VDMA_MM2S_STATUS_REGISTER &&&
                  VDMA_MM2S_STATUS_FRAME_CNT_BITMASK) != 0
              then inc32 ch.mm2s.frame_cnt else ch.mm2s.frame_cnt }
          regs :=
            iowrite32
              (ioread32 ch.regs VDMA_MM2S_CONTROL_REGISTER ||| VDMA_MM2S_CONTROL_RS_BITMASK)
              VDMA_MM2S_CONTROL_REGISTER
              (iowrite32
                (ioread32 ch.regs VDMA_MM2S_STATUS_REGISTER &&&
                  (VDMA_MM2S_STATUS_ERR_IRQ_BITMASK ||| VDMA_MM2S_STATUS_SOF_EARLY_ERR_BITMASK |||
                    VDMA_MM2S_STATUS_DEC_ERR_BITMASK ||| VDMA_MM2S_STATUS_SLV_ERR_BITMASK |||
                    VDMA_MM2S_STATUS_INT_ERR_BITMASK ||| VDMA_MM2S_STATUS_FRAME_CNT_BITMASK))
                VDMA_MM2S_STATUS_REGISTER ch.regs) }) := by
  unfold mm2s_irq_handler
  rw [if_neg (by simp)]
  generalize hst : ioread32 ch.regs VDMA_MM2S_STATUS_REGISTER = st
  lift_lets
  intro m regs clr_status status
  have hst2 : status = st := hst
  clear_value status
  subst hst2
  clear hst
  obtain ⟨mm2s, s2mm, regs0, ro, go, bo, ao, rs, gs, bs, as⟩ := ch
  cases mm2s
  intro jpF jp6 jp5 jp4 jp3 jp2 m_1 clr_1
  simp only [Id.run, bind, pure, m_1, clr_1, m, clr_status, ite_app_clr]
  simp only [ite_vdma_mm2s_mk, ite_self, ite_or_mask]
  simp only [jp2, bind, pure, ite_app_clr]
  simp only [ite_vdma_mm2s_mk, ite_self, ite_or_mask]
  simp only [jp3, bind, pure, ite_app_clr]
  simp only [ite_vdma_mm2s_mk, ite_self, ite_or_mask]
  simp only [jp4, bind, pure, ite_app_clr]
  simp only [ite_vdma_mm2s_mk, ite_self, ite_or_mask]
  simp only [jp5, bind, pure, ite_app_clr]
  simp only [ite_vdma_mm2s_mk, ite_self, ite_or_mask]
  simp only [jp6, bind, pure, ite_app_clr]
  simp only [ite_vdma_mm2s_mk, ite_self, ite_or_mask]
  simp only [jpF, regs, VDMA_MM2S_STATUS_ERR_IRQ_BITMASK, VDMA_MM2S_STATUS_SOF_EARLY_ERR_BITMASK,
    VDMA_MM2S_STATUS_DEC_ERR_BITMASK, VDMA_MM2S_STATUS_SLV_ERR_BITMASK,
    VDMA_MM2S_STATUS_INT_ERR_BITMASK, VDMA_MM2S_STATUS_FRAME_CNT_BITMASK,
    ite_and_one_shiftLeft, Nat.zero_or, ← Nat.and_or_distrib_left]
  rw [ioread32_iowrite32_of_ne _ _ _ _ (by decide)]
  rfl

/-- On its own line `s2mm_irq_handler` returns `IRQ_HANDLED`; each counter advances
when its status bit is set; the status register receives the tested bits that
were set, and the control register the value read with the run bit set. -/
theorem s2mm_irq_handler_eq (ch : vdma_channel) :
    s2mm_irq_handler ch.s2mm.irq ch =
      (irqreturn_t.IRQ_HANDLED,
        { ch with
          s2mm := { ch.s2mm with
            eol_late_err :=
              if (ioread32 ch.regs VDMA_S2MM_STATUS_REGISTER &&&
                  VDMA_S2MM_STATUS_EOL_LATE_ERR_BITMASK) != 0
              then inc32 ch.s2mm.eol_late_err else ch.s2mm.eol_late_err
            err :=
              if (ioread32 ch.regs VDMA_S2MM_STATUS_REGISTER &&&
                  VDMA_S2MM_STATUS_ERR_BITMASK) != 0
              then inc32 ch.s2mm.err else ch.s2mm.err
            sof_late_err :=
              if (ioread32 ch.regs VDMA_S2MM_STATUS_REGISTER &&&
                  VDMA_S2MM_STATUS_SOF_LATE_ERR_BITMASK) != 0
              then inc32 ch.s2mm.sof_late_err else ch.s2mm.sof_late_err
            eol_early_err :=
              if (ioread32 ch.regs VDMA_S2MM_STATUS_REGISTER &&&
                  VDMA_S2MM_STATUS_EOL_EARLY_ERR_BITMASK) != 0
              then inc32 ch.s2mm.eol_early_err else ch.s2mm.eol_early_err
            sof_early_err :=
              if (ioread32 ch.regs VDMA_S2MM_STATUS_REGISTER &&&
                  VDMA_S2MM_STATUS_SOF_EARLY_ERR_BITMASK) != 0
              then inc32 ch.s2mm.sof_early_err else ch.s2mm.sof_early_err
            decode_err :=
              if (ioread32 ch.regs VDMA_S2MM_STATUS_REGISTER &&&
                  VDMA_S2MM_STATUS_DEC_ERR_BITMASK) != 0
              then inc32 ch.s2mm.decode_err else ch.s2mm.decode_err
            slave_err :=
              if (ioread32 ch.regs VDMA_S2MM_STATUS_REGISTER &&&
                  VDMA_S2MM_STATUS_SLV_ERR_BITMASK) != 0
              then inc32 ch.s2mm.slave_err else ch.s2mm.slave_err
            internal_err :=
              if (ioread32 ch.regs VDMA_S2MM_STATUS_REGISTER &&&
                  VDMA_S2MM_STATUS_INT_ERR_BITMASK) != 0
              then inc32 ch.s2mm.internal_err else ch.s2mm.internal_err
            frame_cnt :=
              if (ioread32 ch.regs VDMA_S2MM_STATUS_REGISTER &&&
                  VDMA_S2MM_STATUS_FRAME_CNT_BITMASK) != 0
              then inc32 ch.s2mm.frame_cnt else ch.s2mm.frame_cnt }
          regs :=
            iowrite32
              (ioread32 ch.regs VDMA_S2MM_CONTROL_REGISTER ||| VDMA_S2MM_CONTROL_RS_BITMASK)
              VDMA_S2MM_CONTROL_REGISTER
              (iowrite32
                (ioread32 ch.regs VDMA_S2MM_STATUS_REGISTER &&&
                  (VDMA_S2MM_STATUS_EOL_LATE_ERR_BITMASK ||| VDMA_S2MM_STATUS_ERR_BITMASK |||
                    VDMA_S2MM_STATUS_SOF_LATE_ERR_BITMASK |||
                    VDMA_S2MM_STATUS_EOL_EARLY_ERR_BITMASK |||
                    VDMA_S2MM_STATUS_SOF_EARLY_ERR_BITMASK ||| VDMA_S2MM_STATUS_DEC_ERR_BITMASK |||
                    VDMA_S2MM_STATUS_SLV_ERR_BITMASK ||| VDMA_S2MM_STATUS_INT_ERR_BITMASK |||
                    VDMA_S2MM_STATUS_FRAME_CNT_BITMASK))
                VDMA_S2MM_STATUS_REGISTER ch.regs) }) := by
  unfold s2mm_irq_handler
  rw [if_neg (by simp)]
  generalize hst : ioread32 ch.regs VDMA_S2MM_STATUS_REGISTER = st
  lift_lets
  intro s regs clr_status status
  have hst2 : status = st := hst
  clear_value status
  subst hst2
  clear hst
  obtain ⟨mm2s, s2mm, regs0, ro, go, bo, ao, rs, gs, bs, as⟩ := ch
  cases s2mm
  intro jpF jp9 jp8 jp7 jp6 jp5 jp4 jp3 jp2 s_1 clr_1
  simp only [Id.run, bind, pure, s_1, clr_1, s, clr_status, ite_app_clr_mid]
  simp only [ite_vdma_s2mm_mk, ite_self, ite_or_mask]
  simp only [jp2, bind, pure, ite_app_clr_mid]
  simp only [ite_vdma_s2mm_mk, ite_self, ite_or_mask]
  simp only [jp3, bind, pure, ite_app_clr_mid]
  simp only [ite_vdma_s2mm_mk, ite_self, ite_or_mask]
  simp only [jp4, bind, pure, ite_app_clr_mid]
  simp only [ite_vdma_s2mm_mk, ite_self, ite_or_mask]
  simp only [jp5, bind, pure, ite_app_clr_mid]
  simp only [ite_vdma_s2mm_mk, ite_self, ite_or_mask]
  simp only [jp6, bind, pure, ite_app_clr_mid]
  simp only [ite_vdma_s2mm_mk, ite_self, ite_or_mask]
  simp only [jp7, bind, pure, ite_app_clr_mid]
  simp only [ite_vdma_s2mm_mk, ite_self, ite_or_mask]
  simp only [jp8, bind, pure, ite_app_clr_mid]
  simp only [ite_vdma_s2mm_mk, ite_self, ite_or_mask]
  simp only [jp9, bind, pure, ite_app_clr_mid]
  simp only [ite_vdma_s2mm_mk, ite_self, ite_or_mask]
  simp only [jpF, regs, VDMA_S2MM_STATUS_EOL_LATE_ERR_BITMASK, VDMA_S2MM_STATUS_ERR_BITMASK,
    VDMA_S2MM_STATUS_SOF_LATE_ERR_BITMASK, VDMA_S2MM_STATUS_EOL_EARLY_ERR_BITMASK,
    VDMA_S2MM_STATUS_SOF_EARLY_ERR_BITMASK, VDMA_S2MM_STATUS_DEC_ERR_BITMASK,
    VDMA_S2MM_STATUS_SLV_ERR_BITMASK, VDMA_S2MM_STATUS_INT_ERR_BITMASK,
    VDMA_S2MM_STATUS_FRAME_CNT_BITMASK, ite_and_one_shiftLeft, Nat.zero_or,
    ← Nat.and_or_distrib_left]
  rw [ioread32_iowrite32_of_ne _ _ _ _ (by decide)]
  rfl

/-- On its own line the synchronizer `irq_handler` returns `IRQ_HANDLED`; each error
counter advances when its status bit is set; FRAME_DONE advances `frames_done`
and, with vblank enabled, reports the vblank and hands over the pending event;
on an interlaced synchronizer SYNC_TX advances the counter of the field and
toggles both channels; the control register is written twice. -/
theorem irq_handler_eq (s : video_sync) :
    irq_handler s.irq s =
      (irqreturn_t.IRQ_HANDLED,
        { s with
          pl_err :=
            (if (ioread32 s.regs VIDEO_SYNC_STATUS_REGISTER &&&
                  VIDEO_SYNC_STATUS_PL_ERR_MASK) != 0
             then inc32 s.pl_err else s.pl_err)
          sof_err :=
            (if (ioread32 s.regs VIDEO_SYNC_STATUS_REGISTER &&&
                  VIDEO_SYNC_STATUS_SOF_ERR_MASK) != 0
             then inc32 s.sof_err else s.sof_err)
          urun_err :=
            (if (ioread32 s.regs VIDEO_SYNC_STATUS_REGISTER &&&
                  VIDEO_SYNC_STATUS_URUN_MASK) != 0
             then inc32 s.urun_err else s.urun_err)
          sync_to_err :=
            (if (ioread32 s.regs VIDEO_SYNC_STATUS_REGISTER &&&
                  VIDEO_SYNC_STATUS_SYNC_TO_MASK) != 0
             then inc32 s.sync_to_err else s.sync_to_err)
          short_line_err :=
            (if (ioread32 s.regs VIDEO_SYNC_STATUS_REGISTER &&&
                  VIDEO_SYNC_STATUS_SHORT_LINE_ERR_MASK) != 0
             then inc32 s.short_line_err else s.short_line_err)
          long_line_err :=
            (if (ioread32 s.regs VIDEO_SYNC_STATUS_REGISTER &&&
                  VIDEO_SYNC_STATUS_LONG_LINE_ERR_MASK) != 0
             then inc32 s.long_line_err else s.long_line_err)
          frames_done :=
            (if (ioread32 s.regs VIDEO_SYNC_STATUS_REGISTER &&&
                  VIDEO_SYNC_STATUS_FRAME_DONE_MASK) != 0
             then inc32 s.frames_done else s.frames_done)
          vblank_event :=
            (if ((ioread32 s.regs VIDEO_SYNC_STATUS_REGISTER &&&
                    VIDEO_SYNC_STATUS_FRAME_DONE_MASK) != 0 && s.vblank_enabled)
             then none else s.vblank_event)
          drm_calls :=
            (if ((ioread32 s.regs VIDEO_SYNC_STATUS_REGISTER &&&
                    VIDEO_SYNC_STATUS_FRAME_DONE_MASK) != 0 && s.vblank_enabled)
             then
               match s.vblank_event with
               | some e =>
                 s.drm_calls ++ [drm_call.drm_crtc_handle_vblank] ++
                   [drm_call.drm_crtc_send_vblank_event e, drm_call.drm_crtc_vblank_put]
               | none => s.drm_calls ++ [drm_call.drm_crtc_handle_vblank]
             else s.drm_calls)
          even_frames_done :=
            (if (s.interlaced &&
                  (ioread32 s.regs VIDEO_SYNC_STATUS_REGISTER &&&
                    VIDEO_SYNC_STATUS_SYNC_TX_MASK) != 0 &&
                  (ioread32 s.regs VIDEO_SYNC_STATUS_REGISTER &&&
                    VIDEO_SYNC_STATUS_SYNC_FIELD_MASK) == 0)
             then inc32 s.even_frames_done else s.even_frames_done)
          odd_frames_done :=
            (if (s.interlaced &&
                  (ioread32 s.regs VIDEO_SYNC_STATUS_REGISTER &&&
                    VIDEO_SYNC_STATUS_SYNC_TX_MASK) != 0 &&
                  !((ioread32 s.regs VIDEO_SYNC_STATUS_REGISTER &&&
                    VIDEO_SYNC_STATUS_SYNC_FIELD_MASK) == 0))
             then inc32 s.odd_frames_done else s.odd_frames_done)
          overlay_plane :=
            (if (s.interlaced &&
                  (ioread32 s.regs VIDEO_SYNC_STATUS_REGISTER &&&
                    VIDEO_SYNC_STATUS_SYNC_TX_MASK) != 0)
             then
               { s.overlay_plane with
                 vdma := (vdma_toggle_interlaced_buffer s.overlay_plane.vdma
                   ((ioread32 s.regs VIDEO_SYNC_STATUS_REGISTER &&&
                     VIDEO_SYNC_STATUS_SYNC_FIELD_MASK) == 0)) }
             else s.overlay_plane)
          video_vdma :=
            (if (s.interlaced &&
                  (ioread32 s.regs VIDEO_SYNC_STATUS_REGISTER &&&
                    VIDEO_SYNC_STATUS_SYNC_TX_MASK) != 0)
             then
               vdma_toggle_interlaced_buffer s.video_vdma
                 ((ioread32 s.regs VIDEO_SYNC_STATUS_REGISTER &&&
                   VIDEO_SYNC_STATUS_SYNC_FIELD_MASK) == 0)
             else s.video_vdma)
          regs :=
            (iowrite32
              (((ioread32 s.regs VIDEO_SYNC_CONTROL_REGISTER ||| VIDEO_SYNC_CTRL_CLRIRQ_MASK) &&&
                  not32 VIDEO_SYNC_CTRL_CLRIRQ_MASK) ||| VIDEO_SYNC_CTRL_IRQEN_MASK)
              VIDEO_SYNC_CONTROL_REGISTER
              (iowrite32
                (ioread32 s.regs VIDEO_SYNC_CONTROL_REGISTER ||| VIDEO_SYNC_CTRL_CLRIRQ_MASK)
                VIDEO_SYNC_CONTROL_REGISTER s.regs)) }) := by
  unfold irq_handler
  rw [if_neg (by simp)]
  generalize hst : ioread32 s.regs VIDEO_SYNC_STATUS_REGISTER = st
  lift_lets
  intro s1 status
  have hst2 : status = st := hst
  clear_value status
  subst hst2
  clear hst
  generalize ((status &&& VIDEO_SYNC_STATUS_FRAME_DONE_MASK) != 0) = fd
  generalize ((status &&& VIDEO_SYNC_STATUS_SYNC_TX_MASK) != 0) = tx
  generalize ((status &&& VIDEO_SYNC_STATUS_SYNC_FIELD_MASK) == 0) = ev
  obtain ⟨regs, irq, interlaced, vblank_enabled, pl_err, sof_err, urun_err, sync_to_err,
    short_line_err, long_line_err, frames_done, even_frames_done, odd_frames_done, crtc,
    video_vdma, overlay_plane, vblank_event, drm_calls⟩ := s
  intro jpF even jpT jpI jpD jp6 jp5 jp4 jp3 jp2 s_1 src
  simp only [Id.run, bind, pure, s_1, s1, ite_app_unit]
  simp only [ite_video_sync_mk, ite_self]
  simp only [jp2, bind, pure, ite_app_unit]
  simp only [ite_video_sync_mk, ite_self]
  simp only [jp3, bind, pure, ite_app_unit]
  simp only [ite_video_sync_mk, ite_self]
  simp only [jp4, bind, pure, ite_app_unit]
  simp only [ite_video_sync_mk, ite_self]
  simp only [jp5, bind, pure, ite_app_unit]
  simp only [ite_video_sync_mk, ite_self]
  simp only [jp6, bind, pure, ite_app_unit]
  simp only [ite_video_sync_mk, ite_self]
  cases vblank_enabled <;> cases vblank_event <;>
    simp only [jpD, bind, pure, ite_app_unit, if_true, if_false, Bool.false_eq_true] <;>
    simp only [ite_video_sync_mk, ite_self] <;>
    simp only [jpI, jpT, even, bind, pure, ite_app_unit] <;>
    simp only [ite_video_sync_mk, ite_self] <;>
    simp only [jpF, bind, pure] <;>
    cases fd <;> cases interlaced <;> cases tx <;> cases ev <;> rfl

/-! ## C1: size check of `vdma_mm2s_set_data` -/

/-- C1, counterexample to the claim as stated: for a channel of width 2, height 1
and 12 bits per pixel the claimed length `width * height * bpp / 8` is 3, yet
`vdma_mm2s_set_data` rejects a frame of 3 bytes with `-EINVAL` and accepts a
frame of 2 bytes. -/
theorem vdma_mm2s_set_data_counterexample :
    (channel_of_geometry 2 1 12).mm2s.frame_width *
        (channel_of_geometry 2 1 12).mm2s.frame_height *
        (channel_of_geometry 2 1 12).mm2s.frame_bpp / 8 = 3 ∧
      (vdma_mm2s_set_data (channel_of_geometry 2 1 12) 0x200000 3 mem_pattern).1 = -EINVAL ∧
      (vdma_mm2s_set_data (channel_of_geometry 2 1 12) 0x200000 2 mem_pattern).1 = 0 := by
  refine ⟨by decide, ?_, ?_⟩ <;> decide

/-- C1, as amended: `vdma_mm2s_set_data` succeeds exactly when `size` equals
`width * height * (bpp / 8)` computed in `u32` arithmetic, `bpp / 8` being the
whole number of bytes per pixel.  On success the `size` bytes of the frame
passed by the caller are at the start of the mm2s buffer and every byte outside that range is
unchanged; otherwise the call returns `-EINVAL` and memory is unchanged.  When
`bpp` is a multiple of 8 and the product fits 32 bits, the accepted size is
`width * height * bpp / 8`. -/
theorem vdma_mm2s_set_data_size_check (ch : vdma_channel) (buffer size : Nat)
    (mem : Nat → Nat) :
    (size = (ch.mm2s.frame_width * ch.mm2s.frame_height * (ch.mm2s.frame_bpp / 8)) % 2 ^ 32 →
        (vdma_mm2s_set_data ch buffer size mem).1 = 0 ∧
        (∀ i, i < size →
          (vdma_mm2s_set_data ch buffer size mem).2 (ch.mm2s.buffer + i) = mem (buffer + i)) ∧
        (∀ a, a < ch.mm2s.buffer ∨ ch.mm2s.buffer + size ≤ a →
          (vdma_mm2s_set_data ch buffer size mem).2 a = mem a)) ∧
      (size ≠ (ch.mm2s.frame_width * ch.mm2s.frame_height * (ch.mm2s.frame_bpp / 8)) % 2 ^ 32 →
        (vdma_mm2s_set_data ch buffer size mem).1 = -EINVAL ∧
        (vdma_mm2s_set_data ch buffer size mem).2 = mem) ∧
      (ch.mm2s.frame_bpp % 8 = 0 →
        ch.mm2s.frame_width * ch.mm2s.frame_height * ch.mm2s.frame_bpp / 8 < 2 ^ 32 →
        (ch.mm2s.frame_width * ch.mm2s.frame_height * (ch.mm2s.frame_bpp / 8)) % 2 ^ 32 =
          ch.mm2s.frame_width * ch.mm2s.frame_height * ch.mm2s.frame_bpp / 8) := by
  have hexp : mul32 (mul32 ch.mm2s.frame_width ch.mm2s.frame_height) (ch.mm2s.frame_bpp / 8) =
      (ch.mm2s.frame_width * ch.mm2s.frame_height * (ch.mm2s.frame_bpp / 8)) % 2 ^ 32 := by
    unfold mul32
    rw [Nat.mod_mul_mod]
  refine ⟨?_, ?_, ?_⟩
  · intro hsize
    have hcond : ¬ (mul32 (mul32 ch.mm2s.frame_width ch.mm2s.frame_height)
        (ch.mm2s.frame_bpp / 8) ≠ size) := by
      rw [hexp]; exact fun h => h hsize.symm
    simp only [vdma_mm2s_set_data, if_neg hcond]
    refine ⟨trivial, ?_, ?_⟩
    · intro i hi
      have : ch.mm2s.buffer ≤ ch.mm2s.buffer + i ∧ ch.mm2s.buffer + i < ch.mm2s.buffer + size :=
        ⟨Nat.le_add_right _ _, by omega⟩
      simp [memcpy, this]
    · intro a ha
      have : ¬ (ch.mm2s.buffer ≤ a ∧ a < ch.mm2s.buffer + size) := by omega
      simp [memcpy, this]
  · intro hsize
    have hcond : mul32 (mul32 ch.mm2s.frame_width ch.mm2s.frame_height)
        (ch.mm2s.frame_bpp / 8) ≠ size := by
      rw [hexp]; exact fun h => hsize h.symm
    simp only [vdma_mm2s_set_data, if_pos hcond]
    exact ⟨trivial, trivial⟩
  · intro h8 hlt
    have hdvd : 8 ∣ ch.mm2s.frame_bpp := Nat.dvd_of_mod_eq_zero h8
    have heq : ch.mm2s.frame_width * ch.mm2s.frame_height * (ch.mm2s.frame_bpp / 8) =
        ch.mm2s.frame_width * ch.mm2s.frame_height * ch.mm2s.frame_bpp / 8 :=
      (Nat.mul_div_assoc _ hdvd).symm
    rw [heq]
    exact Nat.mod_eq_of_lt hlt

/-- C1, the scenario of the claim: at 1920 x 1080 and 32 bits per pixel a frame of
8,294,400 bytes is accepted and a frame of 8,294,399 bytes is rejected. -/
theorem vdma_mm2s_set_data_size_check_witness :
    (vdma_mm2s_set_data (channel_of_geometry 1920 1080 32) 0x200000 8294400 mem_pattern).1 = 0 ∧
      (vdma_mm2s_set_data (channel_of_geometry 1920 1080 32) 0x200000 8294399 mem_pattern).1 =
        -EINVAL :=
  ⟨((vdma_mm2s_set_data_size_check (channel_of_geometry 1920 1080 32) 0x200000 8294400
      mem_pattern).1 (by decide)).1,
   ((vdma_mm2s_set_data_size_check (channel_of_geometry 1920 1080 32) 0x200000 8294399
      mem_pattern).2.1 (by decide)).1⟩

/-! ## C2: one error bit in an mm2s interrupt -/

/-- C2: on the interrupt line of the channel, when the mm2s status register shows
exactly one of the error bits (14 error, 7 sof-early, 6 decode, 5 slave,
4 internal) among the bits the handler tests, `mm2s_irq_handler` advances exactly
the matching counter by one (`u32` increment) and leaves every other field of
the mm2s record (in particular `frame_cnt`) and the whole s2mm record as they
were. -/
theorem mm2s_irq_handler_single_error (ch : vdma_channel) (status : Nat)
    (hstatus : status = ioread32 ch.regs VDMA_MM2S_STATUS_REGISTER &&&
      (VDMA_MM2S_STATUS_ERR_IRQ_BITMASK ||| VDMA_MM2S_STATUS_SOF_EARLY_ERR_BITMASK |||
        VDMA_MM2S_STATUS_DEC_ERR_BITMASK ||| VDMA_MM2S_STATUS_SLV_ERR_BITMASK |||
        VDMA_MM2S_STATUS_INT_ERR_BITMASK ||| VDMA_MM2S_STATUS_FRAME_CNT_BITMASK)) :
    (mm2s_irq_handler ch.mm2s.irq ch).2.s2mm = ch.s2mm ∧
    (status = VDMA_MM2S_STATUS_ERR_IRQ_BITMASK →
      (mm2s_irq_handler ch.mm2s.irq ch).2.mm2s = { ch.mm2s with err := inc32 ch.mm2s.err }) ∧
    (status = VDMA_MM2S_STATUS_SOF_EARLY_ERR_BITMASK →
      (mm2s_irq_handler ch.mm2s.irq ch).2.mm2s =
        { ch.mm2s with sof_early_err := inc32 ch.mm2s.sof_early_err }) ∧
    (status = VDMA_MM2S_STATUS_DEC_ERR_BITMASK →
      (mm2s_irq_handler ch.mm2s.irq ch).2.mm2s =
        { ch.mm2s with decode_err := inc32 ch.mm2s.decode_err }) ∧
    (status = VDMA_MM2S_STATUS_SLV_ERR_BITMASK →
      (mm2s_irq_handler ch.mm2s.irq ch).2.mm2s =
        { ch.mm2s with slave_err := inc32 ch.mm2s.slave_err }) ∧
    (status = VDMA_MM2S_STATUS_INT_ERR_BITMASK →
      (mm2s_irq_handler ch.mm2s.irq ch).2.mm2s =
        { ch.mm2s with internal_err := inc32 ch.mm2s.internal_err }) := by
  rw [mm2s_irq_handler_eq]
  have key : ∀ m : Nat,
      (VDMA_MM2S_STATUS_ERR_IRQ_BITMASK ||| VDMA_MM2S_STATUS_SOF_EARLY_ERR_BITMASK |||
        VDMA_MM2S_STATUS_DEC_ERR_BITMASK ||| VDMA_MM2S_STATUS_SLV_ERR_BITMASK |||
        VDMA_MM2S_STATUS_INT_ERR_BITMASK ||| VDMA_MM2S_STATUS_FRAME_CNT_BITMASK) &&& m = m →
      ioread32 ch.regs VDMA_MM2S_STATUS_REGISTER &&& m = status &&& m :=
    fun m hm => and_eq_of_and_mask hm hstatus.symm
  have h14 := key VDMA_MM2S_STATUS_ERR_IRQ_BITMASK (by decide)
  have h12 := key VDMA_MM2S_STATUS_FRAME_CNT_BITMASK (by decide)
  have h7 := key VDMA_MM2S_STATUS_SOF_EARLY_ERR_BITMASK (by decide)
  have h6 := key VDMA_MM2S_STATUS_DEC_ERR_BITMASK (by decide)
  have h5 := key VDMA_MM2S_STATUS_SLV_ERR_BITMASK (by decide)
  have h4 := key VDMA_MM2S_STATUS_INT_ERR_BITMASK (by decide)
  simp only [h14, h12, h7, h6, h5, h4]
  refine ⟨trivial, ?_, ?_, ?_, ?_, ?_⟩ <;> intro hs <;> subst hs <;> rfl

/-- C2, instance: the status register reads `0x4001` (error bit 14 and the halted
bit 0, which the handler does not test); only `err` advances. -/
theorem mm2s_irq_handler_single_error_witness :
    0x4000 = ioread32 (channel_with_status 0x4001).regs VDMA_MM2S_STATUS_REGISTER &&&
        (VDMA_MM2S_STATUS_ERR_IRQ_BITMASK ||| VDMA_MM2S_STATUS_SOF_EARLY_ERR_BITMASK |||
          VDMA_MM2S_STATUS_DEC_ERR_BITMASK ||| VDMA_MM2S_STATUS_SLV_ERR_BITMASK |||
          VDMA_MM2S_STATUS_INT_ERR_BITMASK ||| VDMA_MM2S_STATUS_FRAME_CNT_BITMASK) ∧
      (mm2s_irq_handler (channel_with_status 0x4001).mm2s.irq (channel_with_status 0x4001)).2.mm2s =
        { (channel_with_status 0x4001).mm2s with
          err := inc32 (channel_with_status 0x4001).mm2s.err } :=
  ⟨by decide,
   (mm2s_irq_handler_single_error (channel_with_status 0x4001) 0x4000 (by decide)).2.1 rfl⟩

/-! ## C3: FRAME_DONE with vblank enabled -/

/-- C3: on the interrupt line of the synchronizer, with FRAME_DONE (status bit 4) set and
`vblank_enabled` true, `irq_handler` returns `IRQ_HANDLED` and leaves the pending
slot empty; a pending event is sent exactly once (the calls added are the vblank
report, one `drm_crtc_send_vblank_event` for that event and the matching
`drm_crtc_vblank_put`); with no pending event the only call added is the vblank
report, so nothing is sent. -/
theorem irq_handler_frame_done_event (s : video_sync)
    (hdone : ioread32 s.regs VIDEO_SYNC_STATUS_REGISTER &&& VIDEO_SYNC_STATUS_FRAME_DONE_MASK ≠ 0)
    (hvblank : s.vblank_enabled = true) :
    (irq_handler s.irq s).1 = irqreturn_t.IRQ_HANDLED ∧
    (irq_handler s.irq s).2.vblank_event = none ∧
    (∀ e, s.vblank_event = some e →
      (irq_handler s.irq s).2.drm_calls =
        s.drm_calls ++ [drm_call.drm_crtc_handle_vblank,
          drm_call.drm_crtc_send_vblank_event e, drm_call.drm_crtc_vblank_put]) ∧
    (s.vblank_event = none →
      (irq_handler s.irq s).2.drm_calls = s.drm_calls ++ [drm_call.drm_crtc_handle_vblank]) := by
  rw [irq_handler_eq]
  have hfd : ((ioread32 s.regs VIDEO_SYNC_STATUS_REGISTER &&&
      VIDEO_SYNC_STATUS_FRAME_DONE_MASK) != 0) = true := by
    simpa using hdone
  simp only [hfd, hvblank, Bool.and_self, if_true]
  refine ⟨trivial, trivial, ?_, ?_⟩
  · intro e he
    simp [he]
  · intro he
    simp [he]

/-- C3, instance: FRAME_DONE with vblank enabled and no pending event. -/
theorem irq_handler_frame_done_event_witness :
    (ioread32 (sync_with_status false true 0x10).regs VIDEO_SYNC_STATUS_REGISTER &&&
        VIDEO_SYNC_STATUS_FRAME_DONE_MASK ≠ 0) ∧
      (sync_with_status false true 0x10).vblank_enabled = true ∧
      (irq_handler (sync_with_status false true 0x10).irq (sync_with_status false true 0x10)).2.drm_calls =
        (sync_with_status false true 0x10).drm_calls ++ [drm_call.drm_crtc_handle_vblank] :=
  ⟨by decide, rfl,
   (irq_handler_frame_done_event (sync_with_status false true 0x10) (by decide) rfl).2.2.2 rfl⟩

/-! ## C4: two completion requests without an interrupt in between -/

/-- C4, counterexample to the claim as stated: after a first request with event 1
a second request with event 2 is not refused; the pending slot then holds event 2
and event 1 has been dropped without ever being sent. -/
theorem request_completion_event_counterexample :
    (request_completion_event { id := 1, pipe := 0 } (sync_with_status false true 0)).vblank_event =
        some { id := 1, pipe := 0 } ∧
      (request_completion_event { id := 2, pipe := 0 }
        (request_completion_event { id := 1, pipe := 0 }
          (sync_with_status false true 0))).vblank_event = some { id := 2, pipe := 0 } ∧
      (request_completion_event { id := 2, pipe := 0 }
        (request_completion_event { id := 1, pipe := 0 }
          (sync_with_status false true 0))).drm_calls =
        [drm_call.drm_crtc_vblank_on, drm_call.drm_crtc_vblank_get,
         drm_call.drm_crtc_vblank_on, drm_call.drm_crtc_vblank_get] := by
  refine ⟨rfl, rfl, rfl⟩

/-- C4, as amended: `video_sync_crtc_atomic_begin` returns nothing and never
refuses a request.  After two requests without an interrupt in between the
pending slot holds the second event (with `pipe` set to the CRTC index), the
first event is no longer pending and was not sent: the only calls made into the
DRM core are `drm_crtc_vblank_on` and `drm_crtc_vblank_get`, once per request.
The slot holds at most one event. -/
theorem request_completion_event_twice (s : video_sync) (e1 e2 : drm_pending_vblank_event) :
    (request_completion_event e2 (request_completion_event e1 s)).vblank_event =
        some { e2 with pipe := s.crtc.index } ∧
      (request_completion_event e2 (request_completion_event e1 s)).drm_calls =
        s.drm_calls ++ [drm_call.drm_crtc_vblank_on, drm_call.drm_crtc_vblank_get,
          drm_call.drm_crtc_vblank_on, drm_call.drm_crtc_vblank_get] ∧
      (request_completion_event e2 (request_completion_event e1 s)).crtc.state_event = none := by
  simp [request_completion_event, video_sync_crtc_atomic_begin, Id.run]

/-! ## C5: interlaced field counters and the reported buffer address -/

/-- C5, counterexample to the claim as stated: an interlaced synchronizer with zero
counters receives two FRAME_DONE interrupts with alternating field parity
(status `0x10`: FRAME_DONE, even field; status `0x110`: FRAME_DONE, odd field)
in which the sync-transmitted bit 7 is clear.  The sum of the field counters is
0 after the first and after the second interrupt, not 1 and 2, and the reported
address is the even address after both. -/
theorem video_sync_interrupts_counterexample :
    (sync_with_status true true 0).interlaced = true ∧
      (0x10 &&& VIDEO_SYNC_STATUS_FRAME_DONE_MASK ≠ 0 ∧
        0x110 &&& VIDEO_SYNC_STATUS_FRAME_DONE_MASK ≠ 0) ∧
      (0x10 &&& VIDEO_SYNC_STATUS_SYNC_FIELD_MASK = 0 ∧
        0x110 &&& VIDEO_SYNC_STATUS_SYNC_FIELD_MASK ≠ 0) ∧
      (video_sync_interrupts [0x10] (sync_with_status true true 0)).even_frames_done +
        (video_sync_interrupts [0x10] (sync_with_status true true 0)).odd_frames_done = 0 ∧
      (video_sync_interrupts [0x10, 0x110] (sync_with_status true true 0)).even_frames_done +
        (video_sync_interrupts [0x10, 0x110] (sync_with_status true true 0)).odd_frames_done = 0 ∧
      (video_sync_interrupts [0x10, 0x110] (sync_with_status true true 0)).frames_done = 2 ∧
      (video_sync_crtc_get_fb_addr
        (video_sync_interrupts [0x10] (sync_with_status true true 0))).2.1 = 0x30000000 ∧
      (video_sync_crtc_get_fb_addr
        (video_sync_interrupts [0x10, 0x110] (sync_with_status true true 0))).2.1 = 0x30000000 := by
  refine ⟨rfl, ⟨by decide, by decide⟩, ⟨by decide, by decide⟩, ?_, ?_, ?_, ?_, ?_⟩ <;> rfl

/-- One interrupt of an interlaced synchronizer whose status has SYNC_TX set: the
counter of the field advances, the other field counter and the flags stay, and
the overlay channel reports the address of the field. -/
theorem video_sync_interrupt_sync_tx (status : Nat) (s : video_sync)
    (hil : s.interlaced = true) (hov : s.overlay_plane.vdma.mm2s.interlaced = true)
    (hlt : status < 2 ^ 32) (htx : status &&& VIDEO_SYNC_STATUS_SYNC_TX_MASK ≠ 0) :
    (video_sync_interrupt status s).interlaced = true ∧
    (video_sync_interrupt status s).irq = s.irq ∧
    (video_sync_interrupt status s).overlay_plane.vdma.mm2s.interlaced = true ∧
    (video_sync_interrupt status s).overlay_plane.vdma.mm2s.phys_addr_even =
      s.overlay_plane.vdma.mm2s.phys_addr_even ∧
    (video_sync_interrupt status s).overlay_plane.vdma.mm2s.phys_addr_odd =
      s.overlay_plane.vdma.mm2s.phys_addr_odd ∧
    (video_sync_interrupt status s).even_frames_done =
      (if status &&& VIDEO_SYNC_STATUS_SYNC_FIELD_MASK = 0 then inc32 s.even_frames_done
       else s.even_frames_done) ∧
    (video_sync_interrupt status s).odd_frames_done =
      (if status &&& VIDEO_SYNC_STATUS_SYNC_FIELD_MASK = 0 then s.odd_frames_done
       else inc32 s.odd_frames_done) ∧
    (video_sync_crtc_get_fb_addr (video_sync_interrupt status s)).2.1 =
      (if status &&& VIDEO_SYNC_STATUS_SYNC_FIELD_MASK = 0
       then s.overlay_plane.vdma.mm2s.phys_addr_even
       else s.overlay_plane.vdma.mm2s.phys_addr_odd) := by
  unfold video_sync_interrupt video_sync_crtc_get_fb_addr vdma_mm2s_get_fb_addr
  generalize hs2 : ({ s with regs := { s.regs with
      rd := fun o => if o = VIDEO_SYNC_STATUS_REGISTER then status else s.regs.rd o } } :
      video_sync) = s2
  have hirq : s.irq = s2.irq := by rw [← hs2]
  have hil2 : s2.interlaced = true := by rw [← hs2]; exact hil
  have hov2 : s2.overlay_plane = s.overlay_plane := by rw [← hs2]
  have hev2 : s2.even_frames_done = s.even_frames_done := by rw [← hs2]
  have hod2 : s2.odd_frames_done = s.odd_frames_done := by rw [← hs2]
  have hrd : ioread32 s2.regs VIDEO_SYNC_STATUS_REGISTER = status := by
    rw [← hs2]
    show (if VIDEO_SYNC_STATUS_REGISTER = VIDEO_SYNC_STATUS_REGISTER then status
      else s.regs.rd VIDEO_SYNC_STATUS_REGISTER) % 2 ^ 32 = status
    rw [if_pos rfl]
    exact Nat.mod_eq_of_lt hlt
  have htx2 : ((status &&& VIDEO_SYNC_STATUS_SYNC_TX_MASK) != 0) = true := by simpa using htx
  rw [hirq, irq_handler_eq s2]
  simp only [hrd, hil2, htx2, hov2, hev2, hod2, Bool.and_self, Bool.true_and, if_true]
  by_cases hf : status &&& VIDEO_SYNC_STATUS_SYNC_FIELD_MASK = 0 <;>
    simp [hf, hov, vdma_toggle_interlaced_buffer]

/-- Consecutive interrupts compose. -/
theorem video_sync_interrupts_append (a b : List Nat) (s : video_sync) :
    video_sync_interrupts (a ++ b) s = video_sync_interrupts b (video_sync_interrupts a s) := by
  induction a generalizing s with
  | nil => rfl
  | cons st rest ih => exact ih (video_sync_interrupt st s)

/-- Over consecutive interrupts that all carry SYNC_TX, an interlaced synchronizer
stays interlaced, the even and odd addresses of its overlay channel stay, and the
two field counters together advance by the number of interrupts as long as no
counter wraps. -/
theorem video_sync_interrupts_invariant (statuses : List Nat) :
    ∀ s : video_sync, s.interlaced = true → s.overlay_plane.vdma.mm2s.interlaced = true →
      (∀ st ∈ statuses, st < 2 ^ 32 ∧ st &&& VIDEO_SYNC_STATUS_SYNC_TX_MASK ≠ 0) →
      s.even_frames_done + s.odd_frames_done + statuses.length < 2 ^ 32 →
      (video_sync_interrupts statuses s).interlaced = true ∧
      (video_sync_interrupts statuses s).overlay_plane.vdma.mm2s.interlaced = true ∧
      (video_sync_interrupts statuses s).overlay_plane.vdma.mm2s.phys_addr_even =
        s.overlay_plane.vdma.mm2s.phys_addr_even ∧
      (video_sync_interrupts statuses s).overlay_plane.vdma.mm2s.phys_addr_odd =
        s.overlay_plane.vdma.mm2s.phys_addr_odd ∧
      (video_sync_interrupts statuses s).even_frames_done +
          (video_sync_interrupts statuses s).odd_frames_done =
        s.even_frames_done + s.odd_frames_done + statuses.length := by
  induction statuses with
  | nil =>
    intro s hil hov _ _
    exact ⟨hil, hov, rfl, rfl, rfl⟩
  | cons st rest ih =>
    intro s hil hov hall hlen
    obtain ⟨hlt, htx⟩ := hall st (List.mem_cons_self _ _)
    obtain ⟨h1, _, h3, h4, h5, h6, h7, _⟩ := video_sync_interrupt_sync_tx st s hil hov hlt htx
    have hlen2 : s.even_frames_done + s.odd_frames_done + (rest.length + 1) < 2 ^ 32 := by
      simpa using hlen
    have hsum : (video_sync_interrupt st s).even_frames_done +
        (video_sync_interrupt st s).odd_frames_done =
        s.even_frames_done + s.odd_frames_done + 1 := by
      rw [h6, h7]
      have he : inc32 s.even_frames_done = s.even_frames_done + 1 :=
        Nat.mod_eq_of_lt (by omega)
      have ho : inc32 s.odd_frames_done = s.odd_frames_done + 1 :=
        Nat.mod_eq_of_lt (by omega)
      split <;> omega
    have hrest := ih (video_sync_interrupt st s) h1 h3
      (fun x hx => hall x (List.mem_cons_of_mem _ hx)) (by omega)
    obtain ⟨r1, r2, r3, r4, r5⟩ := hrest
    refine ⟨r1, r2, ?_, ?_, ?_⟩
    · exact r3.trans h4
    · exact r4.trans h5
    · show (video_sync_interrupts rest (video_sync_interrupt st s)).even_frames_done +
        (video_sync_interrupts rest (video_sync_interrupt st s)).odd_frames_done = _
      rw [r5, hsum]
      simp only [List.length_cons]
      omega

/-- C5, as amended (with `vdma_toggle_interlaced_buffer` as the spec describes it):
for an interlaced synchronizer with an interlaced overlay channel and zero field
counters, after N consecutive interrupts that each have the sync-transmitted bit
(status bit 7) set, with or without FRAME_DONE, the field counters add up to N,
and after each of these interrupts `video_sync_crtc_get_fb_addr`
(`vdma_mm2s_get_fb_addr` of the overlay channel) reports the even address when
the sync-field bit (bit 8) of that interrupt is clear and the odd address when
it is set. -/
theorem video_sync_interrupts_sync_tx (statuses : List Nat) (s : video_sync)
    (hil : s.interlaced = true) (hov : s.overlay_plane.vdma.mm2s.interlaced = true)
    (heven : s.even_frames_done = 0) (hodd : s.odd_frames_done = 0)
    (hall : ∀ st ∈ statuses, st < 2 ^ 32 ∧ st &&& VIDEO_SYNC_STATUS_SYNC_TX_MASK ≠ 0)
    (hlen : statuses.length < 2 ^ 32) :
    (video_sync_interrupts statuses s).even_frames_done +
        (video_sync_interrupts statuses s).odd_frames_done = statuses.length ∧
    ∀ k (hk : k < statuses.length),
      (video_sync_crtc_get_fb_addr (video_sync_interrupts (statuses.take (k + 1)) s)).2.1 =
        (if statuses[k] &&& VIDEO_SYNC_STATUS_SYNC_FIELD_MASK = 0
         then s.overlay_plane.vdma.mm2s.phys_addr_even
         else s.overlay_plane.vdma.mm2s.phys_addr_odd) := by
  constructor
  · have h := (video_sync_interrupts_invariant statuses s hil hov hall (by omega)).2.2.2.2
    rw [h, heven, hodd]
    omega
  · intro k hk
    have hpre : ∀ st ∈ statuses.take k,
        st < 2 ^ 32 ∧ st &&& VIDEO_SYNC_STATUS_SYNC_TX_MASK ≠ 0 :=
      fun st hst => hall st (List.mem_of_mem_take hst)
    have hplen : (statuses.take k).length ≤ k := List.length_take_le k statuses
    obtain ⟨p1, p2, p3, p4, _⟩ :=
      video_sync_interrupts_invariant (statuses.take k) s hil hov hpre (by omega)
    obtain ⟨hlt, htx⟩ := hall statuses[k] (List.getElem_mem _)
    have hstep := (video_sync_interrupt_sync_tx statuses[k] _ p1 p2 hlt htx).2.2.2.2.2.2.2
    rw [← List.take_concat_get statuses k hk, List.concat_eq_append,
      video_sync_interrupts_append]
    show (video_sync_crtc_get_fb_addr
      (video_sync_interrupt statuses[k] (video_sync_interrupts (List.take k statuses) s))).2.1 = _
    rw [hstep, p3, p4]

/-- C5, instance: two interrupts with SYNC_TX, the first for the even field
(status `0x90`), the second for the odd field (status `0x190`). -/
theorem video_sync_interrupts_sync_tx_witness :
    (sync_with_status true true 0).interlaced = true ∧
      (∀ st ∈ [0x90, 0x190], st < 2 ^ 32 ∧ st &&& VIDEO_SYNC_STATUS_SYNC_TX_MASK ≠ 0) ∧
      (video_sync_interrupts [0x90, 0x190] (sync_with_status true true 0)).even_frames_done +
        (video_sync_interrupts [0x90, 0x190] (sync_with_status true true 0)).odd_frames_done =
          [0x90, 0x190].length :=
  ⟨rfl, by decide,
   (video_sync_interrupts_sync_tx [0x90, 0x190] (sync_with_status true true 0) rfl rfl rfl rfl
      (by decide) (by decide)).1⟩

/-! ## C6: one error bit in a synchronizer interrupt -/

/-- C6: on the interrupt line of the synchronizer each of the six error counters advances by
one (`u32` increment) exactly when its own status bit is set, whatever the other
bits are; when the status is exactly one error bit (0 pipeline, 1 sof,
2 underrun, 3 sync-timeout, 5 short-line, 6 long-line) the handler changes the
matching counter and the register window and nothing else, so the other five
counters, `frames_done`, `even_frames_done` and `odd_frames_done` are as before. -/
theorem irq_handler_single_error (s : video_sync) (status : Nat)
    (hstatus : status = ioread32 s.regs VIDEO_SYNC_STATUS_REGISTER) :
    ((irq_handler s.irq s).2.pl_err =
        if status &&& VIDEO_SYNC_STATUS_PL_ERR_MASK ≠ 0 then inc32 s.pl_err else s.pl_err) ∧
    ((irq_handler s.irq s).2.sof_err =
        if status &&& VIDEO_SYNC_STATUS_SOF_ERR_MASK ≠ 0 then inc32 s.sof_err else s.sof_err) ∧
    ((irq_handler s.irq s).2.urun_err =
        if status &&& VIDEO_SYNC_STATUS_URUN_MASK ≠ 0 then inc32 s.urun_err else s.urun_err) ∧
    ((irq_handler s.irq s).2.sync_to_err =
        if status &&& VIDEO_SYNC_STATUS_SYNC_TO_MASK ≠ 0 then inc32 s.sync_to_err
        else s.sync_to_err) ∧
    ((irq_handler s.irq s).2.short_line_err =
        if status &&& VIDEO_SYNC_STATUS_SHORT_LINE_ERR_MASK ≠ 0 then inc32 s.short_line_err
        else s.short_line_err) ∧
    ((irq_handler s.irq s).2.long_line_err =
        if status &&& VIDEO_SYNC_STATUS_LONG_LINE_ERR_MASK ≠ 0 then inc32 s.long_line_err
        else s.long_line_err) ∧
    (status = VIDEO_SYNC_STATUS_PL_ERR_MASK →
      (irq_handler s.irq s).2 =
        { s with pl_err := inc32 s.pl_err, regs := (irq_handler s.irq s).2.regs }) ∧
    (status = VIDEO_SYNC_STATUS_SOF_ERR_MASK →
      (irq_handler s.irq s).2 =
        { s with sof_err := inc32 s.sof_err, regs := (irq_handler s.irq s).2.regs }) ∧
    (status = VIDEO_SYNC_STATUS_URUN_MASK →
      (irq_handler s.irq s).2 =
        { s with urun_err := inc32 s.urun_err, regs := (irq_handler s.irq s).2.regs }) ∧
    (status = VIDEO_SYNC_STATUS_SYNC_TO_MASK →
      (irq_handler s.irq s).2 =
        { s with sync_to_err := inc32 s.sync_to_err, regs := (irq_handler s.irq s).2.regs }) ∧
    (status = VIDEO_SYNC_STATUS_SHORT_LINE_ERR_MASK →
      (irq_handler s.irq s).2 =
        { s with short_line_err := inc32 s.short_line_err,
                 regs := (irq_handler s.irq s).2.regs }) ∧
    (status = VIDEO_SYNC_STATUS_LONG_LINE_ERR_MASK →
      (irq_handler s.irq s).2 =
        { s with long_line_err := inc32 s.long_line_err,
                 regs := (irq_handler s.irq s).2.regs }) := by
  rw [irq_handler_eq, ← hstatus]
  refine ⟨?_, ?_, ?_, ?_, ?_, ?_, ?_, ?_, ?_, ?_, ?_, ?_⟩
  iterate 6 simp
  all_goals
    intro hs
    subst hs
    cases hi : s.interlaced <;> cases hv : s.vblank_enabled <;> rfl

/-- C6, instance: the status register reads exactly the pipeline-error bit. -/
theorem irq_handler_single_error_witness :
    1 = ioread32 (sync_with_status false false 1).regs VIDEO_SYNC_STATUS_REGISTER ∧
      (irq_handler (sync_with_status false false 1).irq (sync_with_status false false 1)).2 =
        { sync_with_status false false 1 with
          pl_err := inc32 (sync_with_status false false 1).pl_err
          regs := (irq_handler (sync_with_status false false 1).irq
                    (sync_with_status false false 1)).2.regs } :=
  ⟨by decide,
   (irq_handler_single_error (sync_with_status false false 1) 1 (by decide)).2.2.2.2.2.2.1 rfl⟩

/-! ## C7: every asserted bit of an s2mm interrupt is counted -/

/-- C7: on the interrupt line of the channel and for every value of the s2mm status
register, `s2mm_irq_handler` returns `IRQ_HANDLED` and each of its nine counters
(bit 15 eol-late, 14 error, 11 sof-late, 8 eol-early, 7 sof-early, 6 decode,
5 slave, 4 internal, 12 frame count) advances by one (`u32` increment) exactly
when its status bit is set, independently of the other bits. -/
theorem s2mm_irq_handler_counters (ch : vdma_channel) (status : Nat)
    (hstatus : status = ioread32 ch.regs VDMA_S2MM_STATUS_REGISTER) :
    (s2mm_irq_handler ch.s2mm.irq ch).1 = irqreturn_t.IRQ_HANDLED ∧
    ((s2mm_irq_handler ch.s2mm.irq ch).2.s2mm.eol_late_err =
        if status &&& VDMA_S2MM_STATUS_EOL_LATE_ERR_BITMASK ≠ 0 then inc32 ch.s2mm.eol_late_err
        else ch.s2mm.eol_late_err) ∧
    ((s2mm_irq_handler ch.s2mm.irq ch).2.s2mm.err =
        if status &&& VDMA_S2MM_STATUS_ERR_BITMASK ≠ 0 then inc32 ch.s2mm.err
        else ch.s2mm.err) ∧
    ((s2mm_irq_handler ch.s2mm.irq ch).2.s2mm.sof_late_err =
        if status &&& VDMA_S2MM_STATUS_SOF_LATE_ERR_BITMASK ≠ 0 then inc32 ch.s2mm.sof_late_err
        else ch.s2mm.sof_late_err) ∧
    ((s2mm_irq_handler ch.s2mm.irq ch).2.s2mm.eol_early_err =
        if status &&& VDMA_S2MM_STATUS_EOL_EARLY_ERR_BITMASK ≠ 0 then inc32 ch.s2mm.eol_early_err
        else ch.s2mm.eol_early_err) ∧
    ((s2mm_irq_handler ch.s2mm.irq ch).2.s2mm.sof_early_err =
        if status &&& VDMA_S2MM_STATUS_SOF_EARLY_ERR_BITMASK ≠ 0 then inc32 ch.s2mm.sof_early_err
        else ch.s2mm.sof_early_err) ∧
    ((s2mm_irq_handler ch.s2mm.irq ch).2.s2mm.decode_err =
        if status &&& VDMA_S2MM_STATUS_DEC_ERR_BITMASK ≠ 0 then inc32 ch.s2mm.decode_err
        else ch.s2mm.decode_err) ∧
    ((s2mm_irq_handler ch.s2mm.irq ch).2.s2mm.slave_err =
        if status &&& VDMA_S2MM_STATUS_SLV_ERR_BITMASK ≠ 0 then inc32 ch.s2mm.slave_err
        else ch.s2mm.slave_err) ∧
    ((s2mm_irq_handler ch.s2mm.irq ch).2.s2mm.internal_err =
        if status &&& VDMA_S2MM_STATUS_INT_ERR_BITMASK ≠ 0 then inc32 ch.s2mm.internal_err
        else ch.s2mm.internal_err) ∧
    ((s2mm_irq_handler ch.s2mm.irq ch).2.s2mm.frame_cnt =
        if status &&& VDMA_S2MM_STATUS_FRAME_CNT_BITMASK ≠ 0 then inc32 ch.s2mm.frame_cnt
        else ch.s2mm.frame_cnt) := by
  rw [s2mm_irq_handler_eq, ← hstatus]
  refine ⟨rfl, ?_, ?_, ?_, ?_, ?_, ?_, ?_, ?_, ?_⟩ <;> simp

/-- C7, instance: the status register reads `0xC970` (bits 15, 14, 11, 8, 6, 5 and 4
set, bits 12 and 7 clear); seven counters advance, `sof_early_err` and
`frame_cnt` do not. -/
theorem s2mm_irq_handler_counters_witness :
    0xC970 = ioread32 (channel_with_status 0xC970).regs VDMA_S2MM_STATUS_REGISTER ∧
      (s2mm_irq_handler (channel_with_status 0xC970).s2mm.irq
          (channel_with_status 0xC970)).2.s2mm.eol_late_err =
        (if 0xC970 &&& VDMA_S2MM_STATUS_EOL_LATE_ERR_BITMASK ≠ 0
         then inc32 (channel_with_status 0xC970).s2mm.eol_late_err
         else (channel_with_status 0xC970).s2mm.eol_late_err) :=
  ⟨by decide, (s2mm_irq_handler_counters (channel_with_status 0xC970) 0xC970 (by decide)).2.1⟩

/-! ## C8: acknowledgement and restart in the VDMA interrupt handlers -/

/-- C8: on the interrupt line of the channel `mm2s_irq_handler` performs exactly two register
writes: to the status register the status value read restricted to the bits the
handler tests (14, 12, 7, 6, 5, 4), then to the control register the control
value read with the run bit 0 set and every other bit as read.
`s2mm_irq_handler` does the same with its status bits (15, 14, 12, 11, 8, 7, 6,
5, 4) and its own registers. -/
theorem vdma_irq_handler_acknowledge (ch : vdma_channel) :
    ((mm2s_irq_handler ch.mm2s.irq ch).2.regs.log =
      ch.regs.log ++
        [(VDMA_MM2S_STATUS_REGISTER,
            ioread32 ch.regs VDMA_MM2S_STATUS_REGISTER &&&
              (VDMA_MM2S_STATUS_ERR_IRQ_BITMASK ||| VDMA_MM2S_STATUS_SOF_EARLY_ERR_BITMASK |||
                VDMA_MM2S_STATUS_DEC_ERR_BITMASK ||| VDMA_MM2S_STATUS_SLV_ERR_BITMASK |||
                VDMA_MM2S_STATUS_INT_ERR_BITMASK ||| VDMA_MM2S_STATUS_FRAME_CNT_BITMASK)),
         (VDMA_MM2S_CONTROL_REGISTER,
            ioread32 ch.regs VDMA_MM2S_CONTROL_REGISTER ||| VDMA_MM2S_CONTROL_RS_BITMASK)]) ∧
    ((s2mm_irq_handler ch.s2mm.irq ch).2.regs.log =
      ch.regs.log ++
        [(VDMA_S2MM_STATUS_REGISTER,
            ioread32 ch.regs VDMA_S2MM_STATUS_REGISTER &&&
              (VDMA_S2MM_STATUS_EOL_LATE_ERR_BITMASK ||| VDMA_S2MM_STATUS_ERR_BITMASK |||
                VDMA_S2MM_STATUS_SOF_LATE_ERR_BITMASK |||
                VDMA_S2MM_STATUS_EOL_EARLY_ERR_BITMASK |||
                VDMA_S2MM_STATUS_SOF_EARLY_ERR_BITMASK ||| VDMA_S2MM_STATUS_DEC_ERR_BITMASK |||
                VDMA_S2MM_STATUS_SLV_ERR_BITMASK ||| VDMA_S2MM_STATUS_INT_ERR_BITMASK |||
                VDMA_S2MM_STATUS_FRAME_CNT_BITMASK)),
         (VDMA_S2MM_CONTROL_REGISTER,
            ioread32 ch.regs VDMA_S2MM_CONTROL_REGISTER ||| VDMA_S2MM_CONTROL_RS_BITMASK)]) ∧
    (∀ i, (ioread32 ch.regs VDMA_MM2S_STATUS_REGISTER &&&
          (VDMA_MM2S_STATUS_ERR_IRQ_BITMASK ||| VDMA_MM2S_STATUS_SOF_EARLY_ERR_BITMASK |||
            VDMA_MM2S_STATUS_DEC_ERR_BITMASK ||| VDMA_MM2S_STATUS_SLV_ERR_BITMASK |||
            VDMA_MM2S_STATUS_INT_ERR_BITMASK ||| VDMA_MM2S_STATUS_FRAME_CNT_BITMASK)).testBit i =
        ((ioread32 ch.regs VDMA_MM2S_STATUS_REGISTER).testBit i &&
          decide (i = 14 ∨ i = 12 ∨ i = 7 ∨ i = 6 ∨ i = 5 ∨ i = 4))) ∧
    (∀ i, (ioread32 ch.regs VDMA_S2MM_STATUS_REGISTER &&&
          (VDMA_S2MM_STATUS_EOL_LATE_ERR_BITMASK ||| VDMA_S2MM_STATUS_ERR_BITMASK |||
            VDMA_S2MM_STATUS_SOF_LATE_ERR_BITMASK ||| VDMA_S2MM_STATUS_EOL_EARLY_ERR_BITMASK |||
            VDMA_S2MM_STATUS_SOF_EARLY_ERR_BITMASK ||| VDMA_S2MM_STATUS_DEC_ERR_BITMASK |||
            VDMA_S2MM_STATUS_SLV_ERR_BITMASK ||| VDMA_S2MM_STATUS_INT_ERR_BITMASK |||
            VDMA_S2MM_STATUS_FRAME_CNT_BITMASK)).testBit i =
        ((ioread32 ch.regs VDMA_S2MM_STATUS_REGISTER).testBit i &&
          decide (i = 15 ∨ i = 14 ∨ i = 12 ∨ i = 11 ∨ i = 8 ∨ i = 7 ∨ i = 6 ∨ i = 5 ∨
            i = 4))) ∧
    (∀ i, (ioread32 ch.regs VDMA_MM2S_CONTROL_REGISTER |||
          VDMA_MM2S_CONTROL_RS_BITMASK).testBit i =
        (decide (i = 0) || (ioread32 ch.regs VDMA_MM2S_CONTROL_REGISTER).testBit i)) ∧
    (∀ i, (ioread32 ch.regs VDMA_S2MM_CONTROL_REGISTER |||
          VDMA_S2MM_CONTROL_RS_BITMASK).testBit i =
        (decide (i = 0) || (ioread32 ch.regs VDMA_S2MM_CONTROL_REGISTER).testBit i)) := by
  have hand : ∀ off m, u32 (ioread32 ch.regs off &&& m) = ioread32 ch.regs off &&& m :=
    fun off m => u32_of_lt (lt_of_le_of_lt Nat.and_le_left (ioread32_lt _ _))
  have hor : ∀ off, u32 (ioread32 ch.regs off ||| 1 <<< 0) = ioread32 ch.regs off ||| 1 <<< 0 :=
    fun off => u32_of_lt (Nat.or_lt_two_pow (ioread32_lt _ _) (by decide))
  refine ⟨?_, ?_, ?_, ?_, ?_, ?_⟩
  · rw [mm2s_irq_handler_eq]
    simp only [iowrite32_log, List.append_assoc, List.singleton_append, hand,
      VDMA_MM2S_CONTROL_RS_BITMASK, hor]
  · rw [s2mm_irq_handler_eq]
    simp only [iowrite32_log, List.append_assoc, List.singleton_append, hand,
      VDMA_S2MM_CONTROL_RS_BITMASK, hor]
  · intro i
    rw [Nat.testBit_and]
    congr 1
    simp only [VDMA_MM2S_STATUS_ERR_IRQ_BITMASK, VDMA_MM2S_STATUS_SOF_EARLY_ERR_BITMASK,
      VDMA_MM2S_STATUS_DEC_ERR_BITMASK, VDMA_MM2S_STATUS_SLV_ERR_BITMASK,
      VDMA_MM2S_STATUS_INT_ERR_BITMASK, VDMA_MM2S_STATUS_FRAME_CNT_BITMASK,
      Nat.one_shiftLeft, Nat.testBit_or, Nat.testBit_two_pow]
    rw [Bool.eq_iff_iff]
    simp only [Bool.or_eq_true, decide_eq_true_eq]
    omega
  · intro i
    rw [Nat.testBit_and]
    congr 1
    simp only [VDMA_S2MM_STATUS_EOL_LATE_ERR_BITMASK, VDMA_S2MM_STATUS_ERR_BITMASK,
      VDMA_S2MM_STATUS_SOF_LATE_ERR_BITMASK, VDMA_S2MM_STATUS_EOL_EARLY_ERR_BITMASK,
      VDMA_S2MM_STATUS_SOF_EARLY_ERR_BITMASK, VDMA_S2MM_STATUS_DEC_ERR_BITMASK,
      VDMA_S2MM_STATUS_SLV_ERR_BITMASK, VDMA_S2MM_STATUS_INT_ERR_BITMASK,
      VDMA_S2MM_STATUS_FRAME_CNT_BITMASK,
      Nat.one_shiftLeft, Nat.testBit_or, Nat.testBit_two_pow]
    rw [Bool.eq_iff_iff]
    simp only [Bool.or_eq_true, decide_eq_true_eq]
    omega
  · intro i
    exact testBit_or_one_shiftLeft _ 0 i
  · intro i
    exact testBit_or_one_shiftLeft _ 0 i

/-! ## C9: re-arming the synchronizer interrupt -/

/-- C9: on its own line the synchronizer `irq_handler` performs exactly two register
writes, both to the control register: first the value read with the clear-IRQ
bit 30 set, then that value with bit 30 cleared and the IRQ-enable bit 3 set.
Every other bit of both written words, in particular the run bit 0, is as it was
read. -/
theorem irq_handler_rearm (s : video_sync) :
    ((irq_handler s.irq s).2.regs.log =
      s.regs.log ++
        [(VIDEO_SYNC_CONTROL_REGISTER,
            ioread32 s.regs VIDEO_SYNC_CONTROL_REGISTER ||| VIDEO_SYNC_CTRL_CLRIRQ_MASK),
         (VIDEO_SYNC_CONTROL_REGISTER,
            ((ioread32 s.regs VIDEO_SYNC_CONTROL_REGISTER ||| VIDEO_SYNC_CTRL_CLRIRQ_MASK) &&&
              not32 VIDEO_SYNC_CTRL_CLRIRQ_MASK) ||| VIDEO_SYNC_CTRL_IRQEN_MASK)]) ∧
    (∀ i, (ioread32 s.regs VIDEO_SYNC_CONTROL_REGISTER |||
          VIDEO_SYNC_CTRL_CLRIRQ_MASK).testBit i =
        (decide (i = 30) || (ioread32 s.regs VIDEO_SYNC_CONTROL_REGISTER).testBit i)) ∧
    (∀ i, (((ioread32 s.regs VIDEO_SYNC_CONTROL_REGISTER ||| VIDEO_SYNC_CTRL_CLRIRQ_MASK) &&&
          not32 VIDEO_SYNC_CTRL_CLRIRQ_MASK) ||| VIDEO_SYNC_CTRL_IRQEN_MASK).testBit i =
        (decide (i = 3) ||
          (!decide (i = 30) && (ioread32 s.regs VIDEO_SYNC_CONTROL_REGISTER).testBit i))) ∧
    ((ioread32 s.regs VIDEO_SYNC_CONTROL_REGISTER ||| VIDEO_SYNC_CTRL_CLRIRQ_MASK).testBit 0 =
        (ioread32 s.regs VIDEO_SYNC_CONTROL_REGISTER).testBit 0 ∧
      (((ioread32 s.regs VIDEO_SYNC_CONTROL_REGISTER ||| VIDEO_SYNC_CTRL_CLRIRQ_MASK) &&&
          not32 VIDEO_SYNC_CTRL_CLRIRQ_MASK) ||| VIDEO_SYNC_CTRL_IRQEN_MASK).testBit 0 =
        (ioread32 s.regs VIDEO_SYNC_CONTROL_REGISTER).testBit 0) := by
  have hc := ioread32_lt s.regs VIDEO_SYNC_CONTROL_REGISTER
  have h1 : ioread32 s.regs VIDEO_SYNC_CONTROL_REGISTER ||| VIDEO_SYNC_CTRL_CLRIRQ_MASK < 2 ^ 32 :=
    Nat.or_lt_two_pow hc (by decide)
  have h2 : ((ioread32 s.regs VIDEO_SYNC_CONTROL_REGISTER ||| VIDEO_SYNC_CTRL_CLRIRQ_MASK) &&&
      not32 VIDEO_SYNC_CTRL_CLRIRQ_MASK) ||| VIDEO_SYNC_CTRL_IRQEN_MASK < 2 ^ 32 :=
    Nat.or_lt_two_pow (lt_of_le_of_lt Nat.and_le_left h1) (by decide)
  have b1 : ∀ i, (ioread32 s.regs VIDEO_SYNC_CONTROL_REGISTER |||
      VIDEO_SYNC_CTRL_CLRIRQ_MASK).testBit i =
      (decide (i = 30) || (ioread32 s.regs VIDEO_SYNC_CONTROL_REGISTER).testBit i) :=
    fun i => testBit_or_one_shiftLeft _ 30 i
  have b2 : ∀ i, (((ioread32 s.regs VIDEO_SYNC_CONTROL_REGISTER |||
      VIDEO_SYNC_CTRL_CLRIRQ_MASK) &&& not32 VIDEO_SYNC_CTRL_CLRIRQ_MASK) |||
      VIDEO_SYNC_CTRL_IRQEN_MASK).testBit i =
      (decide (i = 3) ||
        (!decide (i = 30) && (ioread32 s.regs VIDEO_SYNC_CONTROL_REGISTER).testBit i)) := by
    intro i
    have e1 := testBit_or_one_shiftLeft
      ((ioread32 s.regs VIDEO_SYNC_CONTROL_REGISTER ||| 1 <<< 30) &&& not32 (1 <<< 30)) 3 i
    have e2 := testBit_and_not32_one_shiftLeft
      (ioread32 s.regs VIDEO_SYNC_CONTROL_REGISTER ||| 1 <<< 30) 30 i h1 (by norm_num)
    have e3 := testBit_or_one_shiftLeft (ioread32 s.regs VIDEO_SYNC_CONTROL_REGISTER) 30 i
    show (((ioread32 s.regs VIDEO_SYNC_CONTROL_REGISTER ||| 1 <<< 30) &&& not32 (1 <<< 30)) |||
      1 <<< 3).testBit i = _
    rw [e1, e2, e3]
    by_cases h30 : i = 30 <;> simp [h30]
  refine ⟨?_, b1, b2, ?_, ?_⟩
  · rw [irq_handler_eq]
    simp only [iowrite32_log, List.append_assoc, List.singleton_append, u32_of_lt h1,
      u32_of_lt h2]
  · rw [b1]; simp
  · rw [b2]; simp

/-! ## C10: what `vdma_mm2s_start` programs -/

/-- The low 32 bits of a difference that neither borrows nor exceeds 32 bits are
the difference. -/
theorem sub32_of_le (a b : Nat) (hle : b ≤ a) (hlt : a - b < 2 ^ 32) : sub32 a b = a - b := by
  unfold sub32
  have hb : b % 2 ^ 32 < 2 ^ 32 := Nat.mod_lt _ (by norm_num)
  have ha : a % 2 ^ 32 < 2 ^ 32 := Nat.mod_lt _ (by norm_num)
  have hdiv : a / 2 ^ 32 = b / 2 ^ 32 ∨ a / 2 ^ 32 = b / 2 ^ 32 + 1 := by
    have h1 := Nat.div_add_mod a (2 ^ 32)
    have h2 := Nat.div_add_mod b (2 ^ 32)
    have h3 : b / 2 ^ 32 ≤ a / 2 ^ 32 := Nat.div_le_div_right hle
    omega
  have h1 := Nat.div_add_mod a (2 ^ 32)
  have h2 := Nat.div_add_mod b (2 ^ 32)
  rcases hdiv with h | h
  · have : a % 2 ^ 32 + (2 ^ 32 - b % 2 ^ 32) = (a - b) + 2 ^ 32 := by omega
    rw [this, Nat.add_mod_right, Nat.mod_eq_of_lt hlt]
  · have : a % 2 ^ 32 + (2 ^ 32 - b % 2 ^ 32) = a - b := by omega
    rw [this, Nat.mod_eq_of_lt hlt]

/-- The control word of `vdma_mm2s_start`, bit by bit. -/
theorem vdma_mm2s_start_ctrl_testBit (irq_attached interlaced genlock : Bool) (i : Nat) :
    ((((0 ||| (if irq_attached then
            VDMA_MM2S_ERR_IRQ_EN_BITMASK ||| VDMA_MM2S_FRAME_CNT_IRQ_EN_BITMASK else 0)) |||
          (if interlaced then VDMA_MM2S_CIRCULAR_PARK_BITMASK else 0)) |||
        (if genlock then VDMA_MM2S_CONTROL_GENLOCK_BITMASK else 0)) |||
      VDMA_MM2S_CONTROL_RS_BITMASK).testBit i =
      (decide (i = 0) || (decide (i = 7) && genlock) || (decide (i = 1) && interlaced) ||
        (decide (i = 14 ∨ i = 12) && irq_attached)) := by
  cases irq_attached <;> cases interlaced <;> cases genlock <;>
    simp only [VDMA_MM2S_ERR_IRQ_EN_BITMASK, VDMA_MM2S_FRAME_CNT_IRQ_EN_BITMASK,
      VDMA_MM2S_CIRCULAR_PARK_BITMASK, VDMA_MM2S_CONTROL_GENLOCK_BITMASK,
      VDMA_MM2S_CONTROL_RS_BITMASK, Nat.one_shiftLeft, Nat.testBit_or, Nat.testBit_two_pow,
      Nat.zero_testBit, if_true, if_false, Bool.false_eq_true] <;>
    rw [Bool.eq_iff_iff] <;>
    simp only [Bool.or_eq_true, Bool.and_eq_true, decide_eq_true_eq, Bool.false_eq_true,
      and_false, or_false, and_true, false_or] <;>
    omega

/-- An error pointer never decodes to the success code. -/
theorem PTR_ERR_ne_zero (env : probe_env) (ptr : Nat) : PTR_ERR env ptr ≠ 0 := by
  unfold PTR_ERR
  have h : ptr % 2 ^ env.bits_per_long < 2 ^ env.bits_per_long :=
    Nat.mod_lt _ (Nat.pow_pos (by norm_num))
  omega

/-- C10: for an active mm2s channel `vdma_mm2s_start` writes, in this order, a
control word whose set bits are exactly run (0), genlock (7) iff `genlock`,
circular-park (1) iff `interlaced`, and the two interrupt enables (14, 12) iff an
interrupt line is attached (`irq ≠ -1`); HSIZE `width * (bpp / 8)`; then for a
progressive channel the stride, start address 0 `phys_addr - phys_addr_offset`
and VSIZE `height`, and for an interlaced channel `stride * 2`, start addresses
0 and 1 (the even and odd addresses minus the offset) and VSIZE `height / 2`.
Values are the `u32` values the C expressions have; `sub32 a b` is `a - b`
whenever the difference neither borrows nor exceeds 32 bits.  For every channel
that `vdma_mm2s_probe` accepts as interlaced the even address is the buffer
address and the odd address is the even address plus the stride (in
`dma_addr_t` arithmetic). -/
theorem vdma_mm2s_start_programs (ch : vdma_channel) (hactive : ch.mm2s.active = true) :
    (∃ ctrl : Nat,
      (∀ i, ctrl.testBit i =
        (decide (i = 0) || (decide (i = 7) && ch.mm2s.genlock) ||
          (decide (i = 1) && ch.mm2s.interlaced) ||
          (decide (i = 14 ∨ i = 12) && decide (ch.mm2s.irq ≠ -1)))) ∧
      (vdma_mm2s_start ch).regs.log =
        ch.regs.log ++
          (if ch.mm2s.interlaced then
            [(VDMA_MM2S_CONTROL_REGISTER, ctrl),
             (VDMA_MM2S_HSIZE_REGISTER, (ch.mm2s.frame_width * (ch.mm2s.frame_bpp / 8)) % 2 ^ 32),
             (VDMA_MM2S_FRMDLY_STRIDE_REGISTER, (ch.mm2s.frame_stride * 2) % 2 ^ 32),
             (VDMA_MM2S_START_ADDRESS_REGISTER 0,
                sub32 ch.mm2s.phys_addr_even ch.mm2s.phys_addr_offset),
             (VDMA_MM2S_START_ADDRESS_REGISTER 1,
                sub32 ch.mm2s.phys_addr_odd ch.mm2s.phys_addr_offset),
             (VDMA_MM2S_VSIZE_REGISTER, u32 (ch.mm2s.frame_height / 2))]
          else
            [(VDMA_MM2S_CONTROL_REGISTER, ctrl),
             (VDMA_MM2S_HSIZE_REGISTER, (ch.mm2s.frame_width * (ch.mm2s.frame_bpp / 8)) % 2 ^ 32),
             (VDMA_MM2S_FRMDLY_STRIDE_REGISTER, u32 ch.mm2s.frame_stride),
             (VDMA_MM2S_START_ADDRESS_REGISTER 0,
                sub32 ch.mm2s.phys_addr ch.mm2s.phys_addr_offset),
             (VDMA_MM2S_VSIZE_REGISTER, u32 ch.mm2s.frame_height)])) ∧
    (∀ a b : Nat, b ≤ a → a - b < 2 ^ 32 → sub32 a b = a - b) ∧
    (∀ x : Nat, x < 2 ^ 32 → u32 x = x) ∧
    (∀ (env : probe_env) (vdma : vdma_channel) (child : mm2s_node) (probed : vdma_channel),
      vdma_mm2s_probe env vdma child = (0, probed) → probed.mm2s.interlaced = true →
        probed.mm2s.phys_addr_even = probed.mm2s.phys_addr ∧
        probed.mm2s.phys_addr_odd =
          (probed.mm2s.phys_addr_even + probed.mm2s.frame_stride) % 2 ^ env.dma_addr_bits) := by
  refine ⟨?_, sub32_of_le, fun x hx => u32_of_lt hx, ?_⟩
  · refine ⟨_, vdma_mm2s_start_ctrl_testBit (decide (ch.mm2s.irq ≠ -1)) ch.mm2s.interlaced
      ch.mm2s.genlock, ?_⟩
    have hsub : ∀ a b, u32 (sub32 a b) = sub32 a b :=
      fun a b => u32_of_lt (Nat.mod_lt _ (by norm_num))
    have hmul : ∀ a b, u32 (mul32 a b) = (a * b) % 2 ^ 32 := by
      intro a b
      unfold mul32 u32
      rw [Nat.mod_mod]
    unfold vdma_mm2s_start
    simp only [Id.run, hactive, if_true, bind, pure]
    by_cases hirq : ch.mm2s.irq = -1 <;> cases hil : ch.mm2s.interlaced <;>
      cases hg : ch.mm2s.genlock <;>
      simp [hirq, iowrite32_log, hsub, hmul, Nat.mul_comm] <;>
      rfl
  · intro env vdma child probed hprobe hil
    unfold vdma_mm2s_probe at hprobe
    revert hprobe
    generalize hC : (probed.mm2s.phys_addr_even = probed.mm2s.phys_addr ∧
      probed.mm2s.phys_addr_odd =
        (probed.mm2s.phys_addr_even + probed.mm2s.frame_stride) % 2 ^ env.dma_addr_bits) = C
    lift_lets
    intro m0 m1 jpEnd
    have h_jpEnd : ∀ m y,
        (m.interlaced = true → m.phys_addr_even = m.phys_addr ∧
          m.phys_addr_odd = (m.phys_addr_even + m.frame_stride) % 2 ^ env.dma_addr_bits) →
        jpEnd m y = (0, probed) → C := by
      intro m y hQ h
      have hch : probed = { vdma with mm2s := m } := (congrArg Prod.snd h).symm
      rw [← hC]
      have hm : probed.mm2s = m := by rw [hch]
      rw [hm] at hil ⊢
      exact hQ hil
    clear_value jpEnd
    intro jpIrq
    have h_jpIrq : ∀ m y,
        (m.interlaced = true → m.phys_addr_even = m.phys_addr ∧
          m.phys_addr_odd = (m.phys_addr_even + m.frame_stride) % 2 ^ env.dma_addr_bits) →
        jpIrq m y = (0, probed) → C := by
      intro m y hQ h
      simp only [jpIrq, bind, pure] at h
      split at h
      · split at h
        · rename_i hreq
          exact absurd (congrArg Prod.fst h) hreq
        · exact h_jpEnd _ _ (by exact hQ) h
      · exact h_jpEnd _ _ (by exact hQ) h
    clear_value jpIrq
    intro jpIl
    have h_jpIl : ∀ m y, jpIl m y = (0, probed) → C := by
      intro m y h
      simp only [jpIl, bind, pure] at h
      split at h
      · exact h_jpIrq _ _ (by exact fun _ => ⟨rfl, rfl⟩) h
      · rename_i hni
        exact h_jpIrq _ _ (by exact fun hi => absurd hi hni) h
    clear_value jpIl
    intro jpErr
    have h_jpErr : ∀ m y, jpErr m y = (0, probed) → C := by
      intro m y h
      simp only [jpErr, bind, pure] at h
      split at h
      all_goals
        first
        | exact h_jpIl _ _ h
        | exact absurd (congrArg Prod.fst h) (PTR_ERR_ne_zero _ _)
    clear_value jpErr
    intro jpNull
    have h_jpNull : ∀ m y, jpNull m y = (0, probed) → C := by
      intro m y h
      simp only [jpNull, bind, pure] at h
      split at h
      all_goals
        first
        | exact h_jpErr _ _ h
        | exact absurd (show (-ENOMEM : Int) = 0 from congrArg Prod.fst h) (by decide)
    clear_value jpNull
    intro jpMem
    have h_jpMem : ∀ m y, jpMem m y = (0, probed) → C := by
      intro m y h
      simp only [jpMem, bind, pure] at h
      split at h
      all_goals try split at h
      all_goals
        first
        | exact h_jpNull _ _ h
        | exact absurd (show (-EINVAL : Int) = 0 from congrArg Prod.fst h) (by decide)
    clear_value jpMem
    intro jpBlock
    have h_jpBlock : ∀ m y, jpBlock m y = (0, probed) → C := by
      intro m y h
      simp only [jpBlock, bind, pure] at h
      split at h
      all_goals exact h_jpMem _ _ h
    clear_value jpBlock
    intro jpPpi
    have h_jpPpi : ∀ m y, jpPpi m y = (0, probed) → C := by
      intro m y h
      simp only [jpPpi, bind, pure] at h
      split at h
      all_goals exact h_jpBlock _ _ h
    clear_value jpPpi
    intro jpHeight
    have h_jpHeight : ∀ m y, jpHeight m y = (0, probed) → C := by
      intro m y h
      simp only [jpHeight, bind, pure] at h
      split at h
      all_goals
        first
        | exact h_jpPpi _ _ h
        | exact absurd (show (-EINVAL : Int) = 0 from congrArg Prod.fst h) (by decide)
    clear_value jpHeight
    intro jpStride
    have h_jpStride : ∀ m y, jpStride m y = (0, probed) → C := by
      intro m y h
      simp only [jpStride, bind, pure] at h
      split at h
      all_goals exact h_jpHeight _ _ h
    clear_value jpStride
    intro jpWidth
    have h_jpWidth : ∀ m y, jpWidth m y = (0, probed) → C := by
      intro m y h
      simp only [jpWidth, bind, pure] at h
      split at h
      all_goals
        first
        | exact h_jpStride _ _ h
        | exact absurd (show (-EINVAL : Int) = 0 from congrArg Prod.fst h) (by decide)
    clear_value jpWidth
    intro h
    simp only [Id.run, bind, pure] at h
    split at h
    · exact absurd (show (-EINVAL : Int) = 0 from congrArg Prod.fst h) (by decide)
    · exact h_jpWidth _ _ h

/-- C10, instance: the interlaced 720 x 576 channel at 32 bits per pixel without
interrupt line and without genlock: the control word has the circular-park bit,
and the six writes carry HSIZE 2880, stride 5760, the even and odd bus addresses
and VSIZE 288. -/
theorem vdma_mm2s_start_programs_witness :
    channel_interlaced.mm2s.active = true ∧
      ∃ ctrl : Nat, ctrl.testBit 1 = true ∧ ctrl.testBit 0 = true ∧ ctrl.testBit 14 = false ∧
        (vdma_mm2s_start channel_interlaced).regs.log =
          [(VDMA_MM2S_CONTROL_REGISTER, ctrl), (VDMA_MM2S_HSIZE_REGISTER, 2880),
           (VDMA_MM2S_FRMDLY_STRIDE_REGISTER, 5760),
           (VDMA_MM2S_START_ADDRESS_REGISTER 0, 0x30000000),
           (VDMA_MM2S_START_ADDRESS_REGISTER 1, 0x30000B40),
           (VDMA_MM2S_VSIZE_REGISTER, 288)] :=
  ⟨rfl, (vdma_mm2s_start_programs channel_interlaced rfl).1.elim fun ctrl h =>
    ⟨ctrl, (h.1 1).trans rfl, (h.1 0).trans rfl, (h.1 14).trans rfl, h.2.trans rfl⟩⟩

/-! ## C11: stopping an active direction -/

/-- For an active mm2s direction `vdma_mm2s_stop` writes `0` to the mm2s control
register, which then reads `0` (run bit clear), and changes nothing else of the
channel. -/
theorem vdma_mm2s_stop_of_active (ch : vdma_channel) (hactive : ch.mm2s.active = true) :
    vdma_mm2s_stop ch =
        { ch with regs := iowrite32 0 VDMA_MM2S_CONTROL_REGISTER ch.regs } ∧
      ioread32 (vdma_mm2s_stop ch).regs VDMA_MM2S_CONTROL_REGISTER = 0 := by
  unfold vdma_mm2s_stop
  rw [if_pos hactive]
  exact ⟨rfl, rfl⟩

/-- Neither stop function changes the `mm2s` or `s2mm` member of the channel:
buffers, addresses, geometry and counters stay as they were. -/
theorem vdma_stop_keeps_directions (ch : vdma_channel) :
    (vdma_mm2s_stop ch).mm2s = ch.mm2s ∧ (vdma_mm2s_stop ch).s2mm = ch.s2mm ∧
      (vdma_s2mm_stop ch).mm2s = ch.mm2s ∧ (vdma_s2mm_stop ch).s2mm = ch.s2mm := by
  unfold vdma_mm2s_stop vdma_s2mm_stop
  split <;> exact ⟨rfl, rfl, rfl, rfl⟩

/-- C11, evaluation at the failing input: the channel with only the s2mm direction
configured, started with `vdma_s2mm_start`, has an active s2mm direction whose
control register reads the run bit set.  `vdma_s2mm_stop` tests `mm2s.active`,
which is false, performs no write, and the run bit of the s2mm control register
stays set.  On the same channel with `mm2s.active` set the same call clears it. -/
theorem vdma_s2mm_stop_leaves_run_bit_set :
    (vdma_s2mm_start channel_s2mm_only).s2mm.active = true ∧
      (vdma_s2mm_start channel_s2mm_only).mm2s.active = false ∧
      ioread32 (vdma_s2mm_start channel_s2mm_only).regs VDMA_S2MM_CONTROL_REGISTER &&&
        VDMA_S2MM_CONTROL_RS_BITMASK = 1 ∧
      (vdma_s2mm_stop (vdma_s2mm_start channel_s2mm_only)).regs.log =
        (vdma_s2mm_start channel_s2mm_only).regs.log ∧
      ioread32 (vdma_s2mm_stop (vdma_s2mm_start channel_s2mm_only)).regs
          VDMA_S2MM_CONTROL_REGISTER &&& VDMA_S2MM_CONTROL_RS_BITMASK = 1 ∧
      ioread32 (vdma_s2mm_stop
          { vdma_s2mm_start channel_s2mm_only with
            mm2s := { mm2s_zero with active := true } }).regs
          VDMA_S2MM_CONTROL_REGISTER &&& VDMA_S2MM_CONTROL_RS_BITMASK = 0 := by
  refine ⟨rfl, rfl, ?_, rfl, ?_, ?_⟩ <;> decide

/-! ## C12: start and stop of an inactive direction -/

/-- The start functions of both directions and `vdma_mm2s_stop` return the channel
as it was, register window included, when their direction is inactive. -/
theorem vdma_start_stop_of_inactive (ch : vdma_channel) :
    (ch.mm2s.active = false → vdma_mm2s_start ch = ch ∧ vdma_mm2s_stop ch = ch) ∧
      (ch.s2mm.active = false → vdma_s2mm_start ch = ch) := by
  refine ⟨fun h => ⟨?_, ?_⟩, fun h => ?_⟩
  · unfold vdma_mm2s_start
    simp [h, Id.run]
  · unfold vdma_mm2s_stop
    simp [h]
  · unfold vdma_s2mm_start
    simp [h, Id.run]

/-- C12, evaluation at the failing input: the progressive 1920 x 1080 channel has an
active mm2s direction and an inactive s2mm direction.  `vdma_s2mm_start` leaves it
as it is, but `vdma_s2mm_stop`, which tests `mm2s.active`, writes `0` to the s2mm
control register. -/
theorem vdma_s2mm_stop_writes_when_inactive :
    (channel_of_geometry 1920 1080 32).s2mm.active = false ∧
      (channel_of_geometry 1920 1080 32).mm2s.active = true ∧
      (vdma_s2mm_start (channel_of_geometry 1920 1080 32)).regs.log = [] ∧
      (vdma_s2mm_stop (channel_of_geometry 1920 1080 32)).regs.log =
        [(VDMA_S2MM_CONTROL_REGISTER, 0)] := by
  refine ⟨rfl, rfl, rfl, rfl⟩

/-! ## C13: geometry written by the start functions -/

/-- The writes of `vdma_mm2s_start` on an active direction, in program order. -/
theorem vdma_mm2s_start_log (ch : vdma_channel) (hactive : ch.mm2s.active = true) :
    (vdma_mm2s_start ch).regs.log =
      ch.regs.log ++
        (VDMA_MM2S_CONTROL_REGISTER,
          u32 ((((0 ||| (if decide (ch.mm2s.irq ≠ -1) then
                  VDMA_MM2S_ERR_IRQ_EN_BITMASK ||| VDMA_MM2S_FRAME_CNT_IRQ_EN_BITMASK else 0)) |||
                (if ch.mm2s.interlaced then VDMA_MM2S_CIRCULAR_PARK_BITMASK else 0)) |||
              (if ch.mm2s.genlock then VDMA_MM2S_CONTROL_GENLOCK_BITMASK else 0)) |||
            VDMA_MM2S_CONTROL_RS_BITMASK)) ::
        (VDMA_MM2S_HSIZE_REGISTER, mul32 (ch.mm2s.frame_bpp / 8) ch.mm2s.frame_width) ::
        (if ch.mm2s.interlaced then
          [(VDMA_MM2S_FRMDLY_STRIDE_REGISTER, mul32 ch.mm2s.frame_stride 2),
           (VDMA_MM2S_START_ADDRESS_REGISTER 0,
              sub32 ch.mm2s.phys_addr_even ch.mm2s.phys_addr_offset),
           (VDMA_MM2S_START_ADDRESS_REGISTER 1,
              sub32 ch.mm2s.phys_addr_odd ch.mm2s.phys_addr_offset),
           (VDMA_MM2S_VSIZE_REGISTER, u32 (ch.mm2s.frame_height / 2))]
        else
          [(VDMA_MM2S_FRMDLY_STRIDE_REGISTER, u32 ch.mm2s.frame_stride),
           (VDMA_MM2S_START_ADDRESS_REGISTER 0,
              sub32 ch.mm2s.phys_addr ch.mm2s.phys_addr_offset),
           (VDMA_MM2S_VSIZE_REGISTER, u32 ch.mm2s.frame_height)]) := by
  have hsub : ∀ a b, u32 (sub32 a b) = sub32 a b :=
    fun a b => u32_of_lt (Nat.mod_lt _ (by norm_num))
  have hmul : ∀ a b, u32 (mul32 a b) = mul32 a b :=
    fun a b => u32_of_lt (Nat.mod_lt _ (by norm_num))
  unfold vdma_mm2s_start
  simp only [Id.run, hactive, if_true, bind, pure]
  by_cases hirq : ch.mm2s.irq = -1 <;> cases hil : ch.mm2s.interlaced <;>
    cases hg : ch.mm2s.genlock <;>
    simp [hirq, iowrite32_log, hsub, hmul]

/-- The writes of `vdma_s2mm_start` on an active direction, in program order. -/
theorem vdma_s2mm_start_log (ch : vdma_channel) (hactive : ch.s2mm.active = true) :
    (vdma_s2mm_start ch).regs.log =
      ch.regs.log ++
        [(VDMA_S2MM_CONTROL_REGISTER,
            u32 (((0 ||| (if decide (ch.s2mm.irq ≠ -1) then
                    VDMA_S2MM_ERR_IRQ_EN_BITMASK ||| VDMA_S2MM_FRAME_CNT_EN_BITMASK else 0)) |||
                (if ch.s2mm.genlock then VDMA_S2MM_CONTROL_GENLOCK_BITMASK else 0)) |||
              VDMA_S2MM_CONTROL_RS_BITMASK)),
         (VDMA_S2MM_START_ADDRESS_REGISTER, sub32 ch.s2mm.phys_addr ch.s2mm.phys_addr_offset),
         (VDMA_S2MM_FRMDLY_STRIDE_REGISTER, u32 ch.s2mm.frame_stride),
         (VDMA_S2MM_HSIZE_REGISTER, mul32 (ch.s2mm.frame_bpp / 8) ch.s2mm.frame_width),
         (VDMA_S2MM_VSIZE_REGISTER, u32 ch.s2mm.frame_height)] := by
  have hsub : ∀ a b, u32 (sub32 a b) = sub32 a b :=
    fun a b => u32_of_lt (Nat.mod_lt _ (by norm_num))
  have hmul : ∀ a b, u32 (mul32 a b) = mul32 a b :=
    fun a b => u32_of_lt (Nat.mod_lt _ (by norm_num))
  unfold vdma_s2mm_start
  simp only [Id.run, hactive, if_true, bind, pure]
  by_cases hirq : ch.s2mm.irq = -1 <;> cases hg : ch.s2mm.genlock <;>
    simp [hirq, iowrite32_log, hsub, hmul]

/-- C13, counterexample: on the channel with a 20000 x 5000 frame at 32 bits per
pixel, active in both directions, `vdma_mm2s_start` writes 5000 to VSIZE, 80000 to
HSIZE and 80000 to the stride register, and `vdma_s2mm_start` does the same on the
s2mm registers: all exceed the field widths 0xFFF and 0xFFFF, and nothing is
rejected. -/
theorem vdma_start_geometry_counterexample :
    channel_oversize.mm2s.active = true ∧ channel_oversize.s2mm.active = true ∧
      writes_since channel_oversize.regs (vdma_mm2s_start channel_oversize).regs =
        [(VDMA_MM2S_CONTROL_REGISTER, 1), (VDMA_MM2S_HSIZE_REGISTER, 80000),
         (VDMA_MM2S_FRMDLY_STRIDE_REGISTER, 80000),
         (VDMA_MM2S_START_ADDRESS_REGISTER 0, 0x30000000),
         (VDMA_MM2S_VSIZE_REGISTER, 5000)] ∧
      writes_since channel_oversize.regs (vdma_s2mm_start channel_oversize).regs =
        [(VDMA_S2MM_CONTROL_REGISTER, 1), (VDMA_S2MM_START_ADDRESS_REGISTER, 0x50000000),
         (VDMA_S2MM_FRMDLY_STRIDE_REGISTER, 80000), (VDMA_S2MM_HSIZE_REGISTER, 80000),
         (VDMA_S2MM_VSIZE_REGISTER, 5000)] ∧
      VDMA_MM2S_VSIZE_LINES_BITMASK < 5000 ∧ VDMA_MM2S_HSIZE_BYTES_BITMASK < 80000 ∧
      VDMA_MM2S_STRIDE_BYTES_BITMASK < 80000 ∧
      ¬ geometry_within_field_width
          (writes_since channel_oversize.regs (vdma_mm2s_start channel_oversize).regs) ∧
      ¬ geometry_within_field_width
          (writes_since channel_oversize.regs (vdma_s2mm_start channel_oversize).regs) := by
  refine ⟨rfl, rfl, by decide, by decide, by decide, by decide, by decide, ?_, ?_⟩
  · intro h
    exact absurd ((h (VDMA_MM2S_VSIZE_REGISTER, 5000) (by decide)).1 rfl) (by decide)
  · intro h
    exact absurd ((h (VDMA_S2MM_VSIZE_REGISTER, 5000) (by decide)).2.2.2.1 rfl) (by decide)

/-- C13, amended: the start functions perform no bounds check.  On an active
direction they always write the configured geometry: VSIZE receives the frame
height (half of it on an interlaced mm2s direction), HSIZE `(bpp / 8) * width` and
the stride register the stride (twice the stride on an interlaced mm2s direction),
each as the `u32` value of the C expression.  So the values written fit the field
widths 0xFFF, 0xFFFF and 0xFFFF exactly when the configured values do. -/
theorem vdma_start_geometry_unchecked (ch : vdma_channel) :
    (ch.mm2s.active = true →
      (VDMA_MM2S_VSIZE_REGISTER,
          u32 (if ch.mm2s.interlaced then ch.mm2s.frame_height / 2 else ch.mm2s.frame_height)) ∈
        writes_since ch.regs (vdma_mm2s_start ch).regs ∧
      (VDMA_MM2S_HSIZE_REGISTER, mul32 (ch.mm2s.frame_bpp / 8) ch.mm2s.frame_width) ∈
        writes_since ch.regs (vdma_mm2s_start ch).regs ∧
      (VDMA_MM2S_FRMDLY_STRIDE_REGISTER,
          if ch.mm2s.interlaced then mul32 ch.mm2s.frame_stride 2
          else u32 ch.mm2s.frame_stride) ∈
        writes_since ch.regs (vdma_mm2s_start ch).regs ∧
      (geometry_within_field_width (writes_since ch.regs (vdma_mm2s_start ch).regs) ↔
        u32 (if ch.mm2s.interlaced then ch.mm2s.frame_height / 2 else ch.mm2s.frame_height) ≤
            VDMA_MM2S_VSIZE_LINES_BITMASK ∧
          mul32 (ch.mm2s.frame_bpp / 8) ch.mm2s.frame_width ≤ VDMA_MM2S_HSIZE_BYTES_BITMASK ∧
          (if ch.mm2s.interlaced then mul32 ch.mm2s.frame_stride 2
            else u32 ch.mm2s.frame_stride) ≤ VDMA_MM2S_STRIDE_BYTES_BITMASK)) ∧
    (ch.s2mm.active = true →
      (VDMA_S2MM_VSIZE_REGISTER, u32 ch.s2mm.frame_height) ∈
        writes_since ch.regs (vdma_s2mm_start ch).regs ∧
      (VDMA_S2MM_HSIZE_REGISTER, mul32 (ch.s2mm.frame_bpp / 8) ch.s2mm.frame_width) ∈
        writes_since ch.regs (vdma_s2mm_start ch).regs ∧
      (VDMA_S2MM_FRMDLY_STRIDE_REGISTER, u32 ch.s2mm.frame_stride) ∈
        writes_since ch.regs (vdma_s2mm_start ch).regs ∧
      (geometry_within_field_width (writes_since ch.regs (vdma_s2mm_start ch).regs) ↔
        u32 ch.s2mm.frame_height ≤ VDMA_S2MM_VSIZE_LINES_BITMASK ∧
          mul32 (ch.s2mm.frame_bpp / 8) ch.s2mm.frame_width ≤ VDMA_S2MM_HSIZE_BYTES_BITMASK ∧
          u32 ch.s2mm.frame_stride ≤ VDMA_S2MM_STRIDE_BYTES_BITMASK)) := by
  constructor
  · intro hactive
    unfold writes_since
    rw [vdma_mm2s_start_log ch hactive, List.drop_left]
    cases hil : ch.mm2s.interlaced <;>
      simp [geometry_within_field_width, VDMA_MM2S_CONTROL_REGISTER, VDMA_MM2S_HSIZE_REGISTER,
        VDMA_MM2S_FRMDLY_STRIDE_REGISTER, VDMA_MM2S_START_ADDRESS_REGISTER,
        VDMA_MM2S_VSIZE_REGISTER, VDMA_S2MM_VSIZE_REGISTER, VDMA_S2MM_HSIZE_REGISTER,
        VDMA_S2MM_FRMDLY_STRIDE_REGISTER] <;>
      tauto
  · intro hactive
    unfold writes_since
    rw [vdma_s2mm_start_log ch hactive, List.drop_left]
    simp [geometry_within_field_width, VDMA_S2MM_CONTROL_REGISTER, VDMA_S2MM_HSIZE_REGISTER,
      VDMA_S2MM_FRMDLY_STRIDE_REGISTER, VDMA_S2MM_START_ADDRESS_REGISTER,
      VDMA_S2MM_VSIZE_REGISTER, VDMA_MM2S_VSIZE_REGISTER, VDMA_MM2S_HSIZE_REGISTER,
      VDMA_MM2S_FRMDLY_STRIDE_REGISTER]
    tauto

/-- C13, instance: on the channel with the 20000 x 5000 frame both directions are
active and both start functions write the oversize geometry. -/
theorem vdma_start_geometry_unchecked_witness :
    channel_oversize.mm2s.active = true ∧ channel_oversize.s2mm.active = true ∧
      (VDMA_MM2S_VSIZE_REGISTER, 5000) ∈
        writes_since channel_oversize.regs (vdma_mm2s_start channel_oversize).regs ∧
      (VDMA_S2MM_HSIZE_REGISTER, 80000) ∈
        writes_since channel_oversize.regs (vdma_s2mm_start channel_oversize).regs :=
  ⟨rfl, rfl, ((vdma_start_geometry_unchecked channel_oversize).1 rfl).1,
    ((vdma_start_geometry_unchecked channel_oversize).2 rfl).2.1⟩

/-! ## C14: `video_sync_crtc_atomic_enable` on a mode with a zero parameter -/

/-- C14: for every synchronizer and every adjusted mode with `clock = 0` or
`htotal = 0` or `vtotal = 0`, `video_sync_crtc_atomic_enable` reports the invalid
mode and returns: it does not sleep, and it leaves the synchronizer as it was, so
it writes no register and the control register, run bit included, reads what it
read before. -/
theorem video_sync_crtc_atomic_enable_invalid_mode (sync : video_sync)
    (adjusted_mode : drm_display_mode)
    (hzero : adjusted_mode.clock = 0 ∨ adjusted_mode.htotal = 0 ∨ adjusted_mode.vtotal = 0) :
    (video_sync_crtc_atomic_enable sync adjusted_mode).2 = atomic_enable_effect.invalid_mode ∧
      (∀ msecs, (video_sync_crtc_atomic_enable sync adjusted_mode).2 ≠
        atomic_enable_effect.msleep msecs) ∧
      (video_sync_crtc_atomic_enable sync adjusted_mode).1 = sync ∧
      writes_since sync.regs (video_sync_crtc_atomic_enable sync adjusted_mode).1.regs = [] ∧
      ioread32 (video_sync_crtc_atomic_enable sync adjusted_mode).1.regs
          VIDEO_SYNC_CONTROL_REGISTER &&& VIDEO_SYNC_CTRL_RUN_MASK =
        ioread32 sync.regs VIDEO_SYNC_CONTROL_REGISTER &&& VIDEO_SYNC_CTRL_RUN_MASK := by
  have hcond :
      adjusted_mode.clock = 0 ∨ adjusted_mode.vtotal = 0 ∨ adjusted_mode.htotal = 0 := by
    tauto
  have heq : video_sync_crtc_atomic_enable sync adjusted_mode =
      (sync, atomic_enable_effect.invalid_mode) := by
    unfold video_sync_crtc_atomic_enable
    simp [Id.run, hcond]
  rw [heq]
  refine ⟨rfl, fun msecs h => ?_, rfl, ?_, rfl⟩
  · cases h
  · simp [writes_since]

/-- C14, instance: the mode with total size 2200 x 1125 and `clock = 0` on the
synchronizer with a pending FRAME_DONE status: the call reports the invalid mode
and the write log stays empty. -/
theorem video_sync_crtc_atomic_enable_invalid_mode_witness :
    ((0 : Int) = 0 ∨ (2200 : Int) = 0 ∨ (1125 : Int) = 0) ∧
      (video_sync_crtc_atomic_enable (sync_with_status false true 0x10)
        { clock := 0, htotal := 2200, vtotal := 1125 }).2 = atomic_enable_effect.invalid_mode ∧
      (video_sync_crtc_atomic_enable (sync_with_status false true 0x10)
        { clock := 0, htotal := 2200, vtotal := 1125 }).1.regs.log = [] :=
  ⟨Or.inl rfl,
    (video_sync_crtc_atomic_enable_invalid_mode (sync_with_status false true 0x10)
      { clock := 0, htotal := 2200, vtotal := 1125 } (Or.inl rfl)).1,
    congrArg (fun s => s.regs.log)
      (video_sync_crtc_atomic_enable_invalid_mode (sync_with_status false true 0x10)
        { clock := 0, htotal := 2200, vtotal := 1125 } (Or.inl rfl)).2.2.1⟩

/-! ## Successful and rejected probes -/

/-- What a successful `vdma_mm2s_probe` leaves in the mm2s member: the three
required properties as read, the stride as read or else `width * (bpp / 8)`, the
ppi as read or else `0`, the direction active, a buffer that is not `NULL` and
that comes from `memremap` of the `memory-addr` region, whose size then is
`stride * height`, or else from `dmam_alloc_coherent`. -/
theorem vdma_mm2s_probe_success (env : probe_env) (vdma : vdma_channel) (child : mm2s_node)
    (probed : vdma_channel) (h : vdma_mm2s_probe env vdma child = (0, probed)) :
    child.frame_bpp = some probed.mm2s.frame_bpp ∧
      child.frame_width = some probed.mm2s.frame_width ∧
      probed.mm2s.frame_stride =
        (match child.frame_stride with
          | none => mul32 probed.mm2s.frame_width (probed.mm2s.frame_bpp / 8)
          | some v => v) ∧
      child.frame_height = some probed.mm2s.frame_height ∧
      probed.mm2s.frame_ppi =
        (match child.frame_ppi with
          | none => 0
          | some v => v) ∧
      probed.mm2s.active = true ∧
      (match child.memory_addr with
        | some (some mem_res) =>
          resource_size mem_res = mul32 probed.mm2s.frame_stride probed.mm2s.frame_height ∧
            probed.mm2s.phys_addr = mem_res.start ∧
            probed.mm2s.buffer = env.memremap mem_res.start (resource_size mem_res) ∧
            probed.mm2s.dma_malloced = false
        | some none => False
        | none =>
          probed.mm2s.buffer =
              (env.dmam_alloc_coherent
                (mul32 probed.mm2s.frame_stride probed.mm2s.frame_height)).1 ∧
            probed.mm2s.phys_addr =
              (env.dmam_alloc_coherent
                (mul32 probed.mm2s.frame_stride probed.mm2s.frame_height)).2 ∧
            probed.mm2s.dma_malloced = true) ∧
      probed.mm2s.buffer ≠ 0 := by
  unfold vdma_mm2s_probe at h
  revert h
  generalize hC : (child.frame_bpp = some probed.mm2s.frame_bpp ∧
      child.frame_width = some probed.mm2s.frame_width ∧
      probed.mm2s.frame_stride =
        (match child.frame_stride with
          | none => mul32 probed.mm2s.frame_width (probed.mm2s.frame_bpp / 8)
          | some v => v) ∧
      child.frame_height = some probed.mm2s.frame_height ∧
      probed.mm2s.frame_ppi =
        (match child.frame_ppi with
          | none => 0
          | some v => v) ∧
      probed.mm2s.active = true ∧
      (match child.memory_addr with
        | some (some mem_res) =>
          resource_size mem_res = mul32 probed.mm2s.frame_stride probed.mm2s.frame_height ∧
            probed.mm2s.phys_addr = mem_res.start ∧
            probed.mm2s.buffer = env.memremap mem_res.start (resource_size mem_res) ∧
            probed.mm2s.dma_malloced = false
        | some none => False
        | none =>
          probed.mm2s.buffer =
              (env.dmam_alloc_coherent
                (mul32 probed.mm2s.frame_stride probed.mm2s.frame_height)).1 ∧
            probed.mm2s.phys_addr =
              (env.dmam_alloc_coherent
                (mul32 probed.mm2s.frame_stride probed.mm2s.frame_height)).2 ∧
            probed.mm2s.dma_malloced = true) ∧
      probed.mm2s.buffer ≠ 0) = C
  have hEINVAL : ∀ {x : vdma_channel}, ((-EINVAL : Int), x) = (0, probed) → C :=
    fun hx => absurd (show (-EINVAL : Int) = 0 from congrArg Prod.fst hx) (by decide)
  let F1 : vdma_mm2s → Prop := fun m => child.frame_bpp = some m.frame_bpp
  let F2 : vdma_mm2s → Prop := fun m => child.frame_width = some m.frame_width
  let F3 : vdma_mm2s → Prop := fun m =>
    m.frame_stride =
      (match child.frame_stride with
        | none => mul32 m.frame_width (m.frame_bpp / 8)
        | some v => v)
  let F4 : vdma_mm2s → Prop := fun m => child.frame_height = some m.frame_height
  let F5 : vdma_mm2s → Prop := fun m =>
    m.frame_ppi =
      (match child.frame_ppi with
        | none => 0
        | some v => v)
  let F6 : vdma_mm2s → Prop := fun m => m.active = true
  let F7 : vdma_mm2s → Prop := fun m =>
    (match child.memory_addr with
      | some (some mem_res) =>
        resource_size mem_res = mul32 m.frame_stride m.frame_height ∧
          m.phys_addr = mem_res.start ∧
          m.buffer = env.memremap mem_res.start (resource_size mem_res) ∧
          m.dma_malloced = false
      | some none => False
      | none =>
        m.buffer = (env.dmam_alloc_coherent (mul32 m.frame_stride m.frame_height)).1 ∧
          m.phys_addr = (env.dmam_alloc_coherent (mul32 m.frame_stride m.frame_height)).2 ∧
          m.dma_malloced = true)
  lift_lets
  intro m0 m1 jpEnd
  have h_jpEnd : ∀ m y, (F1 m ∧ F2 m ∧ F3 m ∧ F4 m ∧ F5 m ∧ F6 m ∧ F7 m ∧ m.buffer ≠ 0) →
      jpEnd m y = (0, probed) → C := by
    intro m y hQ h
    have hch : probed = { vdma with mm2s := m } := (congrArg Prod.snd h).symm
    rw [← hC]
    have hm : probed.mm2s = m := by rw [hch]
    rw [hm]
    exact hQ
  clear_value jpEnd
  intro jpIrq
  have h_jpIrq : ∀ m y, (F1 m ∧ F2 m ∧ F3 m ∧ F4 m ∧ F5 m ∧ F6 m ∧ F7 m ∧ m.buffer ≠ 0) →
      jpIrq m y = (0, probed) → C := by
    intro m y hQ h
    simp only [jpIrq, bind, pure] at h
    split at h
    · split at h
      · rename_i hreq
        exact absurd (congrArg Prod.fst h) hreq
      · exact h_jpEnd _ _ (by exact hQ) h
    · exact h_jpEnd _ _ (by exact hQ) h
  clear_value jpIrq
  intro jpIl
  have h_jpIl : ∀ m y, (F1 m ∧ F2 m ∧ F3 m ∧ F4 m ∧ F5 m ∧ F6 m ∧ F7 m ∧ m.buffer ≠ 0) →
      jpIl m y = (0, probed) → C := by
    intro m y hQ h
    simp only [jpIl, bind, pure] at h
    split at h
    · exact h_jpIrq _ _ (by exact hQ) h
    · exact h_jpIrq _ _ (by exact hQ) h
  clear_value jpIl
  intro jpErr
  have h_jpErr : ∀ m y, (F1 m ∧ F2 m ∧ F3 m ∧ F4 m ∧ F5 m ∧ F6 m ∧ F7 m ∧ m.buffer ≠ 0) →
      jpErr m y = (0, probed) → C := by
    intro m y hQ h
    simp only [jpErr, bind, pure] at h
    split at h
    · exact absurd (congrArg Prod.fst h) (PTR_ERR_ne_zero _ _)
    · exact h_jpIl _ _ hQ h
  clear_value jpErr
  intro jpNull
  have h_jpNull : ∀ m y, (F1 m ∧ F2 m ∧ F3 m ∧ F4 m ∧ F5 m ∧ F6 m ∧ F7 m) →
      jpNull m y = (0, probed) → C := by
    intro m y hQ h
    simp only [jpNull, bind, pure] at h
    split at h
    · exact absurd (show (-ENOMEM : Int) = 0 from congrArg Prod.fst h) (by decide)
    · rename_i hb
      obtain ⟨h1, h2, h3, h4, h5, h6, h7⟩ := hQ
      refine h_jpErr _ _ ?_ h
      exact ⟨h1, h2, h3, h4, h5, h6, h7, hb⟩
  clear_value jpNull
  intro jpMem
  have h_jpMem : ∀ m y, (F1 m ∧ F2 m ∧ F3 m ∧ F4 m ∧ F5 m ∧ F6 m) →
      jpMem m y = (0, probed) → C := by
    intro m y hQ h
    obtain ⟨h1, h2, h3, h4, h5, h6⟩ := hQ
    simp only [jpMem, bind, pure] at h
    split at h
    · exact hEINVAL h
    · rename_i mem_res hma
      split at h
      · exact hEINVAL h
      · rename_i hsize
        refine h_jpNull _ _ ?_ h
        refine ⟨h1, h2, h3, h4, h5, h6, ?_⟩
        have hsz := not_not.mp hsize
        simp only [F7, hma, hsz, and_self]
    · rename_i hma
      refine h_jpNull _ _ ?_ h
      refine ⟨h1, h2, h3, h4, h5, h6, ?_⟩
      simp only [F7, hma, and_self]
  clear_value jpMem
  intro jpBlock
  have h_jpBlock : ∀ m y, (F1 m ∧ F2 m ∧ F3 m ∧ F4 m ∧ F5 m ∧ F6 m) →
      jpBlock m y = (0, probed) → C := by
    intro m y hQ h
    simp only [jpBlock, bind, pure] at h
    split at h
    all_goals exact h_jpMem _ _ (by exact hQ) h
  clear_value jpBlock
  intro jpPpi
  have h_jpPpi : ∀ m y, (F1 m ∧ F2 m ∧ F3 m ∧ F4 m ∧ F6 m) →
      jpPpi m y = (0, probed) → C := by
    intro m y hQ h
    obtain ⟨h1, h2, h3, h4, h6⟩ := hQ
    simp only [jpPpi, bind, pure] at h
    split at h
    · rename_i hp
      refine h_jpBlock _ _ ?_ h
      refine ⟨h1, h2, h3, h4, ?_, h6⟩
      simp only [F5, hp]
    · rename_i v hp
      refine h_jpBlock _ _ ?_ h
      refine ⟨h1, h2, h3, h4, ?_, h6⟩
      simp only [F5, hp]
  clear_value jpPpi
  intro jpHeight
  have h_jpHeight : ∀ m y, (F1 m ∧ F2 m ∧ F3 m ∧ F6 m) →
      jpHeight m y = (0, probed) → C := by
    intro m y hQ h
    obtain ⟨h1, h2, h3, h6⟩ := hQ
    simp only [jpHeight, bind, pure] at h
    split at h
    · exact hEINVAL h
    · rename_i v hv
      refine h_jpPpi _ _ ?_ h
      exact ⟨h1, h2, h3, hv, h6⟩
  clear_value jpHeight
  intro jpStride
  have h_jpStride : ∀ m y, (F1 m ∧ F2 m ∧ F6 m) →
      jpStride m y = (0, probed) → C := by
    intro m y hQ h
    obtain ⟨h1, h2, h6⟩ := hQ
    simp only [jpStride, bind, pure] at h
    split at h
    · rename_i hs
      refine h_jpHeight _ _ ?_ h
      refine ⟨h1, h2, ?_, h6⟩
      simp only [F3, hs]
    · rename_i v hs
      refine h_jpHeight _ _ ?_ h
      refine ⟨h1, h2, ?_, h6⟩
      simp only [F3, hs]
  clear_value jpStride
  intro jpWidth
  have h_jpWidth : ∀ m y, (F1 m ∧ F6 m) →
      jpWidth m y = (0, probed) → C := by
    intro m y hQ h
    obtain ⟨h1, h6⟩ := hQ
    simp only [jpWidth, bind, pure] at h
    split at h
    · exact hEINVAL h
    · rename_i v hv
      refine h_jpStride _ _ ?_ h
      exact ⟨h1, hv, h6⟩
  clear_value jpWidth
  intro h
  simp only [Id.run, bind, pure] at h
  split at h
  · exact hEINVAL h
  · rename_i v hv
    refine h_jpWidth _ _ ?_ h
    exact ⟨hv, rfl⟩

/-- What a successful `vdma_s2mm_probe` leaves in the s2mm member: the three
required properties as read, the stride as read or else `width * (bpp / 8)`, the
direction active, a buffer that is not `NULL` and that comes from `memremap` of
the `memory-addr` region, whose size then is `stride * height`, or else from
`dmam_alloc_coherent`. -/
theorem vdma_s2mm_probe_success (env : probe_env) (vdma : vdma_channel) (child : s2mm_node)
    (probed : vdma_channel) (h : vdma_s2mm_probe env vdma child = (0, probed)) :
    child.frame_bpp = some probed.s2mm.frame_bpp ∧
      child.frame_width = some probed.s2mm.frame_width ∧
      probed.s2mm.frame_stride =
        (match child.frame_stride with
          | none => mul32 probed.s2mm.frame_width (probed.s2mm.frame_bpp / 8)
          | some v => v) ∧
      child.frame_height = some probed.s2mm.frame_height ∧
      probed.s2mm.active = true ∧
      (match child.memory_addr with
        | some (some mem_res) =>
          resource_size mem_res = mul32 probed.s2mm.frame_stride probed.s2mm.frame_height ∧
            probed.s2mm.phys_addr = mem_res.start ∧
            probed.s2mm.buffer = env.memremap mem_res.start (resource_size mem_res) ∧
            probed.s2mm.dma_malloced = false
        | some none => False
        | none =>
          probed.s2mm.buffer =
              (env.dmam_alloc_coherent
                (mul32 probed.s2mm.frame_stride probed.s2mm.frame_height)).1 ∧
            probed.s2mm.phys_addr =
              (env.dmam_alloc_coherent
                (mul32 probed.s2mm.frame_stride probed.s2mm.frame_height)).2 ∧
            probed.s2mm.dma_malloced = true) ∧
      probed.s2mm.buffer ≠ 0 := by
  unfold vdma_s2mm_probe at h
  revert h
  generalize hC : (child.frame_bpp = some probed.s2mm.frame_bpp ∧
      child.frame_width = some probed.s2mm.frame_width ∧
      probed.s2mm.frame_stride =
        (match child.frame_stride with
          | none => mul32 probed.s2mm.frame_width (probed.s2mm.frame_bpp / 8)
          | some v => v) ∧
      child.frame_height = some probed.s2mm.frame_height ∧
      probed.s2mm.active = true ∧
      (match child.memory_addr with
        | some (some mem_res) =>
          resource_size mem_res = mul32 probed.s2mm.frame_stride probed.s2mm.frame_height ∧
            probed.s2mm.phys_addr = mem_res.start ∧
            probed.s2mm.buffer = env.memremap mem_res.start (resource_size mem_res) ∧
            probed.s2mm.dma_malloced = false
        | some none => False
        | none =>
          probed.s2mm.buffer =
              (env.dmam_alloc_coherent
                (mul32 probed.s2mm.frame_stride probed.s2mm.frame_height)).1 ∧
            probed.s2mm.phys_addr =
              (env.dmam_alloc_coherent
                (mul32 probed.s2mm.frame_stride probed.s2mm.frame_height)).2 ∧
            probed.s2mm.dma_malloced = true) ∧
      probed.s2mm.buffer ≠ 0) = C
  have hEINVAL : ∀ {x : vdma_channel}, ((-EINVAL : Int), x) = (0, probed) → C :=
    fun hx => absurd (show (-EINVAL : Int) = 0 from congrArg Prod.fst hx) (by decide)
  let F1 : vdma_s2mm → Prop := fun m => child.frame_bpp = some m.frame_bpp
  let F2 : vdma_s2mm → Prop := fun m => child.frame_width = some m.frame_width
  let F3 : vdma_s2mm → Prop := fun m =>
    m.frame_stride =
      (match child.frame_stride with
        | none => mul32 m.frame_width (m.frame_bpp / 8)
        | some v => v)
  let F4 : vdma_s2mm → Prop := fun m => child.frame_height = some m.frame_height
  let F6 : vdma_s2mm → Prop := fun m => m.active = true
  let F7 : vdma_s2mm → Prop := fun m =>
    (match child.memory_addr with
      | some (some mem_res) =>
        resource_size mem_res = mul32 m.frame_stride m.frame_height ∧
          m.phys_addr = mem_res.start ∧
          m.buffer = env.memremap mem_res.start (resource_size mem_res) ∧
          m.dma_malloced = false
      | some none => False
      | none =>
        m.buffer = (env.dmam_alloc_coherent (mul32 m.frame_stride m.frame_height)).1 ∧
          m.phys_addr = (env.dmam_alloc_coherent (mul32 m.frame_stride m.frame_height)).2 ∧
          m.dma_malloced = true)
  lift_lets
  intro m0 m1 jpEnd
  have h_jpEnd : ∀ m y, (F1 m ∧ F2 m ∧ F3 m ∧ F4 m ∧ F6 m ∧ F7 m ∧ m.buffer ≠ 0) →
      jpEnd m y = (0, probed) → C := by
    intro m y hQ h
    have hch : probed = { vdma with s2mm := m } := (congrArg Prod.snd h).symm
    rw [← hC]
    have hm : probed.s2mm = m := by rw [hch]
    rw [hm]
    exact hQ
  clear_value jpEnd
  intro jpIrq
  have h_jpIrq : ∀ m y, (F1 m ∧ F2 m ∧ F3 m ∧ F4 m ∧ F6 m ∧ F7 m ∧ m.buffer ≠ 0) →
      jpIrq m y = (0, probed) → C := by
    intro m y hQ h
    simp only [jpIrq, bind, pure] at h
    split at h
    · split at h
      · rename_i hreq
        exact absurd (congrArg Prod.fst h) hreq
      · exact h_jpEnd _ _ (by exact hQ) h
    · exact h_jpEnd _ _ (by exact hQ) h
  clear_value jpIrq
  intro jpErr
  have h_jpErr : ∀ m y, (F1 m ∧ F2 m ∧ F3 m ∧ F4 m ∧ F6 m ∧ F7 m ∧ m.buffer ≠ 0) →
      jpErr m y = (0, probed) → C := by
    intro m y hQ h
    simp only [jpErr, bind, pure] at h
    split at h
    · exact absurd (congrArg Prod.fst h) (PTR_ERR_ne_zero _ _)
    · exact h_jpIrq _ _ hQ h
  clear_value jpErr
  intro jpNull
  have h_jpNull : ∀ m y, (F1 m ∧ F2 m ∧ F3 m ∧ F4 m ∧ F6 m ∧ F7 m) →
      jpNull m y = (0, probed) → C := by
    intro m y hQ h
    simp only [jpNull, bind, pure] at h
    split at h
    · exact absurd (show (-ENOMEM : Int) = 0 from congrArg Prod.fst h) (by decide)
    · rename_i hb
      obtain ⟨h1, h2, h3, h4, h6, h7⟩ := hQ
      refine h_jpErr _ _ ?_ h
      exact ⟨h1, h2, h3, h4, h6, h7, hb⟩
  clear_value jpNull
  intro jpMem
  have h_jpMem : ∀ m y, (F1 m ∧ F2 m ∧ F3 m ∧ F4 m ∧ F6 m) →
      jpMem m y = (0, probed) → C := by
    intro m y hQ h
    obtain ⟨h1, h2, h3, h4, h6⟩ := hQ
    simp only [jpMem, bind, pure] at h
    split at h
    · exact hEINVAL h
    · rename_i mem_res hma
      split at h
      · exact hEINVAL h
      · rename_i hsize
        refine h_jpNull _ _ ?_ h
        refine ⟨h1, h2, h3, h4, h6, ?_⟩
        have hsz := not_not.mp hsize
        simp only [F7, hma, hsz, and_self]
    · rename_i hma
      refine h_jpNull _ _ ?_ h
      refine ⟨h1, h2, h3, h4, h6, ?_⟩
      simp only [F7, hma, and_self]
  clear_value jpMem
  intro jpBlock
  have h_jpBlock : ∀ m y, (F1 m ∧ F2 m ∧ F3 m ∧ F4 m ∧ F6 m) →
      jpBlock m y = (0, probed) → C := by
    intro m y hQ h
    simp only [jpBlock, bind, pure] at h
    split at h
    all_goals exact h_jpMem _ _ (by exact hQ) h
  clear_value jpBlock
  intro jpHeight
  have h_jpHeight : ∀ m y, (F1 m ∧ F2 m ∧ F3 m ∧ F6 m) →
      jpHeight m y = (0, probed) → C := by
    intro m y hQ h
    obtain ⟨h1, h2, h3, h6⟩ := hQ
    simp only [jpHeight, bind, pure] at h
    split at h
    · exact hEINVAL h
    · rename_i v hv
      refine h_jpBlock _ _ ?_ h
      exact ⟨h1, h2, h3, hv, h6⟩
  clear_value jpHeight
  intro jpStride
  have h_jpStride : ∀ m y, (F1 m ∧ F2 m ∧ F6 m) →
      jpStride m y = (0, probed) → C := by
    intro m y hQ h
    obtain ⟨h1, h2, h6⟩ := hQ
    simp only [jpStride, bind, pure] at h
    split at h
    · rename_i hs
      refine h_jpHeight _ _ ?_ h
      refine ⟨h1, h2, ?_, h6⟩
      simp only [F3, hs]
    · rename_i v hs
      refine h_jpHeight _ _ ?_ h
      refine ⟨h1, h2, ?_, h6⟩
      simp only [F3, hs]
  clear_value jpStride
  intro jpWidth
  have h_jpWidth : ∀ m y, (F1 m ∧ F6 m) →
      jpWidth m y = (0, probed) → C := by
    intro m y hQ h
    obtain ⟨h1, h6⟩ := hQ
    simp only [jpWidth, bind, pure] at h
    split at h
    · exact hEINVAL h
    · rename_i v hv
      refine h_jpStride _ _ ?_ h
      exact ⟨h1, hv, h6⟩
  clear_value jpWidth
  intro h
  simp only [Id.run, bind, pure] at h
  split at h
  · exact hEINVAL h
  · rename_i v hv
    refine h_jpWidth _ _ ?_ h
    exact ⟨hv, rfl⟩

/-- When the `memory-addr` region of an `mm2s` node with the three required
properties has a size other than `stride * height`, `vdma_mm2s_probe` returns
`-EINVAL` and leaves the channel with the properties read so far; the result
contains no answer of `memremap` or `dmam_alloc_coherent`. -/
theorem vdma_mm2s_probe_size_mismatch (env : probe_env) (vdma : vdma_channel)
    (child : mm2s_node) (bpp width height : Nat) (mem_res : resource)
    (hbpp : child.frame_bpp = some bpp) (hwidth : child.frame_width = some width)
    (hheight : child.frame_height = some height)
    (haddr : child.memory_addr = some (some mem_res))
    (hsize : resource_size mem_res ≠
      mul32 (match child.frame_stride with
        | none => mul32 width (bpp / 8)
        | some v => v) height) :
    vdma_mm2s_probe env vdma child =
      (-EINVAL,
        { vdma with mm2s :=
          { vdma.mm2s with
            active := true, err := 0, sof_early_err := 0, decode_err := 0, slave_err := 0,
            internal_err := 0, frame_cnt := 0, frame_bpp := bpp, frame_width := width,
            frame_stride := (match child.frame_stride with
              | none => mul32 width (bpp / 8)
              | some v => v)
            frame_height := height
            frame_ppi := (match child.frame_ppi with
              | none => 0
              | some v => v)
            always_on := child.always_on, interlaced := child.interlaced,
            genlock := child.genlock,
            phys_addr_offset := (match child.memory_block with
              | some (some r) => r.start
              | _ => 0) } }) := by
  obtain ⟨bpp0, w0, st, ht0, ppi, ao, il, gl, mb, ma, irqs⟩ := child
  dsimp only at hbpp hwidth hheight haddr hsize
  subst hbpp hwidth hheight haddr
  cases st <;> cases ppi <;> rcases mb with _ | _ | _ <;>
    simp [vdma_mm2s_probe, Id.run, hsize]

/-- When the `memory-addr` region of an `s2mm` node with the three required
properties has a size other than `stride * height`, `vdma_s2mm_probe` returns
`-EINVAL` and leaves the channel with the properties read so far; the result
contains no answer of `memremap` or `dmam_alloc_coherent`. -/
theorem vdma_s2mm_probe_size_mismatch (env : probe_env) (vdma : vdma_channel)
    (child : s2mm_node) (bpp width height : Nat) (mem_res : resource)
    (hbpp : child.frame_bpp = some bpp) (hwidth : child.frame_width = some width)
    (hheight : child.frame_height = some height)
    (haddr : child.memory_addr = some (some mem_res))
    (hsize : resource_size mem_res ≠
      mul32 (match child.frame_stride with
        | none => mul32 width (bpp / 8)
        | some v => v) height) :
    vdma_s2mm_probe env vdma child =
      (-EINVAL,
        { vdma with s2mm :=
          { vdma.s2mm with
            active := true, eol_late_err := 0, err := 0, sof_late_err := 0, eol_early_err := 0,
            sof_early_err := 0, decode_err := 0, slave_err := 0, internal_err := 0,
            frame_cnt := 0, frame_bpp := bpp, frame_width := width,
            frame_stride := (match child.frame_stride with
              | none => mul32 width (bpp / 8)
              | some v => v)
            frame_height := height
            always_on := child.always_on, genlock := child.genlock,
            phys_addr_offset := (match child.memory_block with
              | some (some r) => r.start
              | _ => 0) } }) := by
  obtain ⟨bpp0, w0, st, ht0, ao, gl, mb, ma, irqs⟩ := child
  dsimp only at hbpp hwidth hheight haddr hsize
  subst hbpp hwidth hheight haddr
  cases st <;> rcases mb with _ | _ | _ <;>
    simp [vdma_s2mm_probe, Id.run, hsize]

/-! ## C15: the geometry getters after a successful mm2s probe -/

/-- C15, counterexample: the node with `frame-width` 2, `frame-bpp` 12, `frame-height`
1 and no `frame-stride` is accepted; the getters report width 2 and 12 bits per
pixel, and the reported stride is 2, not `2 * 12 / 8 = 3`. -/
theorem vdma_mm2s_probe_getters_counterexample :
    (vdma_mm2s_probe probe_env_64 (channel_zero regs_zero)
        (mm2s_node_of 12 2 1 none none)).1 = 0 ∧
      vdma_mm2s_get_px_width (vdma_mm2s_probe probe_env_64 (channel_zero regs_zero)
        (mm2s_node_of 12 2 1 none none)).2 = 2 ∧
      vdma_mm2s_get_bit_per_px (vdma_mm2s_probe probe_env_64 (channel_zero regs_zero)
        (mm2s_node_of 12 2 1 none none)).2 = 12 ∧
      vdma_mm2s_get_stride (vdma_mm2s_probe probe_env_64 (channel_zero regs_zero)
        (mm2s_node_of 12 2 1 none none)).2 = 2 ∧
      vdma_mm2s_get_stride (vdma_mm2s_probe probe_env_64 (channel_zero regs_zero)
        (mm2s_node_of 12 2 1 none none)).2 ≠
        vdma_mm2s_get_px_width (vdma_mm2s_probe probe_env_64 (channel_zero regs_zero)
            (mm2s_node_of 12 2 1 none none)).2 *
          vdma_mm2s_get_bit_per_px (vdma_mm2s_probe probe_env_64 (channel_zero regs_zero)
            (mm2s_node_of 12 2 1 none none)).2 / 8 := by
  refine ⟨?_, ?_, ?_, ?_, ?_⟩ <;> decide

/-- C15, amended: after a successful `vdma_mm2s_probe` the getters return the
`frame-width`, `frame-height` and `frame-bpp` that were read, the `frame-ppi`
that was read or `0` when the property is absent, and the `frame-stride` that
was read; when `frame-stride` is absent the reported stride is
`width * (bpp / 8)` in `u32` arithmetic, `bpp / 8` being the whole number of
bytes per pixel, which is `width * bpp / 8` whenever `bpp` is a multiple of 8 and
the product fits 32 bits. -/
theorem vdma_mm2s_probe_getters (env : probe_env) (vdma : vdma_channel) (child : mm2s_node)
    (probed : vdma_channel) (hprobe : vdma_mm2s_probe env vdma child = (0, probed)) :
    child.frame_width = some (vdma_mm2s_get_px_width probed) ∧
      child.frame_height = some (vdma_mm2s_get_px_height probed) ∧
      child.frame_bpp = some (vdma_mm2s_get_bit_per_px probed) ∧
      (∀ v, child.frame_ppi = some v → vdma_mm2s_get_px_per_inch probed = v) ∧
      (child.frame_ppi = none → vdma_mm2s_get_px_per_inch probed = 0) ∧
      (∀ v, child.frame_stride = some v → vdma_mm2s_get_stride probed = v) ∧
      (child.frame_stride = none →
        vdma_mm2s_get_stride probed =
          (vdma_mm2s_get_px_width probed * (vdma_mm2s_get_bit_per_px probed / 8)) % 2 ^ 32) ∧
      (child.frame_stride = none → vdma_mm2s_get_bit_per_px probed % 8 = 0 →
        vdma_mm2s_get_px_width probed * vdma_mm2s_get_bit_per_px probed / 8 < 2 ^ 32 →
        vdma_mm2s_get_stride probed =
          vdma_mm2s_get_px_width probed * vdma_mm2s_get_bit_per_px probed / 8) := by
  obtain ⟨hbpp, hwidth, hstride, hheight, hppi, -, -, -⟩ :=
    vdma_mm2s_probe_success env vdma child probed hprobe
  unfold vdma_mm2s_get_px_width vdma_mm2s_get_px_height vdma_mm2s_get_bit_per_px
    vdma_mm2s_get_px_per_inch vdma_mm2s_get_stride
  refine ⟨hwidth, hheight, hbpp, ?_, ?_, ?_, ?_, ?_⟩
  · intro v hv
    rw [hppi, hv]
  · intro hv
    rw [hppi, hv]
  · intro v hv
    rw [hstride, hv]
  · intro hv
    rw [hv] at hstride
    exact hstride
  · intro hv h8 hlt
    rw [hv] at hstride
    have hdvd : 8 ∣ probed.mm2s.frame_bpp := Nat.dvd_of_mod_eq_zero h8
    have heq : probed.mm2s.frame_width * (probed.mm2s.frame_bpp / 8) =
        probed.mm2s.frame_width * probed.mm2s.frame_bpp / 8 :=
      (Nat.mul_div_assoc _ hdvd).symm
    rw [hstride]
    show (probed.mm2s.frame_width * (probed.mm2s.frame_bpp / 8)) % 2 ^ 32 = _
    rw [heq]
    exact Nat.mod_eq_of_lt hlt

/-- C15, the scenario of the claim: width 1920 at 32 bits per pixel without
`frame-stride` is accepted and the reported stride is 7680. -/
theorem vdma_mm2s_probe_getters_witness :
    vdma_mm2s_probe probe_env_64 (channel_zero regs_zero) (mm2s_node_of 32 1920 1080 none none) =
        (0, (vdma_mm2s_probe probe_env_64 (channel_zero regs_zero)
          (mm2s_node_of 32 1920 1080 none none)).2) ∧
      vdma_mm2s_get_stride (vdma_mm2s_probe probe_env_64 (channel_zero regs_zero)
        (mm2s_node_of 32 1920 1080 none none)).2 = 7680 :=
  ⟨Prod.ext (by decide) rfl,
    ((vdma_mm2s_probe_getters probe_env_64 (channel_zero regs_zero)
      (mm2s_node_of 32 1920 1080 none none) _ (Prod.ext (by decide) rfl)).2.2.2.2.2.2.2 rfl
        (by decide) (by decide)).trans (by decide)⟩

/-! ## C16: stride and line length after a successful probe -/

/-- C16, counterexample: both probes accept a node with `frame-width` 1920,
`frame-bpp` 32 and the explicit `frame-stride` 100; the configured stride is 100,
less than the 7680 bytes of one line of pixels. -/
theorem vdma_probe_stride_counterexample :
    (vdma_mm2s_probe probe_env_64 (channel_zero regs_zero)
        (mm2s_node_of 32 1920 1080 (some 100) none)).1 = 0 ∧
      (vdma_mm2s_probe probe_env_64 (channel_zero regs_zero)
        (mm2s_node_of 32 1920 1080 (some 100) none)).2.mm2s.frame_stride = 100 ∧
      (vdma_s2mm_probe probe_env_64 (channel_zero regs_zero)
        (s2mm_node_of 32 1920 1080 (some 100) none)).1 = 0 ∧
      (vdma_s2mm_probe probe_env_64 (channel_zero regs_zero)
        (s2mm_node_of 32 1920 1080 (some 100) none)).2.s2mm.frame_stride = 100 ∧
      ¬ ((vdma_mm2s_probe probe_env_64 (channel_zero regs_zero)
            (mm2s_node_of 32 1920 1080 (some 100) none)).2.mm2s.frame_stride ≥
          (vdma_mm2s_probe probe_env_64 (channel_zero regs_zero)
              (mm2s_node_of 32 1920 1080 (some 100) none)).2.mm2s.frame_width *
            (vdma_mm2s_probe probe_env_64 (channel_zero regs_zero)
              (mm2s_node_of 32 1920 1080 (some 100) none)).2.mm2s.frame_bpp / 8) ∧
      ¬ ((vdma_s2mm_probe probe_env_64 (channel_zero regs_zero)
            (s2mm_node_of 32 1920 1080 (some 100) none)).2.s2mm.frame_stride ≥
          (vdma_s2mm_probe probe_env_64 (channel_zero regs_zero)
              (s2mm_node_of 32 1920 1080 (some 100) none)).2.s2mm.frame_width *
            (vdma_s2mm_probe probe_env_64 (channel_zero regs_zero)
              (s2mm_node_of 32 1920 1080 (some 100) none)).2.s2mm.frame_bpp / 8) := by
  refine ⟨?_, ?_, ?_, ?_, ?_, ?_⟩ <;> decide

/-- C16, amended: neither probe compares the stride with the line length.  A
direction that `vdma_mm2s_probe` or `vdma_s2mm_probe` configures successfully has
the explicit `frame-stride` as its stride when the property is given, whatever
its value; when the property is absent the stride is `width * (bpp / 8)` in `u32`
arithmetic, so that `stride ≥ width * (bpp / 8)` holds whenever that product fits
32 bits. -/
theorem vdma_probe_stride (env : probe_env) (vdma : vdma_channel) :
    (∀ (child : mm2s_node) (probed : vdma_channel),
      vdma_mm2s_probe env vdma child = (0, probed) →
        (∀ v, child.frame_stride = some v → probed.mm2s.frame_stride = v) ∧
        (child.frame_stride = none →
          probed.mm2s.frame_stride =
            (probed.mm2s.frame_width * (probed.mm2s.frame_bpp / 8)) % 2 ^ 32 ∧
          (probed.mm2s.frame_width * (probed.mm2s.frame_bpp / 8) < 2 ^ 32 →
            probed.mm2s.frame_stride ≥
              probed.mm2s.frame_width * (probed.mm2s.frame_bpp / 8)))) ∧
    (∀ (child : s2mm_node) (probed : vdma_channel),
      vdma_s2mm_probe env vdma child = (0, probed) →
        (∀ v, child.frame_stride = some v → probed.s2mm.frame_stride = v) ∧
        (child.frame_stride = none →
          probed.s2mm.frame_stride =
            (probed.s2mm.frame_width * (probed.s2mm.frame_bpp / 8)) % 2 ^ 32 ∧
          (probed.s2mm.frame_width * (probed.s2mm.frame_bpp / 8) < 2 ^ 32 →
            probed.s2mm.frame_stride ≥
              probed.s2mm.frame_width * (probed.s2mm.frame_bpp / 8)))) := by
  constructor
  · intro child probed hprobe
    obtain ⟨-, -, hstride, -⟩ := vdma_mm2s_probe_success env vdma child probed hprobe
    refine ⟨fun v hv => ?_, fun hv => ?_⟩
    · rw [hstride, hv]
    · rw [hv] at hstride
      have hs : probed.mm2s.frame_stride =
          (probed.mm2s.frame_width * (probed.mm2s.frame_bpp / 8)) % 2 ^ 32 := hstride
      refine ⟨hs, fun hlt => ?_⟩
      rw [hs, Nat.mod_eq_of_lt hlt]
  · intro child probed hprobe
    obtain ⟨-, -, hstride, -⟩ := vdma_s2mm_probe_success env vdma child probed hprobe
    refine ⟨fun v hv => ?_, fun hv => ?_⟩
    · rw [hstride, hv]
    · rw [hv] at hstride
      have hs : probed.s2mm.frame_stride =
          (probed.s2mm.frame_width * (probed.s2mm.frame_bpp / 8)) % 2 ^ 32 := hstride
      refine ⟨hs, fun hlt => ?_⟩
      rw [hs, Nat.mod_eq_of_lt hlt]

/-- C16, instance: an `s2mm` node of 1920 pixels at 32 bits per pixel with the
explicit stride 8192 is configured with stride 8192, and an `mm2s` node of the same
line without `frame-stride` with stride 7680. -/
theorem vdma_probe_stride_witness :
    vdma_s2mm_probe probe_env_64 (channel_zero regs_zero)
        (s2mm_node_of 32 1920 1080 (some 8192) none) =
        (0, (vdma_s2mm_probe probe_env_64 (channel_zero regs_zero)
          (s2mm_node_of 32 1920 1080 (some 8192) none)).2) ∧
      (vdma_s2mm_probe probe_env_64 (channel_zero regs_zero)
        (s2mm_node_of 32 1920 1080 (some 8192) none)).2.s2mm.frame_stride = 8192 ∧
      vdma_mm2s_probe probe_env_64 (channel_zero regs_zero)
        (mm2s_node_of 32 1920 1080 none none) =
        (0, (vdma_mm2s_probe probe_env_64 (channel_zero regs_zero)
          (mm2s_node_of 32 1920 1080 none none)).2) ∧
      (vdma_mm2s_probe probe_env_64 (channel_zero regs_zero)
        (mm2s_node_of 32 1920 1080 none none)).2.mm2s.frame_stride ≥ 1920 * (32 / 8) :=
  ⟨Prod.ext (by decide) rfl,
    ((vdma_probe_stride probe_env_64 (channel_zero regs_zero)).2
      (s2mm_node_of 32 1920 1080 (some 8192) none) _ (Prod.ext (by decide) rfl)).1 8192 rfl,
    Prod.ext (by decide) rfl,
    (((vdma_probe_stride probe_env_64 (channel_zero regs_zero)).1
      (mm2s_node_of 32 1920 1080 none none) _ (Prod.ext (by decide) rfl)).2 rfl).2 (by decide)⟩

/-! ## C17: size of the `memory-addr` region -/

/-- C17, counterexample: for a frame of 16384 x 65537 pixels at 32 bits per pixel the
stride is 65536 bytes and `stride * height` is `2 ^ 32 + 65536`, which is 65536 in
`u32`: both probes accept a `memory-addr` region of 65536 bytes, whose size is not
`stride * height`, and map it. -/
theorem vdma_probe_memory_addr_size_counterexample :
    (vdma_mm2s_probe probe_env_64 (channel_zero regs_zero)
        (mm2s_node_of 32 16384 65537 none (some { start := 0x40000000, size := 65536 }))).1 =
        0 ∧
      (vdma_mm2s_probe probe_env_64 (channel_zero regs_zero)
        (mm2s_node_of 32 16384 65537 none
          (some { start := 0x40000000, size := 65536 }))).2.mm2s.frame_stride = 65536 ∧
      (vdma_mm2s_probe probe_env_64 (channel_zero regs_zero)
        (mm2s_node_of 32 16384 65537 none
          (some { start := 0x40000000, size := 65536 }))).2.mm2s.frame_height = 65537 ∧
      (vdma_mm2s_probe probe_env_64 (channel_zero regs_zero)
        (mm2s_node_of 32 16384 65537 none
          (some { start := 0x40000000, size := 65536 }))).2.mm2s.buffer =
        0xFFFF800040000000 ∧
      (vdma_s2mm_probe probe_env_64 (channel_zero regs_zero)
        (s2mm_node_of 32 16384 65537 none (some { start := 0x40000000, size := 65536 }))).1 =
        0 ∧
      (vdma_s2mm_probe probe_env_64 (channel_zero regs_zero)
        (s2mm_node_of 32 16384 65537 none
          (some { start := 0x40000000, size := 65536 }))).2.s2mm.frame_stride = 65536 ∧
      (vdma_s2mm_probe probe_env_64 (channel_zero regs_zero)
        (s2mm_node_of 32 16384 65537 none
          (some { start := 0x40000000, size := 65536 }))).2.s2mm.frame_height = 65537 ∧
      resource_size { start := 0x40000000, size := 65536 } ≠ 65536 * 65537 ∧
      mul32 65536 65537 = 65536 := by
  refine ⟨?_, ?_, ?_, ?_, ?_, ?_, ?_, ?_, ?_⟩ <;> decide

/-- C17, amended: with a `memory-addr` region, `vdma_mm2s_probe` and `vdma_s2mm_probe`
succeed only if the size of the region equals the `u32` product `stride * height`
that the C code computes, hence `stride * height` itself when that is below
`2 ^ 32`, and the buffer then is the mapped region, not an allocated one.  When the
three required properties are present and the size of the region differs from the
`u32` product (in particular from `stride * height` when that is below `2 ^ 32`),
the probe returns `-EINVAL`; the buffer address, the bus address and the allocation
flag of the channel are as before the call, and the result is the same whatever
`memremap` and `dmam_alloc_coherent` would answer: the region is not mapped and
nothing is allocated. -/
theorem vdma_probe_memory_addr_size (env : probe_env) (vdma : vdma_channel)
    (mem_res : resource) :
    (∀ child : mm2s_node, child.memory_addr = some (some mem_res) →
      (∀ probed, vdma_mm2s_probe env vdma child = (0, probed) →
        resource_size mem_res = mul32 probed.mm2s.frame_stride probed.mm2s.frame_height ∧
        probed.mm2s.buffer = env.memremap mem_res.start (resource_size mem_res) ∧
        probed.mm2s.dma_malloced = false ∧
        (probed.mm2s.frame_stride * probed.mm2s.frame_height < 2 ^ 32 →
          resource_size mem_res = probed.mm2s.frame_stride * probed.mm2s.frame_height)) ∧
      (∀ bpp width height, child.frame_bpp = some bpp → child.frame_width = some width →
        child.frame_height = some height →
        resource_size mem_res ≠
          mul32 (match child.frame_stride with
            | none => mul32 width (bpp / 8)
            | some v => v) height →
        (vdma_mm2s_probe env vdma child).1 = -EINVAL ∧
        (vdma_mm2s_probe env vdma child).2.mm2s.buffer = vdma.mm2s.buffer ∧
        (vdma_mm2s_probe env vdma child).2.mm2s.phys_addr = vdma.mm2s.phys_addr ∧
        (vdma_mm2s_probe env vdma child).2.mm2s.dma_malloced = vdma.mm2s.dma_malloced ∧
        ∀ env2 : probe_env,
          vdma_mm2s_probe env2 vdma child = vdma_mm2s_probe env vdma child) ∧
      (∀ bpp width height, child.frame_bpp = some bpp → child.frame_width = some width →
        child.frame_height = some height →
        (match child.frame_stride with
          | none => mul32 width (bpp / 8)
          | some v => v) * height < 2 ^ 32 →
        resource_size mem_res ≠
          (match child.frame_stride with
            | none => mul32 width (bpp / 8)
            | some v => v) * height →
        (vdma_mm2s_probe env vdma child).1 = -EINVAL)) ∧
    (∀ child : s2mm_node, child.memory_addr = some (some mem_res) →
      (∀ probed, vdma_s2mm_probe env vdma child = (0, probed) →
        resource_size mem_res = mul32 probed.s2mm.frame_stride probed.s2mm.frame_height ∧
        probed.s2mm.buffer = env.memremap mem_res.start (resource_size mem_res) ∧
        probed.s2mm.dma_malloced = false ∧
        (probed.s2mm.frame_stride * probed.s2mm.frame_height < 2 ^ 32 →
          resource_size mem_res = probed.s2mm.frame_stride * probed.s2mm.frame_height)) ∧
      (∀ bpp width height, child.frame_bpp = some bpp → child.frame_width = some width →
        child.frame_height = some height →
        resource_size mem_res ≠
          mul32 (match child.frame_stride with
            | none => mul32 width (bpp / 8)
            | some v => v) height →
        (vdma_s2mm_probe env vdma child).1 = -EINVAL ∧
        (vdma_s2mm_probe env vdma child).2.s2mm.buffer = vdma.s2mm.buffer ∧
        (vdma_s2mm_probe env vdma child).2.s2mm.phys_addr = vdma.s2mm.phys_addr ∧
        (vdma_s2mm_probe env vdma child).2.s2mm.dma_malloced = vdma.s2mm.dma_malloced ∧
        ∀ env2 : probe_env,
          vdma_s2mm_probe env2 vdma child = vdma_s2mm_probe env vdma child) ∧
      (∀ bpp width height, child.frame_bpp = some bpp → child.frame_width = some width →
        child.frame_height = some height →
        (match child.frame_stride with
          | none => mul32 width (bpp / 8)
          | some v => v) * height < 2 ^ 32 →
        resource_size mem_res ≠
          (match child.frame_stride with
            | none => mul32 width (bpp / 8)
            | some v => v) * height →
        (vdma_s2mm_probe env vdma child).1 = -EINVAL)) := by
  constructor
  · intro child haddr
    refine ⟨?_, ?_, ?_⟩
    · intro probed hprobe
      obtain ⟨-, -, -, -, -, -, hmem, -⟩ := vdma_mm2s_probe_success env vdma child probed hprobe
      rw [haddr] at hmem
      exact ⟨hmem.1, hmem.2.2.1, hmem.2.2.2, fun hlt => hmem.1.trans (Nat.mod_eq_of_lt hlt)⟩
    · intro bpp width height hbpp hwidth hheight hsize
      have hrej := fun e => vdma_mm2s_probe_size_mismatch e vdma child bpp width height mem_res
        hbpp hwidth hheight haddr hsize
      refine ⟨?_, ?_, ?_, ?_, fun env2 => ?_⟩
      · rw [hrej env]
      · rw [hrej env]
      · rw [hrej env]
      · rw [hrej env]
      · rw [hrej env, hrej env2]
    · intro bpp width height hbpp hwidth hheight hlt hsize
      have hne : resource_size mem_res ≠
          mul32 (match child.frame_stride with
            | none => mul32 width (bpp / 8)
            | some v => v) height := by
        have hm : mul32 (match child.frame_stride with
            | none => mul32 width (bpp / 8)
            | some v => v) height =
            (match child.frame_stride with
              | none => mul32 width (bpp / 8)
              | some v => v) * height := Nat.mod_eq_of_lt hlt
        rw [hm]
        exact hsize
      rw [vdma_mm2s_probe_size_mismatch env vdma child bpp width height mem_res
        hbpp hwidth hheight haddr hne]
  · intro child haddr
    refine ⟨?_, ?_, ?_⟩
    · intro probed hprobe
      obtain ⟨-, -, -, -, -, hmem, -⟩ := vdma_s2mm_probe_success env vdma child probed hprobe
      rw [haddr] at hmem
      exact ⟨hmem.1, hmem.2.2.1, hmem.2.2.2, fun hlt => hmem.1.trans (Nat.mod_eq_of_lt hlt)⟩
    · intro bpp width height hbpp hwidth hheight hsize
      have hrej := fun e => vdma_s2mm_probe_size_mismatch e vdma child bpp width height mem_res
        hbpp hwidth hheight haddr hsize
      refine ⟨?_, ?_, ?_, ?_, fun env2 => ?_⟩
      · rw [hrej env]
      · rw [hrej env]
      · rw [hrej env]
      · rw [hrej env]
      · rw [hrej env, hrej env2]
    · intro bpp width height hbpp hwidth hheight hlt hsize
      have hne : resource_size mem_res ≠
          mul32 (match child.frame_stride with
            | none => mul32 width (bpp / 8)
            | some v => v) height := by
        have hm : mul32 (match child.frame_stride with
            | none => mul32 width (bpp / 8)
            | some v => v) height =
            (match child.frame_stride with
              | none => mul32 width (bpp / 8)
              | some v => v) * height := Nat.mod_eq_of_lt hlt
        rw [hm]
        exact hsize
      rw [vdma_s2mm_probe_size_mismatch env vdma child bpp width height mem_res
        hbpp hwidth hheight haddr hne]

/-- C17, instance: for a 1920 x 1080 frame at 32 bits per pixel a region of
8,294,400 bytes is accepted by `vdma_mm2s_probe` and mapped, and a region of
8,294,401 bytes is rejected by `vdma_s2mm_probe` with `-EINVAL`, the buffer address
staying `NULL`. -/
theorem vdma_probe_memory_addr_size_witness :
    vdma_mm2s_probe probe_env_64 (channel_zero regs_zero)
        (mm2s_node_of 32 1920 1080 none (some { start := 0x40000000, size := 8294400 })) =
        (0, (vdma_mm2s_probe probe_env_64 (channel_zero regs_zero)
          (mm2s_node_of 32 1920 1080 none
            (some { start := 0x40000000, size := 8294400 }))).2) ∧
      (vdma_mm2s_probe probe_env_64 (channel_zero regs_zero)
        (mm2s_node_of 32 1920 1080 none
          (some { start := 0x40000000, size := 8294400 }))).2.mm2s.dma_malloced = false ∧
      (8294401 : Nat) ≠ mul32 (mul32 1920 (32 / 8)) 1080 ∧
      (vdma_s2mm_probe probe_env_64 (channel_zero regs_zero)
        (s2mm_node_of 32 1920 1080 none
          (some { start := 0x40000000, size := 8294401 }))).1 = -EINVAL ∧
      (vdma_s2mm_probe probe_env_64 (channel_zero regs_zero)
        (s2mm_node_of 32 1920 1080 none
          (some { start := 0x40000000, size := 8294401 }))).2.s2mm.buffer = 0 :=
  ⟨Prod.ext (by decide) rfl,
    ((((vdma_probe_memory_addr_size probe_env_64 (channel_zero regs_zero)
      { start := 0x40000000, size := 8294400 }).1
      (mm2s_node_of 32 1920 1080 none (some { start := 0x40000000, size := 8294400 }))
      rfl).1 _ (Prod.ext (by decide) rfl)).2.2.1),
    by decide,
    ((((vdma_probe_memory_addr_size probe_env_64 (channel_zero regs_zero)
      { start := 0x40000000, size := 8294401 }).2
      (s2mm_node_of 32 1920 1080 none (some { start := 0x40000000, size := 8294401 }))
      rfl).2.1 32 1920 1080 rfl rfl rfl (by decide)).1),
    ((((vdma_probe_memory_addr_size probe_env_64 (channel_zero regs_zero)
      { start := 0x40000000, size := 8294401 }).2
      (s2mm_node_of 32 1920 1080 none (some { start := 0x40000000, size := 8294401 }))
      rfl).2.1 32 1920 1080 rfl rfl rfl (by decide)).2.1)⟩

/-! ## C18: the pixel format of a channel -/

/-- C18: `vdma_get_px_format` returns `0` exactly when all four colour channels are
present with the offsets red 0, green 8, blue 16 and alpha 24, and it then stores
`MEDIA_BUS_FMT_ARGB8888_1X32` through `fmt`; in every other case it returns
`-EINVAL` and `*fmt` is what it was before the call. -/
theorem vdma_get_px_format_argb (ch : vdma_channel) (fmt : Nat) :
    ((vdma_get_px_format ch fmt).1 = 0 ↔
      (ch.red_support = true ∧ ch.green_support = true ∧ ch.blue_support = true ∧
        ch.alpha_support = true ∧ ch.red_offset = 0 ∧ ch.green_offset = 8 ∧
        ch.blue_offset = 16 ∧ ch.alpha_offset = 24)) ∧
      ((vdma_get_px_format ch fmt).1 = 0 →
        (vdma_get_px_format ch fmt).2 = MEDIA_BUS_FMT_ARGB8888_1X32) ∧
      ((vdma_get_px_format ch fmt).1 ≠ 0 →
        (vdma_get_px_format ch fmt).1 = -EINVAL ∧ (vdma_get_px_format ch fmt).2 = fmt) := by
  have hne : (-EINVAL : Int) ≠ 0 := by decide
  unfold vdma_get_px_format
  simp only [Id.run, bind, pure]
  by_cases hs : (ch.red_support && ch.green_support && ch.blue_support && ch.alpha_support) = true
  · by_cases ho : ch.red_offset = 0 ∧ ch.green_offset = 8 ∧ ch.blue_offset = 16 ∧
        ch.alpha_offset = 24
    · rw [if_pos hs, if_pos ho]
      simp only [Bool.and_eq_true] at hs
      exact ⟨⟨fun _ => ⟨hs.1.1.1, hs.1.1.2, hs.1.2, hs.2, ho⟩, fun _ => rfl⟩, fun _ => rfl,
        fun h => absurd rfl h⟩
    · rw [if_pos hs, if_neg ho]
      refine ⟨⟨fun h => absurd h hne, fun h => absurd h.2.2.2.2 ho⟩, fun h => absurd h hne,
        fun _ => ⟨rfl, rfl⟩⟩
  · rw [if_neg hs]
    refine ⟨⟨fun h => absurd h hne, fun h => ?_⟩, fun h => absurd h hne, fun _ => ⟨rfl, rfl⟩⟩
    exact absurd (by simp [h.1, h.2.1, h.2.2.1, h.2.2.2.1]) hs

/-- C18, instance: the channel of the `color-format` string "rgba" is recognised, the
channel of "bgra" is not and its call leaves `*fmt = 7` in place. -/
theorem vdma_get_px_format_argb_witness :
    vdma_get_px_format (channel_of_color_format (some 0) (some 1) (some 2) (some 3)) 7 =
        (0, MEDIA_BUS_FMT_ARGB8888_1X32) ∧
      vdma_get_px_format (channel_of_color_format (some 2) (some 1) (some 0) (some 3)) 7 =
        (-EINVAL, 7) :=
  ⟨Prod.ext
    (((vdma_get_px_format_argb
      (channel_of_color_format (some 0) (some 1) (some 2) (some 3)) 7).1).2 (by decide))
    (by decide),
   by decide⟩

/-! ## C19: interrupts of another line -/

/-- C19: when the interrupt number differs from the interrupt line of the instance,
`mm2s_irq_handler`, `s2mm_irq_handler` and the `irq_handler` of the synchronizer
return `IRQ_NONE` and leave the instance exactly as it was: the write log of the
register window, every counter and the pending completion event are unchanged.
This holds whatever the registers contain, so the result does not depend on any
register content. -/
theorem irq_handler_other_line (irq : Int) :
    (∀ (ch : vdma_channel) (regs : Regs), irq ≠ ch.mm2s.irq →
      mm2s_irq_handler irq { ch with regs := regs } =
        (irqreturn_t.IRQ_NONE, { ch with regs := regs }) ∧
      (mm2s_irq_handler irq ch).1 = irqreturn_t.IRQ_NONE ∧
      (mm2s_irq_handler irq ch).2.regs.log = ch.regs.log ∧
      (mm2s_irq_handler irq ch).2.mm2s = ch.mm2s) ∧
    (∀ (ch : vdma_channel) (regs : Regs), irq ≠ ch.s2mm.irq →
      s2mm_irq_handler irq { ch with regs := regs } =
        (irqreturn_t.IRQ_NONE, { ch with regs := regs }) ∧
      (s2mm_irq_handler irq ch).1 = irqreturn_t.IRQ_NONE ∧
      (s2mm_irq_handler irq ch).2.regs.log = ch.regs.log ∧
      (s2mm_irq_handler irq ch).2.s2mm = ch.s2mm) ∧
    (∀ (s : video_sync) (regs : Regs), irq ≠ s.irq →
      irq_handler irq { s with regs := regs } =
        (irqreturn_t.IRQ_NONE, { s with regs := regs }) ∧
      (irq_handler irq s).1 = irqreturn_t.IRQ_NONE ∧
      (irq_handler irq s).2.regs.log = s.regs.log ∧
      (irq_handler irq s).2.vblank_event = s.vblank_event ∧
      (irq_handler irq s).2.drm_calls = s.drm_calls ∧
      (irq_handler irq s).2 = s) := by
  refine ⟨fun ch regs h => ?_, fun ch regs h => ?_, fun s regs h => ?_⟩
  · have h1 : mm2s_irq_handler irq ch = (irqreturn_t.IRQ_NONE, ch) := by
      unfold mm2s_irq_handler
      rw [if_pos h]
    have h2 : mm2s_irq_handler irq { ch with regs := regs } =
        (irqreturn_t.IRQ_NONE, { ch with regs := regs }) := by
      unfold mm2s_irq_handler
      rw [if_pos h]
    rw [h1]
    exact ⟨h2, rfl, rfl, rfl⟩
  · have h1 : s2mm_irq_handler irq ch = (irqreturn_t.IRQ_NONE, ch) := by
      unfold s2mm_irq_handler
      rw [if_pos h]
    have h2 : s2mm_irq_handler irq { ch with regs := regs } =
        (irqreturn_t.IRQ_NONE, { ch with regs := regs }) := by
      unfold s2mm_irq_handler
      rw [if_pos h]
    rw [h1]
    exact ⟨h2, rfl, rfl, rfl⟩
  · have h1 : irq_handler irq s = (irqreturn_t.IRQ_NONE, s) := by
      unfold irq_handler
      rw [if_pos h]
    have h2 : irq_handler irq { s with regs := regs } =
        (irqreturn_t.IRQ_NONE, { s with regs := regs }) := by
      unfold irq_handler
      rw [if_pos h]
    rw [h1]
    exact ⟨h2, rfl, rfl, rfl, rfl, rfl⟩

/-- C19, instance: interrupt 55 on the channel with line 54 whose mm2s status shows
the error bit, and on the synchronizer with line 61 whose status shows FRAME_DONE:
both handlers return `IRQ_NONE`, the error counter and the frame counter stay 0
and nothing is written. -/
theorem irq_handler_other_line_witness :
    (55 : Int) ≠ (channel_with_status 0x4000).mm2s.irq ∧
      (55 : Int) ≠ (sync_with_status false true 0x10).irq ∧
      (mm2s_irq_handler 55 (channel_with_status 0x4000)).1 = irqreturn_t.IRQ_NONE ∧
      (mm2s_irq_handler 55 (channel_with_status 0x4000)).2.mm2s.err = 0 ∧
      (mm2s_irq_handler 55 (channel_with_status 0x4000)).2.regs.log = [] ∧
      (irq_handler 55 (sync_with_status false true 0x10)).1 = irqreturn_t.IRQ_NONE ∧
      (irq_handler 55 (sync_with_status false true 0x10)).2.frames_done = 0 :=
  ⟨by decide, by decide,
    ((irq_handler_other_line 55).1 (channel_with_status 0x4000) regs_zero (by decide)).2.1,
    congrArg (fun m => m.err)
      ((irq_handler_other_line 55).1 (channel_with_status 0x4000) regs_zero (by decide)).2.2.2,
    ((irq_handler_other_line 55).1 (channel_with_status 0x4000) regs_zero (by decide)).2.2.1,
    ((irq_handler_other_line 55).2.2 (sync_with_status false true 0x10) regs_zero
      (by decide)).2.1,
    congrArg (fun s => s.frames_done)
      ((irq_handler_other_line 55).2.2 (sync_with_status false true 0x10) regs_zero
        (by decide)).2.2.2.2.2⟩

/-! ## C20: FRAME_DONE while vblank is disabled -/

/-- One interrupt of the synchronizer: the vblank flag stays, FRAME_DONE advances
`frames_done`, and the pending event is handed over, after the vblank report,
exactly when FRAME_DONE is set and vblank is enabled. -/
theorem video_sync_interrupt_frame_done (status : Nat) (s : video_sync)
    (hlt : status < 2 ^ 32) :
    (video_sync_interrupt status s).vblank_enabled = s.vblank_enabled ∧
    (video_sync_interrupt status s).frames_done =
      (if (status &&& VIDEO_SYNC_STATUS_FRAME_DONE_MASK) != 0 then inc32 s.frames_done
       else s.frames_done) ∧
    (video_sync_interrupt status s).vblank_event =
      (if ((status &&& VIDEO_SYNC_STATUS_FRAME_DONE_MASK) != 0 && s.vblank_enabled) then none
       else s.vblank_event) ∧
    (video_sync_interrupt status s).drm_calls =
      (if ((status &&& VIDEO_SYNC_STATUS_FRAME_DONE_MASK) != 0 && s.vblank_enabled) then
        match s.vblank_event with
        | some e =>
          s.drm_calls ++ [drm_call.drm_crtc_handle_vblank] ++
            [drm_call.drm_crtc_send_vblank_event e, drm_call.drm_crtc_vblank_put]
        | none => s.drm_calls ++ [drm_call.drm_crtc_handle_vblank]
       else s.drm_calls) := by
  unfold video_sync_interrupt
  generalize hs2 : ({ s with regs := { s.regs with
      rd := fun o => if o = VIDEO_SYNC_STATUS_REGISTER then status else s.regs.rd o } } :
      video_sync) = s2
  have hirq : s.irq = s2.irq := by rw [← hs2]
  have hen : s2.vblank_enabled = s.vblank_enabled := by rw [← hs2]
  have hfd : s2.frames_done = s.frames_done := by rw [← hs2]
  have hev : s2.vblank_event = s.vblank_event := by rw [← hs2]
  have hdc : s2.drm_calls = s.drm_calls := by rw [← hs2]
  have hrd : ioread32 s2.regs VIDEO_SYNC_STATUS_REGISTER = status := by
    rw [← hs2]
    show (if VIDEO_SYNC_STATUS_REGISTER = VIDEO_SYNC_STATUS_REGISTER then status
      else s.regs.rd VIDEO_SYNC_STATUS_REGISTER) % 2 ^ 32 = status
    rw [if_pos rfl]
    exact Nat.mod_eq_of_lt hlt
  rw [hirq, irq_handler_eq s2]
  simp only [hrd, hen, hfd, hev, hdc]
  exact ⟨trivial, trivial, trivial, trivial⟩

/-- While vblank is disabled no sequence of interrupts enables it, reports a vblank,
or touches the pending event. -/
theorem video_sync_interrupts_vblank_disabled (statuses : List Nat) :
    ∀ s : video_sync, s.vblank_enabled = false → (∀ st ∈ statuses, st < 2 ^ 32) →
      (video_sync_interrupts statuses s).vblank_enabled = false ∧
      (video_sync_interrupts statuses s).vblank_event = s.vblank_event ∧
      (video_sync_interrupts statuses s).drm_calls = s.drm_calls := by
  induction statuses with
  | nil =>
    intro s hoff _
    exact ⟨hoff, rfl, rfl⟩
  | cons st rest ih =>
    intro s hoff hall
    obtain ⟨h1, -, h3, h4⟩ :=
      video_sync_interrupt_frame_done st s (hall st (List.mem_cons_self _ _))
    rw [hoff] at h1 h3 h4
    simp only [Bool.and_false, Bool.false_eq_true, if_false] at h3 h4
    obtain ⟨r1, r2, r3⟩ := ih (video_sync_interrupt st s) h1
      (fun x hx => hall x (List.mem_cons_of_mem _ hx))
    exact ⟨r1, r2.trans h3, r3.trans h4⟩

/-- C20: with vblank disabled and the completion event `e` pending, an interrupt
with FRAME_DONE advances `frames_done` by one (`u32` increment), makes no call
into the DRM core and leaves `e` pending; the same holds for the event and the
calls over any sequence of interrupts.  The event is handed over by the first
interrupt with FRAME_DONE after `video_sync_crtc_enable_vblank`: the calls added
are the vblank report, `drm_crtc_send_vblank_event e` and the matching
`drm_crtc_vblank_put`, and the slot is empty afterwards.  On any synchronizer an
interrupt that lacks FRAME_DONE, or that arrives while vblank is disabled, makes no
call and leaves the slot as it was. -/
theorem video_sync_interrupt_vblank_disabled (s : video_sync) (e : drm_pending_vblank_event)
    (hoff : s.vblank_enabled = false) (hpending : s.vblank_event = some e) :
    (∀ status, status < 2 ^ 32 → status &&& VIDEO_SYNC_STATUS_FRAME_DONE_MASK ≠ 0 →
      (video_sync_interrupt status s).frames_done = inc32 s.frames_done ∧
      (video_sync_interrupt status s).drm_calls = s.drm_calls ∧
      (video_sync_interrupt status s).vblank_event = some e) ∧
    (∀ statuses : List Nat, (∀ st ∈ statuses, st < 2 ^ 32) →
      (video_sync_interrupts statuses s).drm_calls = s.drm_calls ∧
      (video_sync_interrupts statuses s).vblank_event = some e) ∧
    (∀ (statuses : List Nat) (status : Nat), (∀ st ∈ statuses, st < 2 ^ 32) →
      status < 2 ^ 32 → status &&& VIDEO_SYNC_STATUS_FRAME_DONE_MASK ≠ 0 →
      (video_sync_interrupt status
          (video_sync_crtc_enable_vblank (video_sync_interrupts statuses s)).2).drm_calls =
        s.drm_calls ++ [drm_call.drm_crtc_handle_vblank,
          drm_call.drm_crtc_send_vblank_event e, drm_call.drm_crtc_vblank_put] ∧
      (video_sync_interrupt status
          (video_sync_crtc_enable_vblank (video_sync_interrupts statuses s)).2).vblank_event =
        none) ∧
    (∀ (t : video_sync) (status : Nat), status < 2 ^ 32 →
      ¬ (status &&& VIDEO_SYNC_STATUS_FRAME_DONE_MASK ≠ 0 ∧ t.vblank_enabled = true) →
      (video_sync_interrupt status t).drm_calls = t.drm_calls ∧
      (video_sync_interrupt status t).vblank_event = t.vblank_event) := by
  refine ⟨fun status hlt hfd => ?_, fun statuses hall => ?_,
    fun statuses status hall hlt hfd => ?_, fun t status hlt hnot => ?_⟩
  · obtain ⟨-, h2, h3, h4⟩ := video_sync_interrupt_frame_done status s hlt
    have hb : ((status &&& VIDEO_SYNC_STATUS_FRAME_DONE_MASK) != 0) = true := by simpa using hfd
    rw [hb] at h2
    rw [hoff] at h3 h4
    simp only [Bool.and_false, Bool.false_eq_true, if_false] at h3 h4
    exact ⟨h2, h4, h3.trans hpending⟩
  · obtain ⟨-, r2, r3⟩ := video_sync_interrupts_vblank_disabled statuses s hoff hall
    exact ⟨r3, r2.trans hpending⟩
  · obtain ⟨-, r2, r3⟩ := video_sync_interrupts_vblank_disabled statuses s hoff hall
    obtain ⟨-, -, h3, h4⟩ := video_sync_interrupt_frame_done status
      (video_sync_crtc_enable_vblank (video_sync_interrupts statuses s)).2 hlt
    have hb : ((status &&& VIDEO_SYNC_STATUS_FRAME_DONE_MASK) != 0) = true := by simpa using hfd
    have hen : (video_sync_crtc_enable_vblank (video_sync_interrupts statuses s)).2.vblank_enabled
        = true := rfl
    have hev : (video_sync_crtc_enable_vblank (video_sync_interrupts statuses s)).2.vblank_event
        = some e := r2.trans hpending
    have hdc : (video_sync_crtc_enable_vblank (video_sync_interrupts statuses s)).2.drm_calls
        = s.drm_calls := r3
    rw [hb, hen, hev, hdc] at h4
    rw [hb, hen] at h3
    refine ⟨?_, h3⟩
    rw [h4]
    simp
  · obtain ⟨-, -, h3, h4⟩ := video_sync_interrupt_frame_done status t hlt
    have hc :
        ((status &&& VIDEO_SYNC_STATUS_FRAME_DONE_MASK) != 0 && t.vblank_enabled) = false := by
      cases hv : t.vblank_enabled
      · simp
      · have : ¬ (status &&& VIDEO_SYNC_STATUS_FRAME_DONE_MASK ≠ 0) := fun h => hnot ⟨h, hv⟩
        simpa using this
    rw [hc] at h3 h4
    exact ⟨h4, h3⟩

/-- C20, instance: event 7 pending on the synchronizer with vblank disabled; two
FRAME_DONE interrupts leave it pending without any call, and after
`video_sync_crtc_enable_vblank` the next FRAME_DONE interrupt hands it over. -/
theorem video_sync_interrupt_vblank_disabled_witness :
    (video_sync_interrupts [0x10, 0x10]
        { sync_with_status false false 0 with
          vblank_event := some { id := 7, pipe := 0 } }).drm_calls = [] ∧
      (video_sync_interrupt 0x10
        (video_sync_crtc_enable_vblank
          (video_sync_interrupts [0x10, 0x10]
            { sync_with_status false false 0 with
              vblank_event := some { id := 7, pipe := 0 } })).2).drm_calls =
        [drm_call.drm_crtc_handle_vblank,
          drm_call.drm_crtc_send_vblank_event { id := 7, pipe := 0 },
          drm_call.drm_crtc_vblank_put] :=
  ⟨((video_sync_interrupt_vblank_disabled
      { sync_with_status false false 0 with vblank_event := some { id := 7, pipe := 0 } }
      { id := 7, pipe := 0 } rfl rfl).2.1 [0x10, 0x10] (by decide)).1,
   ((video_sync_interrupt_vblank_disabled
      { sync_with_status false false 0 with vblank_event := some { id := 7, pipe := 0 } }
      { id := 7, pipe := 0 } rfl rfl).2.2.1 [0x10, 0x10] 0x10 (by decide) (by decide)
        (by decide)).1⟩

/-! ## C21: stopping twice -/

/-- Writing the same value to the same register twice leaves the registers reading
what they read after the first write. -/
theorem iowrite32_twice_rd (v off : Nat) (r : Regs) :
    (iowrite32 v off (iowrite32 v off r)).rd = (iowrite32 v off r).rd := by
  funext o
  simp only [iowrite32]
  split <;> rfl

/-- Clearing the run bit of a value whose run bit is clear changes nothing. -/
theorem and_not32_run_mask_twice (c : Nat) :
    c &&& not32 VIDEO_SYNC_CTRL_RUN_MASK &&& not32 VIDEO_SYNC_CTRL_RUN_MASK =
      c &&& not32 VIDEO_SYNC_CTRL_RUN_MASK := by
  rw [Nat.and_assoc, Nat.and_self]

/-- The run-bit clear of `video_sync_remove` on one synchronizer, applied to its own
result, leaves the registers reading the same. -/
theorem video_sync_remove_entry_twice (r : Regs) :
    (iowrite32
        (ioread32
            (iowrite32 (ioread32 r VIDEO_SYNC_CONTROL_REGISTER &&&
              not32 VIDEO_SYNC_CTRL_RUN_MASK) VIDEO_SYNC_CONTROL_REGISTER r)
            VIDEO_SYNC_CONTROL_REGISTER &&& not32 VIDEO_SYNC_CTRL_RUN_MASK)
        VIDEO_SYNC_CONTROL_REGISTER
        (iowrite32 (ioread32 r VIDEO_SYNC_CONTROL_REGISTER &&&
          not32 VIDEO_SYNC_CTRL_RUN_MASK) VIDEO_SYNC_CONTROL_REGISTER r)).rd =
      (iowrite32 (ioread32 r VIDEO_SYNC_CONTROL_REGISTER &&&
        not32 VIDEO_SYNC_CTRL_RUN_MASK) VIDEO_SYNC_CONTROL_REGISTER r).rd := by
  have hlt : ioread32 r VIDEO_SYNC_CONTROL_REGISTER &&& not32 VIDEO_SYNC_CTRL_RUN_MASK <
      2 ^ 32 := lt_of_le_of_lt Nat.and_le_left (ioread32_lt _ _)
  have hread : ioread32
      (iowrite32 (ioread32 r VIDEO_SYNC_CONTROL_REGISTER &&&
        not32 VIDEO_SYNC_CTRL_RUN_MASK) VIDEO_SYNC_CONTROL_REGISTER r)
      VIDEO_SYNC_CONTROL_REGISTER =
      ioread32 r VIDEO_SYNC_CONTROL_REGISTER &&& not32 VIDEO_SYNC_CTRL_RUN_MASK := by
    show u32 (if VIDEO_SYNC_CONTROL_REGISTER = VIDEO_SYNC_CONTROL_REGISTER then
      u32 (ioread32 r VIDEO_SYNC_CONTROL_REGISTER &&& not32 VIDEO_SYNC_CTRL_RUN_MASK)
      else r.rd VIDEO_SYNC_CONTROL_REGISTER) = _
    rw [if_pos rfl, u32_of_lt hlt, u32_of_lt hlt]
  rw [hread, and_not32_run_mask_twice, iowrite32_twice_rd]

/-- C21: for every channel, `vdma_mm2s_stop` and `vdma_s2mm_stop` applied twice leave
every register reading what it reads after one application, and the `mm2s` and
`s2mm` members and the colour members as they are after one application (only the
write log is longer).  For every array of synchronizers, `video_sync_remove`
returns `0`, and applied to its own result it leaves the registers of every
synchronizer, the control register included, reading what they read after one
application; after one application the run bit of each synchronizer of the
device reads clear. -/
theorem vdma_stop_idempotent (ch : vdma_channel) (pdev : Nat)
    (synchronizers : List (Nat × video_sync)) :
    ((vdma_mm2s_stop (vdma_mm2s_stop ch)).regs.rd = (vdma_mm2s_stop ch).regs.rd ∧
      { vdma_mm2s_stop (vdma_mm2s_stop ch) with regs := (vdma_mm2s_stop ch).regs } =
        vdma_mm2s_stop ch) ∧
    ((vdma_s2mm_stop (vdma_s2mm_stop ch)).regs.rd = (vdma_s2mm_stop ch).regs.rd ∧
      { vdma_s2mm_stop (vdma_s2mm_stop ch) with regs := (vdma_s2mm_stop ch).regs } =
        vdma_s2mm_stop ch) ∧
    (video_sync_remove pdev synchronizers).1 = 0 ∧
    (video_sync_remove pdev (video_sync_remove pdev synchronizers).2).1 = 0 ∧
    (video_sync_remove pdev (video_sync_remove pdev synchronizers).2).2.map
        (fun entry => (entry.1, entry.2.regs.rd)) =
      (video_sync_remove pdev synchronizers).2.map
        (fun entry => (entry.1, entry.2.regs.rd)) ∧
    (∀ entry ∈ (video_sync_remove pdev synchronizers).2, entry.1 = pdev →
      ioread32 entry.2.regs VIDEO_SYNC_CONTROL_REGISTER &&& VIDEO_SYNC_CTRL_RUN_MASK = 0) := by
  have hm1 : ∀ c : vdma_channel, c.mm2s.active = true →
      vdma_mm2s_stop c = { c with regs := iowrite32 0 VDMA_MM2S_CONTROL_REGISTER c.regs } :=
    fun c hc => by unfold vdma_mm2s_stop; rw [if_pos hc]
  have hm0 : ∀ c : vdma_channel, ¬ c.mm2s.active = true → vdma_mm2s_stop c = c :=
    fun c hc => by unfold vdma_mm2s_stop; rw [if_neg hc]
  have hs1 : ∀ c : vdma_channel, c.mm2s.active = true →
      vdma_s2mm_stop c = { c with regs := iowrite32 0 VDMA_S2MM_CONTROL_REGISTER c.regs } :=
    fun c hc => by unfold vdma_s2mm_stop; rw [if_pos hc]
  have hs0 : ∀ c : vdma_channel, ¬ c.mm2s.active = true → vdma_s2mm_stop c = c :=
    fun c hc => by unfold vdma_s2mm_stop; rw [if_neg hc]
  refine ⟨?_, ?_, rfl, rfl, ?_, ?_⟩
  · by_cases h : ch.mm2s.active = true
    · rw [hm1 ch h, hm1 { ch with regs := iowrite32 0 VDMA_MM2S_CONTROL_REGISTER ch.regs } h]
      exact ⟨iowrite32_twice_rd _ _ _, rfl⟩
    · rw [hm0 ch h, hm0 ch h]
      exact ⟨rfl, rfl⟩
  · by_cases h : ch.mm2s.active = true
    · rw [hs1 ch h, hs1 { ch with regs := iowrite32 0 VDMA_S2MM_CONTROL_REGISTER ch.regs } h]
      exact ⟨iowrite32_twice_rd _ _ _, rfl⟩
    · rw [hs0 ch h, hs0 ch h]
      exact ⟨rfl, rfl⟩
  · unfold video_sync_remove
    simp only [List.map_map]
    apply List.map_congr_left
    intro entry _
    simp only [Function.comp]
    by_cases h : entry.1 = pdev
    · simp only [h, if_true, video_sync_remove_entry_twice]
    · simp only [h, if_false]
  · intro entry hmem hpdev
    unfold video_sync_remove at hmem
    simp only [List.mem_map] at hmem
    obtain ⟨e0, -, he⟩ := hmem
    by_cases h : e0.1 = pdev
    · rw [if_pos h] at he
      subst he
      have hlt : ioread32 e0.2.regs VIDEO_SYNC_CONTROL_REGISTER &&&
          not32 VIDEO_SYNC_CTRL_RUN_MASK < 2 ^ 32 :=
        lt_of_le_of_lt Nat.and_le_left (ioread32_lt _ _)
      show u32 (if VIDEO_SYNC_CONTROL_REGISTER = VIDEO_SYNC_CONTROL_REGISTER then
        u32 (ioread32 e0.2.regs VIDEO_SYNC_CONTROL_REGISTER &&&
          not32 VIDEO_SYNC_CTRL_RUN_MASK)
        else e0.2.regs.rd VIDEO_SYNC_CONTROL_REGISTER) &&& VIDEO_SYNC_CTRL_RUN_MASK = 0
      rw [if_pos rfl, u32_of_lt hlt, u32_of_lt hlt, Nat.and_assoc]
      have : not32 VIDEO_SYNC_CTRL_RUN_MASK &&& VIDEO_SYNC_CTRL_RUN_MASK = 0 := by decide
      rw [this, Nat.and_zero]
    · rw [if_neg h] at he
      subst he
      exact absurd hpdev h

/-- C21, instance: the running synchronizer of device 1, whose control register
reads `0x19`: after `video_sync_remove` it reads `0x18`, run bit clear, and after a
second `video_sync_remove` the registers read the same. -/
theorem vdma_stop_idempotent_witness :
    ioread32 sync_running.regs VIDEO_SYNC_CONTROL_REGISTER = 0x19 ∧
      (video_sync_remove 1 [(1, sync_running)]).2.map
          (fun entry => ioread32 entry.2.regs VIDEO_SYNC_CONTROL_REGISTER) = [0x18] ∧
      ioread32
          (iowrite32 (ioread32 sync_running.regs VIDEO_SYNC_CONTROL_REGISTER &&&
            not32 VIDEO_SYNC_CTRL_RUN_MASK) VIDEO_SYNC_CONTROL_REGISTER sync_running.regs)
          VIDEO_SYNC_CONTROL_REGISTER &&& VIDEO_SYNC_CTRL_RUN_MASK = 0 ∧
      (video_sync_remove 1 (video_sync_remove 1 [(1, sync_running)]).2).2.map
          (fun entry => (entry.1, entry.2.regs.rd)) =
        (video_sync_remove 1 [(1, sync_running)]).2.map
          (fun entry => (entry.1, entry.2.regs.rd)) :=
  ⟨by decide, by decide,
    (vdma_stop_idempotent (channel_of_geometry 1920 1080 32) 1 [(1, sync_running)]).2.2.2.2.2
      (1, { sync_running with
        regs := iowrite32 (ioread32 sync_running.regs VIDEO_SYNC_CONTROL_REGISTER &&&
          not32 VIDEO_SYNC_CTRL_RUN_MASK) VIDEO_SYNC_CONTROL_REGISTER sync_running.regs })
      (List.mem_cons_self _ _) rfl,
    (vdma_stop_idempotent (channel_of_geometry 1920 1080 32) 1 [(1, sync_running)]).2.2.2.2.1⟩

/-! ## C23: `vdma_mmap` -/

/-- C29: on an active direction the first register that `vdma_mm2s_start` and
`vdma_s2mm_start` write is the control register, with a control word whose run bit
is set, and the last one is VSIZE.  In between `vdma_mm2s_start` writes HSIZE, the
stride and start address 0 (and start address 1 when interlaced), and
`vdma_s2mm_start` writes the start address, the stride and HSIZE. -/
theorem vdma_start_write_order (ch : vdma_channel) :
    (ch.mm2s.active = true →
      ∃ (ctrl vsize : Nat) (middle : List (Nat × Nat)),
        writes_since ch.regs (vdma_mm2s_start ch).regs =
          (VDMA_MM2S_CONTROL_REGISTER, ctrl) :: middle ++ [(VDMA_MM2S_VSIZE_REGISTER, vsize)] ∧
        ctrl &&& VDMA_MM2S_CONTROL_RS_BITMASK ≠ 0 ∧
        middle.map Prod.fst =
          (if ch.mm2s.interlaced then
            [VDMA_MM2S_HSIZE_REGISTER, VDMA_MM2S_FRMDLY_STRIDE_REGISTER,
              VDMA_MM2S_START_ADDRESS_REGISTER 0, VDMA_MM2S_START_ADDRESS_REGISTER 1]
          else
            [VDMA_MM2S_HSIZE_REGISTER, VDMA_MM2S_FRMDLY_STRIDE_REGISTER,
              VDMA_MM2S_START_ADDRESS_REGISTER 0])) ∧
    (ch.s2mm.active = true →
      ∃ (ctrl vsize : Nat) (middle : List (Nat × Nat)),
        writes_since ch.regs (vdma_s2mm_start ch).regs =
          (VDMA_S2MM_CONTROL_REGISTER, ctrl) :: middle ++ [(VDMA_S2MM_VSIZE_REGISTER, vsize)] ∧
        ctrl &&& VDMA_S2MM_CONTROL_RS_BITMASK ≠ 0 ∧
        middle.map Prod.fst =
          [VDMA_S2MM_START_ADDRESS_REGISTER, VDMA_S2MM_FRMDLY_STRIDE_REGISTER,
            VDMA_S2MM_HSIZE_REGISTER]) := by
  constructor
  · intro hactive
    unfold writes_since
    rw [vdma_mm2s_start_log ch hactive, List.drop_left]
    have hrun : ∀ a b c : Bool,
        u32 ((((0 ||| (if a then
                VDMA_MM2S_ERR_IRQ_EN_BITMASK ||| VDMA_MM2S_FRAME_CNT_IRQ_EN_BITMASK else 0)) |||
              (if b then VDMA_MM2S_CIRCULAR_PARK_BITMASK else 0)) |||
            (if c then VDMA_MM2S_CONTROL_GENLOCK_BITMASK else 0)) |||
          VDMA_MM2S_CONTROL_RS_BITMASK) &&& VDMA_MM2S_CONTROL_RS_BITMASK ≠ 0 := by
      intro a b c
      cases a <;> cases b <;> cases c <;> decide
    cases hil : ch.mm2s.interlaced
    · exact ⟨_, _, [_, _, _], rfl, hrun _ _ _, rfl⟩
    · exact ⟨_, _, [_, _, _, _], rfl, hrun _ _ _, rfl⟩
  · intro hactive
    unfold writes_since
    rw [vdma_s2mm_start_log ch hactive, List.drop_left]
    have hrun : ∀ a c : Bool,
        u32 (((0 ||| (if a then
                VDMA_S2MM_ERR_IRQ_EN_BITMASK ||| VDMA_S2MM_FRAME_CNT_EN_BITMASK else 0)) |||
            (if c then VDMA_S2MM_CONTROL_GENLOCK_BITMASK else 0)) |||
          VDMA_S2MM_CONTROL_RS_BITMASK) &&& VDMA_S2MM_CONTROL_RS_BITMASK ≠ 0 := by
      intro a c
      cases a <;> cases c <;> decide
    exact ⟨_, _, [_, _, _], rfl, hrun _ _, rfl⟩

/-- C29, instance: the interlaced 720 x 576 channel: the control word `0x3` comes
first and VSIZE 288 last, after HSIZE, the stride and the two start addresses. -/
theorem vdma_start_write_order_witness :
    channel_interlaced.mm2s.active = true ∧
      writes_since channel_interlaced.regs (vdma_mm2s_start channel_interlaced).regs =
        (VDMA_MM2S_CONTROL_REGISTER, 3) ::
          [(VDMA_MM2S_HSIZE_REGISTER, 2880), (VDMA_MM2S_FRMDLY_STRIDE_REGISTER, 5760),
            (VDMA_MM2S_START_ADDRESS_REGISTER 0, 0x30000000),
            (VDMA_MM2S_START_ADDRESS_REGISTER 1, 0x30000B40)] ++
          [(VDMA_MM2S_VSIZE_REGISTER, 288)] ∧
      ∃ (ctrl vsize : Nat) (middle : List (Nat × Nat)),
        writes_since channel_interlaced.regs (vdma_mm2s_start channel_interlaced).regs =
          (VDMA_MM2S_CONTROL_REGISTER, ctrl) :: middle ++ [(VDMA_MM2S_VSIZE_REGISTER, vsize)] ∧
        ctrl &&& VDMA_MM2S_CONTROL_RS_BITMASK ≠ 0 :=
  ⟨rfl, by decide,
    ((vdma_start_write_order channel_interlaced).1 rfl).elim fun ctrl h =>
      h.elim fun vsize h => h.elim fun middle h => ⟨ctrl, vsize, middle, h.1, h.2.1⟩⟩

/-! ## C24: field counters and buffer toggle of an interlaced synchronizer -/

/-- C24 (with `vdma_toggle_interlaced_buffer` as the spec describes it): on the
interrupt line of an interlaced synchronizer, when the status has SYNC_TX (bit 7)
set, `irq_handler` advances `even_frames_done` by one and leaves `odd_frames_done`
when SYNC_FIELD (bit 8) is clear, advances `odd_frames_done` by one and leaves
`even_frames_done` when it is set (`u32` increments), and calls
`vdma_toggle_interlaced_buffer` with that parity on the overlay channel and on the
video channel, which makes an interlaced channel report the buffer address of that
parity.  When SYNC_TX is clear or the synchronizer is not interlaced, both
counters and both channels stay as they were.  FRAME_DONE plays no part. -/
theorem irq_handler_sync_tx_toggle (s : video_sync) :
    (irq_handler s.irq s).1 = irqreturn_t.IRQ_HANDLED ∧
    (s.interlaced = true →
      ioread32 s.regs VIDEO_SYNC_STATUS_REGISTER &&& VIDEO_SYNC_STATUS_SYNC_TX_MASK ≠ 0 →
      ioread32 s.regs VIDEO_SYNC_STATUS_REGISTER &&& VIDEO_SYNC_STATUS_SYNC_FIELD_MASK = 0 →
        (irq_handler s.irq s).2.even_frames_done = inc32 s.even_frames_done ∧
        (irq_handler s.irq s).2.odd_frames_done = s.odd_frames_done ∧
        (irq_handler s.irq s).2.overlay_plane.vdma =
          vdma_toggle_interlaced_buffer s.overlay_plane.vdma true ∧
        (irq_handler s.irq s).2.video_vdma =
          vdma_toggle_interlaced_buffer s.video_vdma true) ∧
    (s.interlaced = true →
      ioread32 s.regs VIDEO_SYNC_STATUS_REGISTER &&& VIDEO_SYNC_STATUS_SYNC_TX_MASK ≠ 0 →
      ioread32 s.regs VIDEO_SYNC_STATUS_REGISTER &&& VIDEO_SYNC_STATUS_SYNC_FIELD_MASK ≠ 0 →
        (irq_handler s.irq s).2.odd_frames_done = inc32 s.odd_frames_done ∧
        (irq_handler s.irq s).2.even_frames_done = s.even_frames_done ∧
        (irq_handler s.irq s).2.overlay_plane.vdma =
          vdma_toggle_interlaced_buffer s.overlay_plane.vdma false ∧
        (irq_handler s.irq s).2.video_vdma =
          vdma_toggle_interlaced_buffer s.video_vdma false) ∧
    (s.interlaced = false ∨
      ioread32 s.regs VIDEO_SYNC_STATUS_REGISTER &&& VIDEO_SYNC_STATUS_SYNC_TX_MASK = 0 →
        (irq_handler s.irq s).2.even_frames_done = s.even_frames_done ∧
        (irq_handler s.irq s).2.odd_frames_done = s.odd_frames_done ∧
        (irq_handler s.irq s).2.overlay_plane = s.overlay_plane ∧
        (irq_handler s.irq s).2.video_vdma = s.video_vdma) ∧
    (∀ (ch : vdma_channel) (even : Bool), ch.mm2s.interlaced = true →
      (vdma_mm2s_get_fb_addr (vdma_toggle_interlaced_buffer ch even)).2.1 =
        (if even then ch.mm2s.phys_addr_even else ch.mm2s.phys_addr_odd)) := by
  rw [irq_handler_eq]
  refine ⟨rfl, fun hil htx hf => ?_, fun hil htx hf => ?_, fun hno => ?_, fun ch even hil => ?_⟩
  · have htx2 : ((ioread32 s.regs VIDEO_SYNC_STATUS_REGISTER &&&
        VIDEO_SYNC_STATUS_SYNC_TX_MASK) != 0) = true := by simpa using htx
    simp [hil, htx2, hf]
  · have htx2 : ((ioread32 s.regs VIDEO_SYNC_STATUS_REGISTER &&&
        VIDEO_SYNC_STATUS_SYNC_TX_MASK) != 0) = true := by simpa using htx
    have hf2 : ((ioread32 s.regs VIDEO_SYNC_STATUS_REGISTER &&&
        VIDEO_SYNC_STATUS_SYNC_FIELD_MASK) == 0) = false := by simpa using hf
    simp [hil, htx2, hf2]
  · rcases hno with hil | htx
    · simp [hil]
    · simp [htx]
  · simp [vdma_toggle_interlaced_buffer, vdma_mm2s_get_fb_addr, hil]

/-- C24, instance: the interlaced synchronizer with status `0x190` (FRAME_DONE,
SYNC_TX and SYNC_FIELD): the odd counter advances to 1, the even counter stays 0 and
the overlay channel reports the odd address. -/
theorem irq_handler_sync_tx_toggle_witness :
    (sync_with_status true true 0x190).interlaced = true ∧
      ioread32 (sync_with_status true true 0x190).regs VIDEO_SYNC_STATUS_REGISTER &&&
        VIDEO_SYNC_STATUS_SYNC_TX_MASK ≠ 0 ∧
      ioread32 (sync_with_status true true 0x190).regs VIDEO_SYNC_STATUS_REGISTER &&&
        VIDEO_SYNC_STATUS_SYNC_FIELD_MASK ≠ 0 ∧
      (irq_handler (sync_with_status true true 0x190).irq
        (sync_with_status true true 0x190)).2.odd_frames_done = 1 ∧
      (irq_handler (sync_with_status true true 0x190).irq
        (sync_with_status true true 0x190)).2.even_frames_done = 0 ∧
      (vdma_mm2s_get_fb_addr (irq_handler (sync_with_status true true 0x190).irq
        (sync_with_status true true 0x190)).2.overlay_plane.vdma).2.1 = 0x30000B40 :=
  ⟨rfl, by decide, by decide,
    ((irq_handler_sync_tx_toggle (sync_with_status true true 0x190)).2.2.1 rfl (by decide)
      (by decide)).1,
    ((irq_handler_sync_tx_toggle (sync_with_status true true 0x190)).2.2.1 rfl (by decide)
      (by decide)).2.1,
    (congrArg (fun ch => (vdma_mm2s_get_fb_addr ch).2.1)
      ((irq_handler_sync_tx_toggle (sync_with_status true true 0x190)).2.2.1 rfl (by decide)
        (by decide)).2.2.1).trans
      ((irq_handler_sync_tx_toggle (sync_with_status true true 0x190)).2.2.2.2
        channel_interlaced false rfl)⟩

/-! ## C27: the settle delay of `video_sync_crtc_atomic_enable` -/

/-- C27, evaluation at the failing input: the mode with clock 20000 kHz (the clock
`panel_get_modes` sets) and a total size of 8000 x 4000 has non-zero clock, htotal
and vtotal, so the guard lets it pass; `vrefresh = 20000000 / 32000000` is `0` and
the settle delay `3 * 1000 / vrefresh` divides by zero.  A mode of 2200 x 1125 at
148500 kHz gives `vrefresh = 60` and a delay of 50 ms. -/
theorem video_sync_crtc_atomic_enable_divides_by_zero :
    ((20000 : Int) ≠ 0 ∧ (8000 : Int) ≠ 0 ∧ (4000 : Int) ≠ 0) ∧
      (video_sync_crtc_atomic_enable (sync_with_status false true 0)
        { clock := 20000, htotal := 8000, vtotal := 4000 }).2 =
        atomic_enable_effect.division_by_zero ∧
      (video_sync_crtc_atomic_enable (sync_with_status false true 0)
        { clock := 148500, htotal := 2200, vtotal := 1125 }).2 =
        atomic_enable_effect.msleep 50 := by
  refine ⟨by decide, ?_, ?_⟩ <;> decide

/-! ## C25: bytes copied by `vdma_mm2s_set_data` and size of the mm2s buffer -/

/-- C25, evaluation at the failing input: the node with `frame-width` 1920,
`frame-bpp` 32, `frame-height` 1080 and the explicit `frame-stride` 100 is accepted;
the buffer that is allocated has `100 * 1080 = 108000` bytes, and
`vdma_mm2s_set_data` accepts a frame of `1920 * 1080 * 4 = 8294400` bytes and
copies it: the byte 108000 bytes after the start of the buffer, outside the buffer,
is overwritten.  On the same channel `vdma_mmap` bounds the mapping by
`stride * height`: it maps 108000 bytes and refuses 8294400. -/
theorem vdma_mm2s_set_data_overruns_buffer :
    (vdma_mm2s_probe probe_env_64 (channel_zero regs_zero)
        (mm2s_node_of 32 1920 1080 (some 100) none)).1 = 0 ∧
      mul32
        (vdma_mm2s_probe probe_env_64 (channel_zero regs_zero)
          (mm2s_node_of 32 1920 1080 (some 100) none)).2.mm2s.frame_stride
        (vdma_mm2s_probe probe_env_64 (channel_zero regs_zero)
          (mm2s_node_of 32 1920 1080 (some 100) none)).2.mm2s.frame_height = 108000 ∧
      (vdma_mm2s_set_data
        (vdma_mm2s_probe probe_env_64 (channel_zero regs_zero)
          (mm2s_node_of 32 1920 1080 (some 100) none)).2 0x200000 8294400 mem_pattern).1 = 0 ∧
      ¬ (8294400 ≤ 108000) ∧
      (vdma_mm2s_set_data
        (vdma_mm2s_probe probe_env_64 (channel_zero regs_zero)
          (mm2s_node_of 32 1920 1080 (some 100) none)).2 0x200000 8294400 mem_pattern).2
          (0xFFFF800010000000 + 108000) = mem_pattern (0x200000 + 108000) ∧
      mem_pattern (0x200000 + 108000) ≠ mem_pattern (0xFFFF800010000000 + 108000) ∧
      vdma_mmap (fun _ => 0)
        (vdma_mm2s_probe probe_env_64 (channel_zero regs_zero)
          (mm2s_node_of 32 1920 1080 (some 100) none)).2 0x70000000 (0x70000000 + 108000) =
        (0, some (mmap_request.dma_mmap_coherent 0xFFFF800010000000 0x30000000 108000)) ∧
      vdma_mmap (fun _ => 0)
        (vdma_mm2s_probe probe_env_64 (channel_zero regs_zero)
          (mm2s_node_of 32 1920 1080 (some 100) none)).2 0x70000000 (0x70000000 + 8294400) =
        (-EINVAL, none) := by
  refine ⟨?_, ?_, ?_, ?_, ?_, ?_, ?_, ?_⟩ <;> decide

/-- The two sizes: for a configuration that `vdma_mm2s_probe` accepts, the mm2s
buffer has `stride * height` bytes (the size of the `memory-addr` region, or the size
passed to `dmam_alloc_coherent`) and a successful `vdma_mm2s_set_data` copies
`width * height * (bpp / 8)` bytes, both `u32` products.  When `frame-stride` is
absent the two are equal.  When `frame-stride` is given, the number of bytes copied
does not exceed the size of the buffer provided the stride is at least
`width * (bpp / 8)` and `stride * height` fits 32 bits. -/
theorem vdma_mm2s_set_data_within_buffer (env : probe_env) (vdma : vdma_channel)
    (child : mm2s_node) (probed : vdma_channel)
    (hprobe : vdma_mm2s_probe env vdma child = (0, probed)) :
    (match child.memory_addr with
      | some (some mem_res) =>
        resource_size mem_res = mul32 probed.mm2s.frame_stride probed.mm2s.frame_height
      | some none => False
      | none =>
        probed.mm2s.buffer =
          (env.dmam_alloc_coherent
            (mul32 probed.mm2s.frame_stride probed.mm2s.frame_height)).1) ∧
    (∀ (buffer size : Nat) (mem : Nat → Nat),
      (vdma_mm2s_set_data probed buffer size mem).1 = 0 →
        size = mul32 (mul32 probed.mm2s.frame_width probed.mm2s.frame_height)
          (probed.mm2s.frame_bpp / 8)) ∧
    (child.frame_stride = none →
      mul32 (mul32 probed.mm2s.frame_width probed.mm2s.frame_height)
          (probed.mm2s.frame_bpp / 8) =
        mul32 probed.mm2s.frame_stride probed.mm2s.frame_height) ∧
    (∀ v, child.frame_stride = some v →
      probed.mm2s.frame_width * (probed.mm2s.frame_bpp / 8) ≤ v →
      v * probed.mm2s.frame_height < 2 ^ 32 →
        mul32 (mul32 probed.mm2s.frame_width probed.mm2s.frame_height)
            (probed.mm2s.frame_bpp / 8) ≤
          mul32 probed.mm2s.frame_stride probed.mm2s.frame_height) := by
  obtain ⟨-, -, hstride, -, -, -, hmem, -⟩ :=
    vdma_mm2s_probe_success env vdma child probed hprobe
  refine ⟨?_, ?_, ?_, ?_⟩
  · revert hmem
    cases child.memory_addr with
    | none => exact fun h => h.1
    | some r =>
      cases r with
      | none => exact fun h => h
      | some mem_res => exact fun h => h.1
  · intro buffer size mem hrc
    unfold vdma_mm2s_set_data at hrc
    by_cases hsz : mul32 (mul32 probed.mm2s.frame_width probed.mm2s.frame_height)
        (probed.mm2s.frame_bpp / 8) ≠ size
    · simp only [hsz, ne_eq, not_false_eq_true, if_true] at hrc
      exact absurd hrc (by decide)
    · exact (not_not.mp hsz).symm
  · intro hnone
    rw [hnone] at hstride
    rw [hstride]
    unfold mul32
    rw [Nat.mod_mul_mod, Nat.mod_mul_mod]
    congr 1
    ring
  · intro v hv hle hlt
    rw [hv] at hstride
    rw [hstride]
    have h1 : mul32 v probed.mm2s.frame_height = v * probed.mm2s.frame_height :=
      Nat.mod_eq_of_lt hlt
    have h2 : probed.mm2s.frame_width * probed.mm2s.frame_height *
        (probed.mm2s.frame_bpp / 8) ≤ v * probed.mm2s.frame_height := by
      calc probed.mm2s.frame_width * probed.mm2s.frame_height * (probed.mm2s.frame_bpp / 8)
          = probed.mm2s.frame_width * (probed.mm2s.frame_bpp / 8) *
              probed.mm2s.frame_height := by ring
        _ ≤ v * probed.mm2s.frame_height := Nat.mul_le_mul_right _ hle
    rw [h1]
    unfold mul32
    rw [Nat.mod_mul_mod, Nat.mod_eq_of_lt (lt_of_le_of_lt h2 hlt)]
    exact h2

/-- Instance of the two sizes: 1920 x 1080 at 32 bits per pixel without
`frame-stride`: the frame copied and the buffer both have 8,294,400 bytes. -/
theorem vdma_mm2s_set_data_within_buffer_witness :
    vdma_mm2s_probe probe_env_64 (channel_zero regs_zero)
        (mm2s_node_of 32 1920 1080 none none) =
        (0, (vdma_mm2s_probe probe_env_64 (channel_zero regs_zero)
          (mm2s_node_of 32 1920 1080 none none)).2) ∧
      mul32 (mul32 1920 1080) (32 / 8) = 8294400 ∧
      mul32
        (vdma_mm2s_probe probe_env_64 (channel_zero regs_zero)
          (mm2s_node_of 32 1920 1080 none none)).2.mm2s.frame_stride
        (vdma_mm2s_probe probe_env_64 (channel_zero regs_zero)
          (mm2s_node_of 32 1920 1080 none none)).2.mm2s.frame_height = 8294400 :=
  ⟨Prod.ext (by decide) rfl, by decide,
    ((vdma_mm2s_set_data_within_buffer probe_env_64 (channel_zero regs_zero)
      (mm2s_node_of 32 1920 1080 none none) _ (Prod.ext (by decide) rfl)).2.2.1 rfl).symm.trans
      (by decide)⟩

/-! ## C26: physical size of the picture when `frame-ppi` is absent -/

/-- `panel_get_modes` faults on a division by zero exactly when a mode was created,
the pixel format of the channel is recognised and the channel reports 0 pixels per
inch. -/
theorem panel_get_modes_eq_none (mode_created : Bool) (vdma : vdma_channel) :
    panel_get_modes mode_created vdma = none ↔
      (mode_created = true ∧ (vdma_get_px_format vdma 0).1 = 0 ∧
        vdma_mm2s_get_px_per_inch vdma = 0) := by
  unfold panel_get_modes
  cases mode_created
  · simp [Id.run]
  · by_cases hrc : (vdma_get_px_format vdma 0).1 = 0 <;>
      by_cases hppi : vdma_mm2s_get_px_per_inch vdma = 0 <;>
      simp [Id.run, hrc, hppi]

/-- C26, evaluation at the failing input: the 1920 x 1080 node at 32 bits per pixel
without `frame-ppi` is accepted by `vdma_mm2s_probe` and the channel reports 0 pixels
per inch.  The case `FBIOGET_VSCREENINFO` of `vdma_ioctl` tests for it and reports a
size of 0 x 0 mm, but `panel_get_modes` and `vdma_consolidator_probe` compute
`width * 25 / ppi` unguarded and divide by zero. -/
theorem panel_get_modes_divides_by_zero :
    (vdma_mm2s_probe probe_env_64
        (channel_of_color_format (some 0) (some 1) (some 2) (some 3))
        (mm2s_node_of 32 1920 1080 none none)).1 = 0 ∧
      vdma_mm2s_get_px_per_inch channel_probed_without_ppi = 0 ∧
      (vdma_ioctl_FBIOGET_VSCREENINFO channel_probed_without_ppi).1 = 0 ∧
      (vdma_ioctl_FBIOGET_VSCREENINFO channel_probed_without_ppi).2.xres = 1920 ∧
      (vdma_ioctl_FBIOGET_VSCREENINFO channel_probed_without_ppi).2.width = 0 ∧
      (vdma_ioctl_FBIOGET_VSCREENINFO channel_probed_without_ppi).2.height = 0 ∧
      panel_get_modes true channel_probed_without_ppi = none ∧
      vdma_consolidator_probe consolidator_env_64 [channel_probed_without_ppi] = none := by
  refine ⟨?_, ?_, ?_, ?_, ?_, ?_, ?_, ?_⟩ <;> decide

/-! ## C30: what a successful `vdma_consolidator_probe` has checked -/

/-- One pass of the loop of `vdma_consolidator_probe` for a channel after the first
that lets the probe succeed: the pixel format is recognised, bpp, stride and format
are those of the consolidator, the bus address is the address of the consolidator
plus `stride * height` so far, the channel reports a non-zero ppi, and the loop goes
on with the height of the channel added. -/
theorem vdma_consolidator_probe_loop_next (env : consolidator_env) (vdma : vdma_channel)
    (rest : List vdma_channel) (consolidator result : vdma_consolidator)
    (h : vdma_consolidator_probe_loop env (vdma :: rest) false consolidator = some (0, result)) :
    (vdma_get_px_format vdma 0).1 = 0 ∧
      vdma_mm2s_get_bit_per_px vdma = consolidator.bpp ∧
      vdma_mm2s_get_stride vdma = consolidator.stride ∧
      (vdma_get_px_format vdma 0).2 = consolidator.fmt ∧
      vdma.mm2s.phys_addr % 2 ^ env.kernel.dma_addr_bits =
        (consolidator.paddr + mul32 consolidator.stride consolidator.height) %
          2 ^ env.kernel.dma_addr_bits ∧
      vdma_mm2s_get_px_per_inch vdma ≠ 0 ∧
      vdma_consolidator_probe_loop env rest false
        { consolidator with
          height := u32 (consolidator.height + vdma_mm2s_get_px_height vdma),
          height_mm := u32 (consolidator.height_mm +
            mul32 (vdma_mm2s_get_px_height vdma) 25 / vdma_mm2s_get_px_per_inch vdma) } =
        some (0, result) := by
  have hE : ¬ EINVAL = 0 := by decide
  rw [vdma_consolidator_probe_loop] at h
  simp only [Id.run, bind, pure, vdma_mm2s_get_fb_addr] at h
  by_cases h1 : (vdma_get_px_format vdma 0).1 = 0
  · by_cases h2 : vdma_mm2s_get_bit_per_px vdma = consolidator.bpp
    · by_cases h3 : vdma_mm2s_get_stride vdma = consolidator.stride
      · by_cases h4 : (vdma_get_px_format vdma 0).2 = consolidator.fmt
        · by_cases h5 : vdma.mm2s.phys_addr % 2 ^ env.kernel.dma_addr_bits =
              (consolidator.paddr + mul32 consolidator.stride consolidator.height) %
                2 ^ env.kernel.dma_addr_bits
          · by_cases h6 : vdma_mm2s_get_px_per_inch vdma = 0
            · simp [h1, h2, h3, h4, h5, h6] at h
            · simp [h1, h2, h3, h4, h5, h6] at h
              exact ⟨h1, h2, h3, h4, h5, h6, h⟩
          · simp [h1, h2, h3, h4, h5] at h
            exact absurd h.1 hE
        · simp [h1, h2, h3, h4] at h
          exact absurd h.1 hE
      · simp [h1, h2, h3] at h
        exact absurd h.1 hE
    · simp [h1, h2] at h
      exact absurd h.1 hE
  · simp [h1] at h
    exact absurd h.1 hE

/-- The first pass of the loop of `vdma_consolidator_probe` that lets the probe
succeed: the pixel format is recognised, the channel reports a non-zero ppi, and the
loop goes on with the geometry, format and bus address of this channel. -/
theorem vdma_consolidator_probe_loop_first (env : consolidator_env) (vdma : vdma_channel)
    (rest : List vdma_channel) (consolidator result : vdma_consolidator)
    (h : vdma_consolidator_probe_loop env (vdma :: rest) true consolidator = some (0, result)) :
    (vdma_get_px_format vdma 0).1 = 0 ∧
      vdma_mm2s_get_px_per_inch vdma ≠ 0 ∧
      vdma_consolidator_probe_loop env rest false
        { consolidator with
          width := vdma_mm2s_get_px_width vdma, height := vdma_mm2s_get_px_height vdma,
          bpp := vdma_mm2s_get_bit_per_px vdma, stride := vdma_mm2s_get_stride vdma,
          fmt := (vdma_get_px_format vdma 0).2,
          width_mm := mul32 (vdma_mm2s_get_px_width vdma) 25 / vdma_mm2s_get_px_per_inch vdma,
          height_mm :=
            mul32 (vdma_mm2s_get_px_height vdma) 25 / vdma_mm2s_get_px_per_inch vdma,
          paddr := vdma.mm2s.phys_addr } =
        some (0, result) := by
  have hE : ¬ EINVAL = 0 := by decide
  rw [vdma_consolidator_probe_loop] at h
  simp only [Id.run, bind, pure, vdma_mm2s_get_fb_addr] at h
  by_cases h1 : (vdma_get_px_format vdma 0).1 = 0
  · by_cases h6 : vdma_mm2s_get_px_per_inch vdma = 0
    · simp [h1, h6] at h
    · simp [h1, h6] at h
      exact ⟨h1, h6, h⟩
  · simp [h1] at h
    exact absurd h.1 hE

/-- Adding a height to a `u32` height and then more is adding all of it, modulo
`2 ^ 32`. -/
theorem u32_add_add_mod (a b t : Nat) :
    (u32 (a + b) + t) % 2 ^ 32 = (a + (b + t)) % 2 ^ 32 := by
  unfold u32
  omega

/-- The `u32` product with a height taken as `u32` is the `u32` product with the
height. -/
theorem mul_u32_add_mod (s a b t : Nat) :
    (s * (u32 (a + b) + t)) % 2 ^ 32 = (s * (a + (b + t))) % 2 ^ 32 := by
  have h : u32 (a + b) + t ≡ a + (b + t) [MOD 2 ^ 32] := u32_add_add_mod a b t
  exact Nat.ModEq.mul_left s h

/-- The passes of the loop of `vdma_consolidator_probe` after the first: when the
probe succeeds, bpp, stride, format, bus address and width of the consolidator stay,
its height grows by the heights of the channels (modulo `2 ^ 32`), and each channel
has the bpp, stride and format of the consolidator, a non-zero ppi, and the bus
address of the consolidator plus `stride` times the height accumulated before
it. -/
theorem vdma_consolidator_probe_loop_invariant (env : consolidator_env)
    (rest : List vdma_channel) :
    ∀ consolidator result : vdma_consolidator,
      vdma_consolidator_probe_loop env rest false consolidator = some (0, result) →
      result.bpp = consolidator.bpp ∧ result.stride = consolidator.stride ∧
      result.fmt = consolidator.fmt ∧ result.paddr = consolidator.paddr ∧
      result.width = consolidator.width ∧
      result.height % 2 ^ 32 =
        (consolidator.height + (rest.map vdma_mm2s_get_px_height).sum) % 2 ^ 32 ∧
      ∀ (pre : List vdma_channel) (vdma : vdma_channel) (post : List vdma_channel),
        rest = pre ++ vdma :: post →
          vdma_get_px_format vdma 0 = (0, consolidator.fmt) ∧
          vdma_mm2s_get_bit_per_px vdma = consolidator.bpp ∧
          vdma_mm2s_get_stride vdma = consolidator.stride ∧
          vdma_mm2s_get_px_per_inch vdma ≠ 0 ∧
          vdma.mm2s.phys_addr % 2 ^ env.kernel.dma_addr_bits =
            (consolidator.paddr +
              (consolidator.stride *
                (consolidator.height + (pre.map vdma_mm2s_get_px_height).sum)) % 2 ^ 32) %
              2 ^ env.kernel.dma_addr_bits := by
  induction rest with
  | nil =>
    intro consolidator result h
    rw [vdma_consolidator_probe_loop] at h
    have hres : consolidator = result := congrArg Prod.snd (Option.some.inj h)
    subst hres
    refine ⟨rfl, rfl, rfl, rfl, rfl, by simp, ?_⟩
    intro pre vdma post hsplit
    exact absurd hsplit (by simp)
  | cons x xs ih =>
    intro consolidator result h
    obtain ⟨h1, h2, h3, h4, h5, h6, hrest⟩ :=
      vdma_consolidator_probe_loop_next env x xs consolidator result h
    obtain ⟨r1, r2, r3, r4, r5, r6, r7⟩ := ih _ result hrest
    refine ⟨r1, r2, r3, r4, r5, ?_, ?_⟩
    · rw [r6]
      simp only [List.map_cons, List.sum_cons]
      exact u32_add_add_mod _ _ _
    · intro pre vdma post hsplit
      cases pre with
      | nil =>
        simp only [List.nil_append, List.cons.injEq] at hsplit
        obtain ⟨hx, -⟩ := hsplit
        subst hx
        refine ⟨Prod.ext h1 h4, h2, h3, h6, ?_⟩
        simp only [List.map_nil, List.sum_nil, Nat.add_zero]
        exact h5
      | cons p pre2 =>
        simp only [List.cons_append, List.cons.injEq] at hsplit
        obtain ⟨hp, hxs⟩ := hsplit
        subst hp
        obtain ⟨q1, q2, q3, q4, q5⟩ := r7 pre2 vdma post hxs
        refine ⟨q1, q2, q3, q4, ?_⟩
        rw [q5]
        simp only [List.map_cons, List.sum_cons]
        rw [mul_u32_add_mod]

/-- A successful `vdma_consolidator_probe` has left its loop by `break`. -/
theorem vdma_consolidator_probe_success (env : consolidator_env) (channels : List vdma_channel)
    (consolidator : vdma_consolidator)
    (h : vdma_consolidator_probe env channels = some (0, consolidator)) :
    vdma_consolidator_probe_loop env channels true vdma_consolidator_zero =
      some (0, consolidator) := by
  unfold vdma_consolidator_probe at h
  simp only [Id.run, bind, pure] at h
  by_cases hp : env.consolidators_probed ≥ MAX_VDMA_CONSOLIDATORS
  · simp [hp, ERANGE] at h
  · by_cases he : IS_ERR env.kernel env.kzalloc = true
    · simp [hp, he] at h
      exact absurd h.1 (PTR_ERR_ne_zero _ _)
    · by_cases hz : env.kzalloc = 0
      · have he0 : ¬ IS_ERR env.kernel 0 = true := hz ▸ he
        simp [hp, he0, hz, ENOMEM] at h
      · cases hl : vdma_consolidator_probe_loop env channels true vdma_consolidator_zero with
        | none => simp [hp, he, hz, hl] at h
        | some r =>
          obtain ⟨rc, c⟩ := r
          by_cases hrc : rc = 0
          · by_cases hi : env.init_cdevice = 0
            · simp [hp, he, hz, hl, hrc, hi] at h
              rw [hrc, h]
            · simp [hp, he, hz, hl, hrc, hi] at h
          · simp [hp, he, hz, hl, hrc] at h

/-- Consecutive buffers of `s * height` bytes each, starting at `P`, cover exactly the
addresses from `P` up to `P` plus `s` times the sum of the heights. -/
theorem vdma_buffers_tile (s : Nat) (channels : List vdma_channel) :
    ∀ P a : Nat,
      (P ≤ a ∧ a < P + s * (channels.map vdma_mm2s_get_px_height).sum) ↔
        ∃ (pre : List vdma_channel) (vdma : vdma_channel) (post : List vdma_channel),
          channels = pre ++ vdma :: post ∧
          P + s * (pre.map vdma_mm2s_get_px_height).sum ≤ a ∧
          a < P + s * (pre.map vdma_mm2s_get_px_height).sum +
            s * vdma_mm2s_get_px_height vdma := by
  induction channels with
  | nil =>
    intro P a
    constructor
    · intro h
      simp only [List.map_nil, List.sum_nil, Nat.mul_zero, Nat.add_zero] at h
      omega
    · rintro ⟨pre, vdma, post, hsplit, -, -⟩
      exact absurd hsplit (by simp)
  | cons x xs ih =>
    intro P a
    simp only [List.map_cons, List.sum_cons, Nat.mul_add]
    constructor
    · intro h
      by_cases hlt : a < P + s * vdma_mm2s_get_px_height x
      · exact ⟨[], x, xs, rfl, by simp; omega, by simp; omega⟩
      · obtain ⟨pre, vdma, post, hsplit, h1, h2⟩ :=
          (ih (P + s * vdma_mm2s_get_px_height x) a).mp ⟨by omega, by omega⟩
        refine ⟨x :: pre, vdma, post, by rw [hsplit]; rfl, ?_, ?_⟩
        · simp only [List.map_cons, List.sum_cons, Nat.mul_add]
          omega
        · simp only [List.map_cons, List.sum_cons, Nat.mul_add]
          omega
    · rintro ⟨pre, vdma, post, hsplit, h1, h2⟩
      cases pre with
      | nil =>
        simp only [List.nil_append, List.cons.injEq] at hsplit
        obtain ⟨hx, -⟩ := hsplit
        subst hx
        simp only [List.map_nil, List.sum_nil, Nat.mul_zero, Nat.add_zero] at h1 h2
        omega
      | cons p pre2 =>
        simp only [List.cons_append, List.cons.injEq] at hsplit
        obtain ⟨hp, hxs⟩ := hsplit
        subst hp
        simp only [List.map_cons, List.sum_cons, Nat.mul_add] at h1 h2
        have := (ih (P + s * vdma_mm2s_get_px_height x) a).mpr ⟨pre2, vdma, post, hxs,
          by omega, by omega⟩
        omega

/-- C30, amended: when `vdma_consolidator_probe` succeeds over the channels `channels`,
the consolidator has the bpp, stride, format and bus address of the first channel; every
channel has the bpp, the stride and the pixel format of the first; the consolidated
height is the sum of the heights of the channels; and the bus address of each
channel is the address of the first plus `stride` times the sum of the heights of
the channels before it.  Sums and products are those of the C code: the height and
the product modulo `2 ^ 32`, the address in `dma_addr_t` arithmetic.
`vdma_consolidator_mmap` maps `stride * height` bytes from the address of the first
channel.  When nothing wraps, that region consists of exactly the addresses of the
buffers of the channels, `stride * height` bytes each, one after the other. -/
theorem vdma_consolidator_probe_contiguous (env : consolidator_env)
    (channels : List vdma_channel) (consolidator : vdma_consolidator)
    (hprobe : vdma_consolidator_probe env channels = some (0, consolidator)) :
    (∀ first rest, channels = first :: rest →
      consolidator.bpp = vdma_mm2s_get_bit_per_px first ∧
      consolidator.stride = vdma_mm2s_get_stride first ∧
      consolidator.fmt = (vdma_get_px_format first 0).2 ∧
      consolidator.paddr = (vdma_mm2s_get_fb_addr first).2.1 ∧
      ∀ vdma ∈ channels,
        vdma_mm2s_get_bit_per_px vdma = vdma_mm2s_get_bit_per_px first ∧
        vdma_mm2s_get_stride vdma = vdma_mm2s_get_stride first ∧
        vdma_get_px_format vdma 0 = vdma_get_px_format first 0 ∧
        (vdma_get_px_format vdma 0).1 = 0) ∧
    consolidator.height % 2 ^ 32 = (channels.map vdma_mm2s_get_px_height).sum % 2 ^ 32 ∧
    (∀ first rest pre vdma post, channels = first :: rest → channels = pre ++ vdma :: post →
      (vdma_mm2s_get_fb_addr vdma).2.1 % 2 ^ env.kernel.dma_addr_bits =
        ((vdma_mm2s_get_fb_addr first).2.1 +
          (vdma_mm2s_get_stride first * (pre.map vdma_mm2s_get_px_height).sum) % 2 ^ 32) %
          2 ^ env.kernel.dma_addr_bits) ∧
    (∀ (kernel_rc : mmap_request → Int) (vm_start vm_end : Nat),
      sub32 vm_end vm_start = mul32 consolidator.stride consolidator.height →
        vdma_consolidator_mmap kernel_rc consolidator vm_start vm_end =
          (kernel_rc (mmap_request.vm_iomap_memory consolidator.paddr
              (mul32 consolidator.stride consolidator.height)),
            some (mmap_request.vm_iomap_memory consolidator.paddr
              (mul32 consolidator.stride consolidator.height)))) ∧
    (∀ first rest, channels = first :: rest →
      (∀ vdma ∈ channels, (vdma_mm2s_get_fb_addr vdma).2.1 < 2 ^ env.kernel.dma_addr_bits) →
      vdma_mm2s_get_stride first * (channels.map vdma_mm2s_get_px_height).sum < 2 ^ 32 →
      (vdma_mm2s_get_fb_addr first).2.1 +
          vdma_mm2s_get_stride first * (channels.map vdma_mm2s_get_px_height).sum <
        2 ^ env.kernel.dma_addr_bits →
      mul32 consolidator.stride consolidator.height =
          vdma_mm2s_get_stride first * (channels.map vdma_mm2s_get_px_height).sum ∧
        (∀ pre vdma post, channels = pre ++ vdma :: post →
          (vdma_mm2s_get_fb_addr vdma).2.1 =
            (vdma_mm2s_get_fb_addr first).2.1 +
              vdma_mm2s_get_stride first * (pre.map vdma_mm2s_get_px_height).sum) ∧
        ∀ a : Nat,
          (consolidator.paddr ≤ a ∧
              a < consolidator.paddr + mul32 consolidator.stride consolidator.height) ↔
            ∃ vdma ∈ channels,
              (vdma_mm2s_get_fb_addr vdma).2.1 ≤ a ∧
              a < (vdma_mm2s_get_fb_addr vdma).2.1 +
                vdma_mm2s_get_stride vdma * vdma_mm2s_get_px_height vdma) := by
  have hloop := vdma_consolidator_probe_success env channels consolidator hprobe
  have hmmap : ∀ (kernel_rc : mmap_request → Int) (vm_start vm_end : Nat),
      sub32 vm_end vm_start = mul32 consolidator.stride consolidator.height →
        vdma_consolidator_mmap kernel_rc consolidator vm_start vm_end =
          (kernel_rc (mmap_request.vm_iomap_memory consolidator.paddr
              (mul32 consolidator.stride consolidator.height)),
            some (mmap_request.vm_iomap_memory consolidator.paddr
              (mul32 consolidator.stride consolidator.height))) := by
    intro kernel_rc vm_start vm_end heq
    unfold vdma_consolidator_mmap
    simp [Id.run, heq]
  cases channels with
  | nil =>
    rw [vdma_consolidator_probe_loop] at hloop
    have hres : vdma_consolidator_zero = consolidator := congrArg Prod.snd (Option.some.inj hloop)
    subst hres
    refine ⟨fun first rest h => absurd h (by simp), rfl,
      fun first rest pre vdma post h => absurd h (by simp), hmmap,
      fun first rest h => absurd h (by simp)⟩
  | cons ch0 tail =>
    obtain ⟨f1, f2, hrest⟩ :=
      vdma_consolidator_probe_loop_first env ch0 tail vdma_consolidator_zero consolidator hloop
    obtain ⟨r1, r2, r3, r4, -, r6, r7⟩ :=
      vdma_consolidator_probe_loop_invariant env tail _ consolidator hrest
    have r1b : consolidator.bpp = vdma_mm2s_get_bit_per_px ch0 := r1
    have r2b : consolidator.stride = vdma_mm2s_get_stride ch0 := r2
    have r3b : consolidator.fmt = (vdma_get_px_format ch0 0).2 := r3
    have r4b : consolidator.paddr = ch0.mm2s.phys_addr := r4
    have r6b : consolidator.height % 2 ^ 32 =
        (vdma_mm2s_get_px_height ch0 + (tail.map vdma_mm2s_get_px_height).sum) % 2 ^ 32 := r6
    have hall : ∀ pre vdma post, ch0 :: tail = pre ++ vdma :: post →
        vdma_get_px_format vdma 0 = (0, (vdma_get_px_format ch0 0).2) ∧
        vdma_mm2s_get_bit_per_px vdma = vdma_mm2s_get_bit_per_px ch0 ∧
        vdma_mm2s_get_stride vdma = vdma_mm2s_get_stride ch0 ∧
        vdma.mm2s.phys_addr % 2 ^ env.kernel.dma_addr_bits =
          (ch0.mm2s.phys_addr +
            (vdma_mm2s_get_stride ch0 * (pre.map vdma_mm2s_get_px_height).sum) % 2 ^ 32) %
            2 ^ env.kernel.dma_addr_bits := by
      intro pre vdma post hsplit
      cases pre with
      | nil =>
        simp only [List.nil_append, List.cons.injEq] at hsplit
        obtain ⟨hx, -⟩ := hsplit
        subst hx
        refine ⟨Prod.ext f1 rfl, rfl, rfl, ?_⟩
        simp
      | cons p pre2 =>
        simp only [List.cons_append, List.cons.injEq] at hsplit
        obtain ⟨hp, hxs⟩ := hsplit
        subst hp
        obtain ⟨q1, q2, q3, -, q5⟩ := r7 pre2 vdma post hxs
        refine ⟨q1, q2, q3, ?_⟩
        simp only [List.map_cons, List.sum_cons]
        exact q5
    have hfmt0 : vdma_get_px_format ch0 0 = (0, (vdma_get_px_format ch0 0).2) :=
      Prod.ext f1 rfl
    refine ⟨?_, ?_, ?_, hmmap, ?_⟩
    · intro first rest hfr
      obtain ⟨hf, -⟩ := List.cons.inj hfr
      subst hf
      refine ⟨r1b, r2b, r3b, r4b, ?_⟩
      intro vdma hmem
      obtain ⟨pre, post, hsplit⟩ := List.append_of_mem hmem
      obtain ⟨a1, a2, a3, -⟩ := hall pre vdma post hsplit
      exact ⟨a2, a3, a1.trans hfmt0.symm, congrArg Prod.fst a1⟩
    · simp only [List.map_cons, List.sum_cons]
      exact r6b
    · intro first rest pre vdma post hfr hsplit
      obtain ⟨hf, -⟩ := List.cons.inj hfr
      subst hf
      exact (hall pre vdma post hsplit).2.2.2
    · intro first rest hfr hbound hprod hend
      obtain ⟨hf, -⟩ := List.cons.inj hfr
      subst hf
      have hsize : mul32 consolidator.stride consolidator.height =
          vdma_mm2s_get_stride ch0 *
            ((ch0 :: tail).map vdma_mm2s_get_px_height).sum := by
        unfold mul32
        rw [r2b, Nat.mul_mod, r6b, ← Nat.mul_mod]
        simp only [List.map_cons, List.sum_cons] at hprod ⊢
        exact Nat.mod_eq_of_lt hprod
      have haddr : ∀ pre vdma post, ch0 :: tail = pre ++ vdma :: post →
          vdma.mm2s.phys_addr =
            ch0.mm2s.phys_addr +
              vdma_mm2s_get_stride ch0 * (pre.map vdma_mm2s_get_px_height).sum := by
        intro pre vdma post hsplit
        have hmod := (hall pre vdma post hsplit).2.2.2
        have hvlt : vdma.mm2s.phys_addr < 2 ^ env.kernel.dma_addr_bits :=
          hbound vdma (by rw [hsplit]; simp)
        have hsum : (pre.map vdma_mm2s_get_px_height).sum ≤
            ((ch0 :: tail).map vdma_mm2s_get_px_height).sum := by
          rw [hsplit]
          simp only [List.map_append, List.map_cons, List.sum_append, List.sum_cons]
          omega
        have hend2 : ch0.mm2s.phys_addr +
            vdma_mm2s_get_stride ch0 * ((ch0 :: tail).map vdma_mm2s_get_px_height).sum <
          2 ^ env.kernel.dma_addr_bits := hend
        have hmul : vdma_mm2s_get_stride ch0 * (pre.map vdma_mm2s_get_px_height).sum ≤
            vdma_mm2s_get_stride ch0 * ((ch0 :: tail).map vdma_mm2s_get_px_height).sum :=
          Nat.mul_le_mul_left _ hsum
        rw [Nat.mod_eq_of_lt hvlt, Nat.mod_eq_of_lt (lt_of_le_of_lt hmul hprod),
          Nat.mod_eq_of_lt (by omega)] at hmod
        exact hmod
      refine ⟨hsize, haddr, ?_⟩
      intro a
      rw [hsize, r4b, vdma_buffers_tile (vdma_mm2s_get_stride ch0) (ch0 :: tail)
        ch0.mm2s.phys_addr a]
      constructor
      · rintro ⟨pre, vdma, post, hsplit, h1, h2⟩
        refine ⟨vdma, by rw [hsplit]; simp, ?_, ?_⟩
        · show vdma.mm2s.phys_addr ≤ a
          rw [haddr pre vdma post hsplit]
          exact h1
        · show a < vdma.mm2s.phys_addr + _
          rw [haddr pre vdma post hsplit, (hall pre vdma post hsplit).2.2.1]
          exact h2
      · rintro ⟨vdma, hmem, h1, h2⟩
        obtain ⟨pre, post, hsplit⟩ := List.append_of_mem hmem
        refine ⟨pre, vdma, post, hsplit, ?_, ?_⟩
        · rw [← haddr pre vdma post hsplit]
          exact h1
        · rw [← haddr pre vdma post hsplit, ← (hall pre vdma post hsplit).2.2.1]
          exact h2

/-- C30, witness: three strips of 1920 x 360 pixels that lie one after the other from
bus address `0x30000000` consolidate to 1920 x 1080 pixels, and the 8294400 bytes that
`vdma_consolidator_mmap` maps are those of the three buffers. -/
theorem vdma_consolidator_probe_contiguous_witness :
    vdma_consolidator_probe consolidator_env_64
        [channel_strip 0, channel_strip 1, channel_strip 2] =
      some (0, consolidator_of_strips) ∧
    consolidator_of_strips.height = 360 + 360 + 360 ∧
    (vdma_mm2s_get_fb_addr (channel_strip 2)).2.1 = 0x30000000 + 7680 * (360 + 360) ∧
    vdma_consolidator_mmap (fun _ => 0) consolidator_of_strips 0x70000000 0x707E9000 =
      (0, some (mmap_request.vm_iomap_memory 0x30000000 8294400)) ∧
    ((0x30000000 ≤ 0x30500000 ∧ 0x30500000 < 0x30000000 + 8294400) ↔
      ∃ vdma ∈ [channel_strip 0, channel_strip 1, channel_strip 2],
        (vdma_mm2s_get_fb_addr vdma).2.1 ≤ 0x30500000 ∧
        0x30500000 < (vdma_mm2s_get_fb_addr vdma).2.1 +
          vdma_mm2s_get_stride vdma * vdma_mm2s_get_px_height vdma) :=
  have h := vdma_consolidator_probe_contiguous consolidator_env_64
    [channel_strip 0, channel_strip 1, channel_strip 2] consolidator_of_strips (by decide)
  have h5 := h.2.2.2.2 (channel_strip 0) [channel_strip 1, channel_strip 2] rfl
    (by decide) (by decide) (by decide)
  ⟨by decide, h.2.1.trans (by decide),
    (h5.2.1 [channel_strip 0, channel_strip 1] (channel_strip 2) [] rfl).trans (by decide),
    (h.2.2.2.1 (fun _ => 0) 0x70000000 0x707E9000 (by decide)).trans (by decide),
    h5.2.2 0x30500000⟩

/-- C30, counterexample: two channels of 16384 x 32768 pixels at 32 bits per pixel,
whose buffers of `0x80000000` bytes lie one after the other from bus address
`0x100000000`, are accepted by `vdma_mm2s_probe` and by `vdma_consolidator_probe`.
The consolidator has stride 65536 and height 65536, the product of which is 0 in
`u32`: `vdma_consolidator_mmap` accepts a mapping of `0x100000000` bytes and asks
`vm_iomap_memory` for 0 bytes, and the buffer of the second channel, at
`0x180000000`, is not in the region of `stride * height` bytes.  With a 32-bit
`dma_addr_t`, two channels of 1024 x 1024 pixels at the bus addresses `0xFFC00000`
and 0 are accepted as well, the sum `0xFFC00000 + 0x400000` being 0 in 32 bits:
the buffer of the second channel is not in the region of `0x800000` bytes from
`0xFFC00000`. -/
theorem vdma_consolidator_probe_counterexample_wrap :
    (vdma_mm2s_probe probe_env_64
        (channel_of_color_format (some 0) (some 1) (some 2) (some 3))
        (mm2s_node_tall 0)).1 = 0 ∧
      (vdma_mm2s_probe probe_env_64
        (channel_of_color_format (some 0) (some 1) (some 2) (some 3))
        (mm2s_node_tall 1)).1 = 0 ∧
      vdma_consolidator_probe consolidator_env_64 [channel_tall 0, channel_tall 1] =
        some (0, { width := 16384, width_mm := 4096, height := 65536, height_mm := 16384,
                   bpp := 32, stride := 65536, fmt := (vdma_get_px_format (channel_tall 0) 0).2,
                   paddr := 0x100000000 }) ∧
      mul32 65536 65536 = 0 ∧
      vdma_consolidator_mmap (fun _ => 0)
          { width := 16384, width_mm := 4096, height := 65536, height_mm := 16384,
            bpp := 32, stride := 65536, fmt := (vdma_get_px_format (channel_tall 0) 0).2,
            paddr := 0x100000000 } 0x70000000 0x170000000 =
        (0, some (mmap_request.vm_iomap_memory 0x100000000 0)) ∧
      (vdma_mm2s_get_fb_addr (channel_tall 1)).2.1 = 0x180000000 ∧
      mul32 (vdma_mm2s_get_stride (channel_tall 1))
        (vdma_mm2s_get_px_height (channel_tall 1)) = 0x80000000 ∧
      ¬ (0x100000000 ≤ 0x180000000 ∧ 0x180000000 < 0x100000000 + mul32 65536 65536) ∧
      vdma_consolidator_probe consolidator_env_32
          [channel_square 0xFFC00000, channel_square 0] =
        some (0, { width := 1024, width_mm := 256, height := 2048, height_mm := 512,
                   bpp := 32, stride := 4096,
                   fmt := (vdma_get_px_format (channel_square 0) 0).2,
                   paddr := 0xFFC00000 }) ∧
      mul32 4096 2048 = 0x800000 ∧
      (vdma_mm2s_get_fb_addr (channel_square 0)).2.1 = 0 ∧
      ¬ (0xFFC00000 ≤ 0 ∧ 0 < 0xFFC00000 + mul32 4096 2048) := by
  refine ⟨?_, ?_, ?_, ?_, ?_, ?_, ?_, ?_, ?_, ?_, ?_, ?_⟩ <;> decide

/-! ## C22: `VIDEO_SYNC_CMD_SET_INFO` followed by `VIDEO_SYNC_CMD_GET_INFO` -/

theorem testBit_of_lt_4096 (w : Nat) (hw : w < 4096) (i : Nat) (hi : 12 ≤ i) :
    w.testBit i = false := by
  apply Nat.testBit_lt_two_pow
  calc w < 2 ^ 12 := hw
    _ ≤ 2 ^ i := Nat.pow_le_pow_right (by decide) hi

theorem testBit_4095 (i : Nat) : Nat.testBit 4095 i = decide (i < 12) := by
  have h : (4095 : Nat) = 2 ^ 12 - 1 := by decide
  rw [h, Nat.testBit_two_pow_sub_one]

theorem pack12_low (w h : Nat) (hw : w < 4096) :
    ((u32 (h <<< 16) &&& (0xFFF <<< 16)) ||| (w &&& (0xFFF <<< 0))) &&& (0xFFF <<< 0) = w := by
  apply Nat.eq_of_testBit_eq
  intro i
  simp only [Nat.shiftLeft_zero, Nat.testBit_and, Nat.testBit_or, Nat.testBit_shiftLeft, u32,
    Nat.testBit_mod_two_pow, testBit_4095]
  by_cases hi : i < 12
  · have : ¬ 16 ≤ i := by omega
    simp [hi, this]
  · simp [hi, testBit_of_lt_4096 w hw i (by omega)]

theorem pack12_high (w h : Nat) (hh : h < 4096) :
    (((u32 (h <<< 16) &&& (0xFFF <<< 16)) ||| (w &&& (0xFFF <<< 0))) &&& (0xFFF <<< 16)) >>> 16
      = h := by
  apply Nat.eq_of_testBit_eq
  intro i
  simp only [Nat.shiftLeft_zero, Nat.testBit_and, Nat.testBit_or, Nat.testBit_shiftLeft, u32,
    Nat.testBit_mod_two_pow, testBit_4095, Nat.testBit_shiftRight]
  by_cases hi : i < 12
  · have h1 : 16 + i < 32 := by omega
    have h2 : ¬ 16 + i < 12 := by omega
    simp [hi, h1, h2]
  · simp [hi, testBit_of_lt_4096 h hh i (by omega)]

theorem pack12_value (w h : Nat) (hw : w < 4096) (hh : h < 4096) :
    (u32 (h <<< 16) &&& (0xFFF <<< 16)) ||| (w &&& (0xFFF <<< 0)) = w + 65536 * h := by
  have h1 : u32 (h <<< 16) &&& (0xFFF <<< 16) = h <<< 16 := by
    apply Nat.eq_of_testBit_eq
    intro i
    simp only [Nat.testBit_and, Nat.testBit_shiftLeft, u32, Nat.testBit_mod_two_pow,
      testBit_4095]
    by_cases hi : 16 ≤ i
    · by_cases hj : i - 16 < 12
      · have h3 : i < 32 := by omega
        simp [hi, hj, h3]
      · simp [hi, hj, testBit_of_lt_4096 h hh (i - 16) (by omega)]
    · simp [hi]
  have h2 : w &&& (0xFFF <<< 0) = w := by
    apply Nat.eq_of_testBit_eq
    intro i
    simp only [Nat.shiftLeft_zero, Nat.testBit_and, testBit_4095]
    by_cases hi : i < 12
    · simp [hi]
    · simp [hi, testBit_of_lt_4096 w hw i (by omega)]
  rw [h1, h2, Nat.shiftLeft_eq, Nat.mul_comm h (2 ^ 16),
    ← Nat.mul_add_lt_is_or (by omega : w < 2 ^ 16) h]
  omega

theorem video_sync_ioctl_SET_INFO_rd (synchronizer : video_sync) (info : video_sync_info) :
    ioread32 (video_sync_ioctl_SET_INFO synchronizer info) VIDEO_SYNC_CONTROL_REGISTER =
        u32 (if info.running then video_sync_set_info_control info ||| VIDEO_SYNC_CTRL_RUN_MASK
             else video_sync_set_info_control info) ∧
      ioread32 (video_sync_ioctl_SET_INFO synchronizer info) VIDEO_SYNC_IRQ_ENABLE_REGISTER =
        u32 (video_sync_set_info_irq_enable info) ∧
      ioread32 (video_sync_ioctl_SET_INFO synchronizer info) VIDEO_SYNC_DELAY_LINES_REGISTER =
        u32 ((u32 (info.delay_pl <<< 16) &&& VIDEO_SYNC_DELAY_PL_MASK) |||
          (info.delay_ext_sync &&& VIDEO_SYNC_DELAY_EXT_SYNC_MASK)) ∧
      ioread32 (video_sync_ioctl_SET_INFO synchronizer info) VIDEO_SYNC_ACTIVE_SIZE_REGISTER =
        u32 ((u32 (info.active_height <<< 16) &&& VIDEO_SYNC_ACTIVE_SIZE_HEIGHT_MASK) |||
          (info.active_width &&& VIDEO_SYNC_ACTIVE_SIZE_WIDTH_MASK)) ∧
      ioread32 (video_sync_ioctl_SET_INFO synchronizer info) VIDEO_SYNC_TOTAL_SIZE_REGISTER =
        u32 ((u32 (info.total_height <<< 16) &&& VIDEO_SYNC_TOTAL_SIZE_HEIGHT_MASK) |||
          (info.total_width &&& VIDEO_SYNC_TOTAL_SIZE_WIDTH_MASK)) := by
  have h1 : VIDEO_SYNC_IRQ_ENABLE_REGISTER ≠ VIDEO_SYNC_CONTROL_REGISTER := by decide
  have h2 : VIDEO_SYNC_DELAY_LINES_REGISTER ≠ VIDEO_SYNC_CONTROL_REGISTER := by decide
  have h3 : VIDEO_SYNC_ACTIVE_SIZE_REGISTER ≠ VIDEO_SYNC_CONTROL_REGISTER := by decide
  have h4 : VIDEO_SYNC_TOTAL_SIZE_REGISTER ≠ VIDEO_SYNC_CONTROL_REGISTER := by decide
  have h5 : VIDEO_SYNC_IRQ_ENABLE_REGISTER ≠ VIDEO_SYNC_DELAY_LINES_REGISTER := by decide
  have h6 : VIDEO_SYNC_IRQ_ENABLE_REGISTER ≠ VIDEO_SYNC_ACTIVE_SIZE_REGISTER := by decide
  have h7 : VIDEO_SYNC_IRQ_ENABLE_REGISTER ≠ VIDEO_SYNC_TOTAL_SIZE_REGISTER := by decide
  have h8 : VIDEO_SYNC_DELAY_LINES_REGISTER ≠ VIDEO_SYNC_ACTIVE_SIZE_REGISTER := by decide
  have h9 : VIDEO_SYNC_DELAY_LINES_REGISTER ≠ VIDEO_SYNC_TOTAL_SIZE_REGISTER := by decide
  have h10 : VIDEO_SYNC_ACTIVE_SIZE_REGISTER ≠ VIDEO_SYNC_TOTAL_SIZE_REGISTER := by decide
  have hu : ∀ x, u32 (u32 x) = u32 x := fun x => Nat.mod_mod _ _
  unfold video_sync_ioctl_SET_INFO
  cases hr : info.running <;>
    simp [Id.run, ioread32, iowrite32, h1, h2, h3, h4, h5, h6, h7, h8, h9, h10, hu,
      h1.symm, h2.symm, h3.symm, h4.symm, h5.symm, h6.symm, h7.symm, h8.symm, h9.symm, h10.symm]

theorem video_sync_set_info_control_bits (info : video_sync_info) :
    u32 (if info.running then video_sync_set_info_control info ||| VIDEO_SYNC_CTRL_RUN_MASK
         else video_sync_set_info_control info) =
      (if info.running then 1 else 0) + (if info.ext_sync then 2 else 0) +
      (if info.ilace then 4 else 0) + (if info.irqen then 8 else 0) +
      (if info.videoen then 16 else 0) + (if info.dyn_blend then 32 else 0) +
      (if info.slave_vdma then 64 else 0) := by
  unfold video_sync_set_info_control
  cases info.running <;> cases info.ext_sync <;> cases info.ilace <;> cases info.irqen <;>
    cases info.videoen <;> cases info.dyn_blend <;> cases info.slave_vdma <;> rfl

theorem video_sync_set_info_irq_enable_bits (info : video_sync_info) :
    u32 (video_sync_set_info_irq_enable info) =
      (if info.pl_err_irq_enabled then 1 else 0) + (if info.sof_err_irq_enabled then 2 else 0) +
      (if info.urun_err_irq_enabled then 4 else 0) +
      (if info.sync_to_err_irq_enabled then 8 else 0) +
      (if info.frame_done_irq_enabled then 16 else 0) +
      (if info.err_short_irq_enabled then 32 else 0) +
      (if info.err_long_irq_enabled then 64 else 0) +
      (if info.frame_sync_irq_enabled then 128 else 0) := by
  unfold video_sync_set_info_irq_enable
  cases info.pl_err_irq_enabled <;> cases info.sof_err_irq_enabled <;>
    cases info.urun_err_irq_enabled <;> cases info.sync_to_err_irq_enabled <;>
    cases info.frame_done_irq_enabled <;> cases info.err_short_irq_enabled <;>
    cases info.err_long_irq_enabled <;> cases info.frame_sync_irq_enabled <;> rfl

theorem flags7_decode (b0 b1 b2 b3 b4 b5 b6 : Bool) :
    let reg := (if b0 then 1 else 0) + (if b1 then 2 else 0) + (if b2 then 4 else 0) +
      (if b3 then 8 else 0) + (if b4 then 16 else 0) + (if b5 then 32 else 0) +
      (if b6 then 64 else 0)
    ((reg &&& VIDEO_SYNC_CTRL_RUN_MASK) != 0) = b0 ∧
      ((reg &&& VIDEO_SYNC_CTRL_EXT_SYNC_MASK) != 0) = b1 ∧
      ((reg &&& VIDEO_SYNC_CTRL_ILACE_MASK) != 0) = b2 ∧
      ((reg &&& VIDEO_SYNC_CTRL_IRQEN_MASK) != 0) = b3 ∧
      ((reg &&& VIDEO_SYNC_CTRL_VIDEO_EN_MASK) != 0) = b4 ∧
      ((reg &&& VIDEO_SYNC_CTRL_DYN_BLEND_MASK) != 0) = b5 ∧
      ((reg &&& VIDEO_SYNC_CTRL_SLAVE_VDMA_MASK) != 0) = b6 ∧
      reg.testBit 0 = b0 ∧ reg.testBit 2 = b2 ∧ reg.testBit 3 = b3 := by
  cases b0 <;> cases b1 <;> cases b2 <;> cases b3 <;> cases b4 <;> cases b5 <;> cases b6 <;>
    decide

theorem flags8_decode (b0 b1 b2 b3 b4 b5 b6 b7 : Bool) :
    let reg := (if b0 then 1 else 0) + (if b1 then 2 else 0) + (if b2 then 4 else 0) +
      (if b3 then 8 else 0) + (if b4 then 16 else 0) + (if b5 then 32 else 0) +
      (if b6 then 64 else 0) + (if b7 then 128 else 0)
    ((reg &&& VIDEO_SYNC_IRQ_PL_ERR_MASK) != 0) = b0 ∧
      ((reg &&& VIDEO_SYNC_IRQ_SOF_ERR_MASK) != 0) = b1 ∧
      ((reg &&& VIDEO_SYNC_IRQ_URUN_MASK) != 0) = b2 ∧
      ((reg &&& VIDEO_SYNC_IRQ_SYNC_TO_MASK) != 0) = b3 ∧
      ((reg &&& VIDEO_SYNC_IRQ_FRAME_DONE_MASK) != 0) = b4 ∧
      ((reg &&& VIDEO_SYNC_IRQ_ERR_SHORT_MASK) != 0) = b5 ∧
      ((reg &&& VIDEO_SYNC_IRQ_ERR_LONG_MASK) != 0) = b6 ∧
      ((reg &&& VIDEO_SYNC_IRQ_FRAME_SYNC_MASK) != 0) = b7 := by
  cases b0 <;> cases b1 <;> cases b2 <;> cases b3 <;> cases b4 <;> cases b5 <;> cases b6 <;>
    cases b7 <;> decide

theorem video_sync_ioctl_GET_INFO_fields (pdev_name : List Nat) (s : video_sync)
    (out : video_sync_info) :
    let ctrl := ioread32 s.regs VIDEO_SYNC_CONTROL_REGISTER
    let total := ioread32 s.regs VIDEO_SYNC_TOTAL_SIZE_REGISTER
    let active := ioread32 s.regs VIDEO_SYNC_ACTIVE_SIZE_REGISTER
    let delay := ioread32 s.regs VIDEO_SYNC_DELAY_LINES_REGISTER
    let irq := ioread32 s.regs VIDEO_SYNC_IRQ_ENABLE_REGISTER
    let get := video_sync_ioctl_GET_INFO pdev_name s out
    get.running = ((ctrl &&& VIDEO_SYNC_CTRL_RUN_MASK) != 0) ∧
      get.ext_sync = ((ctrl &&& VIDEO_SYNC_CTRL_EXT_SYNC_MASK) != 0) ∧
      get.ilace = ((ctrl &&& VIDEO_SYNC_CTRL_ILACE_MASK) != 0) ∧
      get.irqen = ((ctrl &&& VIDEO_SYNC_CTRL_IRQEN_MASK) != 0) ∧
      get.videoen = ((ctrl &&& VIDEO_SYNC_CTRL_VIDEO_EN_MASK) != 0) ∧
      get.dyn_blend = ((ctrl &&& VIDEO_SYNC_CTRL_DYN_BLEND_MASK) != 0) ∧
      get.slave_vdma = ((ctrl &&& VIDEO_SYNC_CTRL_SLAVE_VDMA_MASK) != 0) ∧
      get.pl_err_irq_enabled = ((irq &&& VIDEO_SYNC_IRQ_PL_ERR_MASK) != 0) ∧
      get.sof_err_irq_enabled = ((irq &&& VIDEO_SYNC_IRQ_SOF_ERR_MASK) != 0) ∧
      get.urun_err_irq_enabled = ((irq &&& VIDEO_SYNC_IRQ_URUN_MASK) != 0) ∧
      get.sync_to_err_irq_enabled = ((irq &&& VIDEO_SYNC_IRQ_SYNC_TO_MASK) != 0) ∧
      get.frame_done_irq_enabled = ((irq &&& VIDEO_SYNC_IRQ_FRAME_DONE_MASK) != 0) ∧
      get.err_short_irq_enabled = ((irq &&& VIDEO_SYNC_IRQ_ERR_SHORT_MASK) != 0) ∧
      get.err_long_irq_enabled = ((irq &&& VIDEO_SYNC_IRQ_ERR_LONG_MASK) != 0) ∧
      get.frame_sync_irq_enabled = ((irq &&& VIDEO_SYNC_IRQ_FRAME_SYNC_MASK) != 0) ∧
      get.total_width = total &&& VIDEO_SYNC_TOTAL_SIZE_WIDTH_MASK ∧
      get.total_height = (total &&& VIDEO_SYNC_TOTAL_SIZE_HEIGHT_MASK) >>> 16 ∧
      get.active_width = active &&& VIDEO_SYNC_ACTIVE_SIZE_WIDTH_MASK ∧
      get.active_height = (active &&& VIDEO_SYNC_ACTIVE_SIZE_HEIGHT_MASK) >>> 16 ∧
      get.delay_ext_sync = delay &&& VIDEO_SYNC_DELAY_EXT_SYNC_MASK ∧
      get.delay_pl = (delay &&& VIDEO_SYNC_DELAY_PL_MASK) >>> 16 := by
  intro ctrl total active delay irq get
  simp only [get, ctrl, total, active, delay, irq]
  unfold video_sync_ioctl_GET_INFO
  by_cases hirq : s.irq = -1 <;>
    simp only [Id.run, hirq, bind, pure, ne_eq, not_true_eq_false, not_false_eq_true,
      if_true, if_false, and_self]

/-- C22: `VIDEO_SYNC_CMD_SET_INFO` followed by `VIDEO_SYNC_CMD_GET_INFO` on the same
synchronizer, whose register window reads back what was last written, returns 0
twice and gives back the flags `running`, `ext_sync`, `ilace`, `irqen`, `videoen`,
`dyn_blend` and `slave_vdma`, the eight IRQ-enable flags, and the total and active
width and height and the two delays, when these six are below 4096.  After
`VIDEO_SYNC_CMD_SET_INFO` bit 0 of the control register is `running`, bit 2 is
`ilace` and bit 3 is `irqen`, and the total-size and active-size registers hold the
width in bits 0 to 11 and the height in bits 16 to 27, all other bits being 0. -/
theorem video_sync_ioctl_set_get_info (pdev_name : List Nat) (synchronizer : video_sync)
    (arg_set arg_get : Nat) (info out : video_sync_info)
    (htw : info.total_width < 4096) (hth : info.total_height < 4096)
    (haw : info.active_width < 4096) (hah : info.active_height < 4096)
    (hde : info.delay_ext_sync < 4096) (hdp : info.delay_pl < 4096) :
    let set := video_sync_ioctl pdev_name synchronizer VIDEO_SYNC_CMD_SET_INFO arg_set info
    let get := video_sync_ioctl pdev_name set.2.1 VIDEO_SYNC_CMD_GET_INFO arg_get out
    set.1 = 0 ∧ get.1 = 0 ∧
      get.2.2.running = info.running ∧ get.2.2.ext_sync = info.ext_sync ∧
      get.2.2.ilace = info.ilace ∧ get.2.2.irqen = info.irqen ∧
      get.2.2.videoen = info.videoen ∧ get.2.2.dyn_blend = info.dyn_blend ∧
      get.2.2.slave_vdma = info.slave_vdma ∧
      get.2.2.pl_err_irq_enabled = info.pl_err_irq_enabled ∧
      get.2.2.sof_err_irq_enabled = info.sof_err_irq_enabled ∧
      get.2.2.urun_err_irq_enabled = info.urun_err_irq_enabled ∧
      get.2.2.sync_to_err_irq_enabled = info.sync_to_err_irq_enabled ∧
      get.2.2.frame_done_irq_enabled = info.frame_done_irq_enabled ∧
      get.2.2.err_short_irq_enabled = info.err_short_irq_enabled ∧
      get.2.2.err_long_irq_enabled = info.err_long_irq_enabled ∧
      get.2.2.frame_sync_irq_enabled = info.frame_sync_irq_enabled ∧
      get.2.2.total_width = info.total_width ∧ get.2.2.total_height = info.total_height ∧
      get.2.2.active_width = info.active_width ∧
      get.2.2.active_height = info.active_height ∧
      get.2.2.delay_ext_sync = info.delay_ext_sync ∧ get.2.2.delay_pl = info.delay_pl ∧
      (ioread32 set.2.1.regs VIDEO_SYNC_CONTROL_REGISTER).testBit 0 = info.running ∧
      (ioread32 set.2.1.regs VIDEO_SYNC_CONTROL_REGISTER).testBit 2 = info.ilace ∧
      (ioread32 set.2.1.regs VIDEO_SYNC_CONTROL_REGISTER).testBit 3 = info.irqen ∧
      ioread32 set.2.1.regs VIDEO_SYNC_TOTAL_SIZE_REGISTER =
        info.total_width + 2 ^ 16 * info.total_height ∧
      ioread32 set.2.1.regs VIDEO_SYNC_ACTIVE_SIZE_REGISTER =
        info.active_width + 2 ^ 16 * info.active_height := by
  intro set get
  have hset : set = (0, { synchronizer with
      regs := video_sync_ioctl_SET_INFO synchronizer info }, info) := by
    simp [set, video_sync_ioctl, Id.run, VIDEO_SYNC_CMD_SET_INFO, VIDEO_SYNC_CMD_GET_INFO]
  have hget : get = (0, set.2.1, video_sync_ioctl_GET_INFO pdev_name set.2.1 out) := by
    simp [get, video_sync_ioctl, Id.run]
  obtain ⟨r1, r2, r3, r4, r5⟩ := video_sync_ioctl_SET_INFO_rd synchronizer info
  rw [video_sync_set_info_control_bits] at r1
  rw [video_sync_set_info_irq_enable_bits] at r2
  have u_small : ∀ w h : Nat, w < 4096 → h < 4096 → u32 (w + 65536 * h) = w + 65536 * h := by
    intro w h hw hh
    unfold u32
    omega
  have q3 := pack12_value info.delay_ext_sync info.delay_pl hde hdp
  have q4 := pack12_value info.active_width info.active_height haw hah
  have q5 := pack12_value info.total_width info.total_height htw hth
  have r3b := r3
  have r4b := r4
  have r5b := r5
  simp only [VIDEO_SYNC_DELAY_PL_MASK, VIDEO_SYNC_DELAY_EXT_SYNC_MASK] at r3b
  simp only [VIDEO_SYNC_ACTIVE_SIZE_HEIGHT_MASK, VIDEO_SYNC_ACTIVE_SIZE_WIDTH_MASK] at r4b
  simp only [VIDEO_SYNC_TOTAL_SIZE_HEIGHT_MASK, VIDEO_SYNC_TOTAL_SIZE_WIDTH_MASK] at r5b
  rw [q3, u_small _ _ hde hdp] at r3b
  rw [q4, u_small _ _ haw hah] at r4b
  rw [q5, u_small _ _ htw hth] at r5b
  have f7 := flags7_decode info.running info.ext_sync info.ilace info.irqen info.videoen
    info.dyn_blend info.slave_vdma
  have f8 := flags8_decode info.pl_err_irq_enabled info.sof_err_irq_enabled
    info.urun_err_irq_enabled info.sync_to_err_irq_enabled info.frame_done_irq_enabled
    info.err_short_irq_enabled info.err_long_irq_enabled info.frame_sync_irq_enabled
  simp only at f7 f8
  obtain ⟨a0, a1, a2, a3, a4, a5, a6, t0, t2, t3⟩ := f7
  obtain ⟨b0, b1, b2, b3, b4, b5, b6, b7⟩ := f8
  have hregs : set.2.1.regs = video_sync_ioctl_SET_INFO synchronizer info := by rw [hset]
  have g : ∀ w h : Nat, w < 4096 → h < 4096 →
      (w + 65536 * h) &&& (0xFFF <<< 0) = w ∧
      ((w + 65536 * h) &&& (0xFFF <<< 16)) >>> 16 = h := by
    intro w h hw hh
    rw [← pack12_value w h hw hh]
    exact ⟨pack12_low w h hw, pack12_high w h hh⟩
  have g3 := g _ _ hde hdp
  have g4 := g _ _ haw hah
  have g5 := g _ _ htw hth
  have hf := video_sync_ioctl_GET_INFO_fields pdev_name set.2.1 out
  simp only [hregs, r1, r2, r3b, r4b, r5b] at hf
  obtain ⟨c0, c1, c2, c3, c4, c5, c6, d0, d1, d2, d3, d4, d5, d6, d7, e1, e2, e3, e4, e5, e6⟩ :=
    hf
  rw [hget, hregs, r1, r4b, r5b]
  exact ⟨by rw [hset], rfl, c0.trans a0, c1.trans a1, c2.trans a2, c3.trans a3, c4.trans a4,
    c5.trans a5, c6.trans a6, d0.trans b0, d1.trans b1, d2.trans b2, d3.trans b3, d4.trans b4,
    d5.trans b5, d6.trans b6, d7.trans b7, e1.trans g5.1, e2.trans g5.2, e3.trans g4.1,
    e4.trans g4.2, e5.trans g3.1, e6.trans g3.2, t0, t2, t3, rfl, rfl⟩

/-- C22, witness: the settings of a running interlaced synchronizer for 720 x 576
pixels in a frame of 864 x 625 come back from `VIDEO_SYNC_CMD_GET_INFO`; the control
register holds `0x1D` and the total-size register 864 + 625 * 65536. -/
theorem video_sync_ioctl_set_get_info_witness :
    video_sync_info_576i.total_width < 4096 ∧ video_sync_info_576i.total_height < 4096 ∧
    video_sync_info_576i.active_width < 4096 ∧ video_sync_info_576i.active_height < 4096 ∧
    video_sync_info_576i.delay_ext_sync < 4096 ∧ video_sync_info_576i.delay_pl < 4096 ∧
    (video_sync_ioctl [] (video_sync_ioctl [] (sync_with_status true false 0)
        VIDEO_SYNC_CMD_SET_INFO 0 video_sync_info_576i).2.1
      VIDEO_SYNC_CMD_GET_INFO 0 video_sync_info_zero).2.2.running = true ∧
    (video_sync_ioctl [] (video_sync_ioctl [] (sync_with_status true false 0)
        VIDEO_SYNC_CMD_SET_INFO 0 video_sync_info_576i).2.1
      VIDEO_SYNC_CMD_GET_INFO 0 video_sync_info_zero).2.2.total_width = 864 ∧
    (video_sync_ioctl [] (video_sync_ioctl [] (sync_with_status true false 0)
        VIDEO_SYNC_CMD_SET_INFO 0 video_sync_info_576i).2.1
      VIDEO_SYNC_CMD_GET_INFO 0 video_sync_info_zero).2.2.total_height = 625 ∧
    (video_sync_ioctl [] (video_sync_ioctl [] (sync_with_status true false 0)
        VIDEO_SYNC_CMD_SET_INFO 0 video_sync_info_576i).2.1
      VIDEO_SYNC_CMD_GET_INFO 0 video_sync_info_zero).2.2.delay_pl = 22 ∧
    ioread32 (video_sync_ioctl [] (sync_with_status true false 0)
        VIDEO_SYNC_CMD_SET_INFO 0 video_sync_info_576i).2.1.regs
      VIDEO_SYNC_CONTROL_REGISTER = 0x1D ∧
    ioread32 (video_sync_ioctl [] (sync_with_status true false 0)
        VIDEO_SYNC_CMD_SET_INFO 0 video_sync_info_576i).2.1.regs
      VIDEO_SYNC_TOTAL_SIZE_REGISTER = 864 + 2 ^ 16 * 625 :=
  have h := video_sync_ioctl_set_get_info [] (sync_with_status true false 0) 0 0
    video_sync_info_576i video_sync_info_zero (by decide) (by decide) (by decide) (by decide)
    (by decide) (by decide)
  ⟨by decide, by decide, by decide, by decide, by decide, by decide,
    h.2.2.1,
    h.2.2.2.2.2.2.2.2.2.2.2.2.2.2.2.2.2.1,
    h.2.2.2.2.2.2.2.2.2.2.2.2.2.2.2.2.2.2.1,
    h.2.2.2.2.2.2.2.2.2.2.2.2.2.2.2.2.2.2.2.2.2.2.1,
    by decide,
    h.2.2.2.2.2.2.2.2.2.2.2.2.2.2.2.2.2.2.2.2.2.2.2.2.2.2.1⟩

/-! ## C28: parsing of the `color-format` property -/

theorem vdma_probe_color_format_loop_append (s t : List Char) :
    ∀ (i : Nat) (vdma : vdma_channel),
      vdma_probe_color_format_loop (s ++ t) i vdma =
        vdma_probe_color_format_loop t (i + s.length) (vdma_probe_color_format_loop s i vdma) := by
  induction s with
  | nil => intro i vdma; simp [vdma_probe_color_format_loop]
  | cons c rest ih =>
    intro i vdma
    simp only [List.cons_append, vdma_probe_color_format_loop, List.length_cons]
    rw [List.append_eq, ih]
    congr 1
    omega

theorem vdma_probe_color_format_loop_red_absent (s : List Char) :
    ∀ (i : Nat) (vdma : vdma_channel), (∀ c ∈ s, c ≠ 'r') →
      (vdma_probe_color_format_loop s i vdma).red_offset = vdma.red_offset ∧
      (vdma_probe_color_format_loop s i vdma).red_support = vdma.red_support := by
  induction s with
  | nil => intro i vdma _; exact ⟨rfl, rfl⟩
  | cons c rest ih =>
    intro i vdma h
    have hc : c ≠ 'r' := h c (List.mem_cons_self _ _)
    have hrest : ∀ x ∈ rest, x ≠ 'r' := fun x hx => h x (List.mem_cons_of_mem _ hx)
    rw [vdma_probe_color_format_loop]
    obtain ⟨h1, h2⟩ := ih (i + 1) _ hrest
    rw [h1, h2]
    simp only [hc, if_false]
    split_ifs <;> exact ⟨rfl, rfl⟩

theorem vdma_probe_color_format_loop_green_absent (s : List Char) :
    ∀ (i : Nat) (vdma : vdma_channel), (∀ c ∈ s, c ≠ 'g') →
      (vdma_probe_color_format_loop s i vdma).green_offset = vdma.green_offset ∧
      (vdma_probe_color_format_loop s i vdma).green_support = vdma.green_support := by
  induction s with
  | nil => intro i vdma _; exact ⟨rfl, rfl⟩
  | cons c rest ih =>
    intro i vdma h
    have hc : c ≠ 'g' := h c (List.mem_cons_self _ _)
    have hrest : ∀ x ∈ rest, x ≠ 'g' := fun x hx => h x (List.mem_cons_of_mem _ hx)
    rw [vdma_probe_color_format_loop]
    obtain ⟨h1, h2⟩ := ih (i + 1) _ hrest
    rw [h1, h2]
    simp only [hc, if_false]
    split_ifs <;> exact ⟨rfl, rfl⟩

theorem vdma_probe_color_format_loop_blue_absent (s : List Char) :
    ∀ (i : Nat) (vdma : vdma_channel), (∀ c ∈ s, c ≠ 'b') →
      (vdma_probe_color_format_loop s i vdma).blue_offset = vdma.blue_offset ∧
      (vdma_probe_color_format_loop s i vdma).blue_support = vdma.blue_support := by
  induction s with
  | nil => intro i vdma _; exact ⟨rfl, rfl⟩
  | cons c rest ih =>
    intro i vdma h
    have hc : c ≠ 'b' := h c (List.mem_cons_self _ _)
    have hrest : ∀ x ∈ rest, x ≠ 'b' := fun x hx => h x (List.mem_cons_of_mem _ hx)
    rw [vdma_probe_color_format_loop]
    obtain ⟨h1, h2⟩ := ih (i + 1) _ hrest
    rw [h1, h2]
    simp only [hc, if_false]
    split_ifs <;> exact ⟨rfl, rfl⟩

theorem vdma_probe_color_format_loop_alpha_absent (s : List Char) :
    ∀ (i : Nat) (vdma : vdma_channel), (∀ c ∈ s, c ≠ 'a') →
      (vdma_probe_color_format_loop s i vdma).alpha_offset = vdma.alpha_offset ∧
      (vdma_probe_color_format_loop s i vdma).alpha_support = vdma.alpha_support := by
  induction s with
  | nil => intro i vdma _; exact ⟨rfl, rfl⟩
  | cons c rest ih =>
    intro i vdma h
    have hc : c ≠ 'a' := h c (List.mem_cons_self _ _)
    have hrest : ∀ x ∈ rest, x ≠ 'a' := fun x hx => h x (List.mem_cons_of_mem _ hx)
    rw [vdma_probe_color_format_loop]
    obtain ⟨h1, h2⟩ := ih (i + 1) _ hrest
    rw [h1, h2]
    simp only [hc, if_false]
    split_ifs <;> exact ⟨rfl, rfl⟩

theorem vdma_probe_color_format_loop_last (pre post : List Char) (i : Nat)
    (vdma : vdma_channel) :
    ((∀ c ∈ post, c ≠ 'r') →
      (vdma_probe_color_format_loop (pre ++ 'r' :: post) i vdma).red_offset =
          u32 ((i + pre.length) * 8) ∧
        (vdma_probe_color_format_loop (pre ++ 'r' :: post) i vdma).red_support = true) ∧
    ((∀ c ∈ post, c ≠ 'g') →
      (vdma_probe_color_format_loop (pre ++ 'g' :: post) i vdma).green_offset =
          u32 ((i + pre.length) * 8) ∧
        (vdma_probe_color_format_loop (pre ++ 'g' :: post) i vdma).green_support = true) ∧
    ((∀ c ∈ post, c ≠ 'b') →
      (vdma_probe_color_format_loop (pre ++ 'b' :: post) i vdma).blue_offset =
          u32 ((i + pre.length) * 8) ∧
        (vdma_probe_color_format_loop (pre ++ 'b' :: post) i vdma).blue_support = true) ∧
    ((∀ c ∈ post, c ≠ 'a') →
      (vdma_probe_color_format_loop (pre ++ 'a' :: post) i vdma).alpha_offset =
          u32 ((i + pre.length) * 8) ∧
        (vdma_probe_color_format_loop (pre ++ 'a' :: post) i vdma).alpha_support = true) := by
  refine ⟨fun h => ?_, fun h => ?_, fun h => ?_, fun h => ?_⟩
  · rw [vdma_probe_color_format_loop_append, vdma_probe_color_format_loop]
    obtain ⟨h1, h2⟩ := vdma_probe_color_format_loop_red_absent post (i + pre.length + 1)
      (if 'r' = 'r' then
        { vdma_probe_color_format_loop pre i vdma with
          red_offset := u32 ((i + pre.length) * 8), red_support := true }
       else _) h
    rw [h1, h2]
    exact ⟨rfl, rfl⟩
  · rw [vdma_probe_color_format_loop_append, vdma_probe_color_format_loop]
    obtain ⟨h1, h2⟩ := vdma_probe_color_format_loop_green_absent post (i + pre.length + 1)
      (if 'g' = 'r' then _ else if 'g' = 'g' then
        { vdma_probe_color_format_loop pre i vdma with
          green_offset := u32 ((i + pre.length) * 8), green_support := true }
       else _) h
    rw [h1, h2]
    exact ⟨rfl, rfl⟩
  · rw [vdma_probe_color_format_loop_append, vdma_probe_color_format_loop]
    obtain ⟨h1, h2⟩ := vdma_probe_color_format_loop_blue_absent post (i + pre.length + 1)
      (if 'b' = 'r' then _ else if 'b' = 'g' then _ else if 'b' = 'b' then
        { vdma_probe_color_format_loop pre i vdma with
          blue_offset := u32 ((i + pre.length) * 8), blue_support := true }
       else _) h
    rw [h1, h2]
    exact ⟨rfl, rfl⟩
  · rw [vdma_probe_color_format_loop_append, vdma_probe_color_format_loop]
    obtain ⟨h1, h2⟩ := vdma_probe_color_format_loop_alpha_absent post (i + pre.length + 1)
      (if 'a' = 'r' then _ else if 'a' = 'g' then _ else if 'a' = 'b' then _
       else if 'a' = 'a' then
        { vdma_probe_color_format_loop pre i vdma with
          alpha_offset := u32 ((i + pre.length) * 8), alpha_support := true }
       else _) h
    rw [h1, h2]
    exact ⟨rfl, rfl⟩

theorem mem_last_split (c : Char) (s : List Char) (h : c ∈ s) :
    ∃ pre post, s = pre ++ c :: post ∧ ∀ x ∈ post, x ≠ c := by
  induction s with
  | nil => exact absurd h (List.not_mem_nil c)
  | cons x xs ih =>
    by_cases hxs : c ∈ xs
    · obtain ⟨pre, post, hs, hp⟩ := ih hxs
      exact ⟨x :: pre, post, by rw [hs]; rfl, hp⟩
    · have hx : c = x := by
        rcases List.mem_cons.mp h with h1 | h1
        · exact h1
        · exact absurd h1 hxs
      subst hx
      exact ⟨[], xs, rfl, fun y hy hyc => hxs (hyc ▸ hy)⟩

theorem mem_drop_four_split (c : Char) (s : List Char) (h : c ∈ s.drop 4) :
    ∃ pre post, s = pre ++ c :: post ∧ (∀ x ∈ post, x ≠ c) ∧ 4 ≤ pre.length := by
  obtain ⟨p, q, hs, hq⟩ := mem_last_split c (s.drop 4) h
  have hlen : 4 < s.length := by
    by_contra hle
    have hnil : s.drop 4 = [] := List.drop_eq_nil_of_le (by omega)
    rw [hnil] at h
    exact List.not_mem_nil c h
  refine ⟨s.take 4 ++ p, q, ?_, hq, ?_⟩
  · rw [List.append_assoc, ← hs, List.take_append_drop]
  · rw [List.length_append, List.length_take]
    omega

theorem mem_drop_four_of_split (c : Char) (s pre post : List Char) (hs : s = pre ++ c :: post)
    (h4 : 4 ≤ pre.length) : c ∈ s.drop 4 := by
  rw [hs, List.drop_append_of_le_length h4]
  simp

theorem color_offset_below_32 (c : Char) (s : List Char) (off : Nat)
    (habs : (∀ x ∈ s, x ≠ c) → off = 0)
    (hlast : ∀ pre post, s = pre ++ c :: post → (∀ x ∈ post, x ≠ c) → off = 8 * pre.length) :
    off < 32 ↔ ∀ x ∈ s.drop 4, x ≠ c := by
  constructor
  · intro hoff x hx hxc
    subst hxc
    obtain ⟨pre, post, hs, hp, h4⟩ := mem_drop_four_split x s hx
    have := hlast pre post hs hp
    omega
  · intro hdrop
    by_cases hmem : c ∈ s
    · obtain ⟨pre, post, hs, hp⟩ := mem_last_split c s hmem
      have hoff := hlast pre post hs hp
      by_contra hge
      have h4 : 4 ≤ pre.length := by omega
      exact hdrop c (mem_drop_four_of_split c s pre post hs h4) rfl
    · have := habs (fun x hx hxc => hmem (hxc ▸ hx))
      omega

theorem color_offset_at (c : Char) (s : List Char) (k off : Nat) (sup : Bool)
    (habs : (∀ x ∈ s, x ≠ c) → off = 0 ∧ sup = false)
    (hlast : ∀ pre post, s = pre ++ c :: post → (∀ x ∈ post, x ≠ c) →
      off = 8 * pre.length ∧ sup = true) :
    (sup = true ∧ off = 8 * k) ↔
      ∃ pre post, s = pre ++ c :: post ∧ (∀ x ∈ post, x ≠ c) ∧ pre.length = k := by
  constructor
  · rintro ⟨hsup, hoff⟩
    by_cases hmem : c ∈ s
    · obtain ⟨pre, post, hs, hp⟩ := mem_last_split c s hmem
      have h := hlast pre post hs hp
      exact ⟨pre, post, hs, hp, by omega⟩
    · have h := habs (fun x hx hxc => hmem (hxc ▸ hx))
      rw [h.2] at hsup
      exact absurd hsup (by decide)
  · rintro ⟨pre, post, hs, hp, hk⟩
    have h := hlast pre post hs hp
    exact ⟨h.2, by rw [h.1, hk]⟩

theorem rgba_first_four (s : List Char)
    (hdrop : ∀ c ∈ s.drop 4, c ≠ 'r' ∧ c ≠ 'g' ∧ c ≠ 'b' ∧ c ≠ 'a') :
    ((∃ pre post, s = pre ++ 'r' :: post ∧ (∀ x ∈ post, x ≠ 'r') ∧ pre.length = 0) ∧
      (∃ pre post, s = pre ++ 'g' :: post ∧ (∀ x ∈ post, x ≠ 'g') ∧ pre.length = 1) ∧
      (∃ pre post, s = pre ++ 'b' :: post ∧ (∀ x ∈ post, x ≠ 'b') ∧ pre.length = 2) ∧
      (∃ pre post, s = pre ++ 'a' :: post ∧ (∀ x ∈ post, x ≠ 'a') ∧ pre.length = 3)) ↔
      s.take 4 = ['r', 'g', 'b', 'a'] := by
  constructor
  · rintro ⟨⟨p0, q0, h0, -, l0⟩, ⟨p1, q1, h1, -, l1⟩, ⟨p2, q2, h2, -, l2⟩, ⟨p3, q3, h3, -, l3⟩⟩
    obtain rfl := List.length_eq_zero.mp l0
    obtain ⟨x1, rfl⟩ := List.length_eq_one.mp l1
    obtain ⟨x2, y2, rfl⟩ := List.length_eq_two.mp l2
    obtain ⟨x3, y3, z3, rfl⟩ := List.length_eq_three.mp l3
    subst h3
    simp only [List.cons_append, List.nil_append, List.cons.injEq] at h0 h1 h2
    obtain ⟨e0, -⟩ := h0
    obtain ⟨-, e1, -⟩ := h1
    obtain ⟨-, -, e2, -⟩ := h2
    subst e0 e1 e2
    rfl
  · intro htake
    have hs : s = ['r', 'g', 'b', 'a'] ++ s.drop 4 := by
      rw [← htake, List.take_append_drop]
    refine ⟨⟨[], 'g' :: 'b' :: 'a' :: s.drop 4, hs, ?_, rfl⟩,
      ⟨['r'], 'b' :: 'a' :: s.drop 4, hs, ?_, rfl⟩,
      ⟨['r', 'g'], 'a' :: s.drop 4, hs, ?_, rfl⟩,
      ⟨['r', 'g', 'b'], s.drop 4, hs, ?_, rfl⟩⟩
    · intro x hx
      simp only [List.mem_cons] at hx
      rcases hx with rfl | rfl | rfl | hx
      · decide
      · decide
      · decide
      · exact (hdrop x hx).1
    · intro x hx
      simp only [List.mem_cons] at hx
      rcases hx with rfl | rfl | hx
      · decide
      · decide
      · exact (hdrop x hx).2.1
    · intro x hx
      simp only [List.mem_cons] at hx
      rcases hx with rfl | hx
      · decide
      · exact (hdrop x hx).2.2.1
    · intro x hx
      exact (hdrop x hx).2.2.2

/-- C28: for a `color-format` string of at most `2 ^ 28` characters (the indices at
which the C `int` product `i * 8` is defined), the parsing in `vdma_probe` goes on
exactly when none of the characters `r`, `g`, `b`, `a` stands at index 4 or later,
and returns `-ENOTSUPP` otherwise.  When it goes on, the offset of a colour whose
character occurs for the last time at index `pre.length` is `8 * pre.length`, a
multiple of 8 below 32, and the colour is supported; a colour whose character does
not occur has offset 0 and is not supported; and `vdma_get_px_format` recognises the
channel exactly when the first four characters are `rgba`. -/
theorem vdma_probe_color_format_parsing (color_format : List Char) (vdma : vdma_channel)
    (hlen : color_format.length ≤ 2 ^ 28) :
    ((vdma_probe_color_format color_format vdma).1 = 0 ↔
      ∀ c ∈ color_format.drop 4, c ≠ 'r' ∧ c ≠ 'g' ∧ c ≠ 'b' ∧ c ≠ 'a') ∧
    ((vdma_probe_color_format color_format vdma).1 ≠ 0 →
      (vdma_probe_color_format color_format vdma).1 = -ENOTSUPP) ∧
    ((vdma_probe_color_format color_format vdma).1 = 0 →
      (∀ pre post, color_format = pre ++ 'r' :: post → (∀ c ∈ post, c ≠ 'r') →
        (vdma_probe_color_format color_format vdma).2.red_offset = 8 * pre.length ∧
        8 * pre.length < 32 ∧
        (vdma_probe_color_format color_format vdma).2.red_support = true) ∧
      (∀ pre post, color_format = pre ++ 'g' :: post → (∀ c ∈ post, c ≠ 'g') →
        (vdma_probe_color_format color_format vdma).2.green_offset = 8 * pre.length ∧
        8 * pre.length < 32 ∧
        (vdma_probe_color_format color_format vdma).2.green_support = true) ∧
      (∀ pre post, color_format = pre ++ 'b' :: post → (∀ c ∈ post, c ≠ 'b') →
        (vdma_probe_color_format color_format vdma).2.blue_offset = 8 * pre.length ∧
        8 * pre.length < 32 ∧
        (vdma_probe_color_format color_format vdma).2.blue_support = true) ∧
      (∀ pre post, color_format = pre ++ 'a' :: post → (∀ c ∈ post, c ≠ 'a') →
        (vdma_probe_color_format color_format vdma).2.alpha_offset = 8 * pre.length ∧
        8 * pre.length < 32 ∧
        (vdma_probe_color_format color_format vdma).2.alpha_support = true) ∧
      ((∀ c ∈ color_format, c ≠ 'r') →
        (vdma_probe_color_format color_format vdma).2.red_offset = 0 ∧
        (vdma_probe_color_format color_format vdma).2.red_support = false) ∧
      ((∀ c ∈ color_format, c ≠ 'g') →
        (vdma_probe_color_format color_format vdma).2.green_offset = 0 ∧
        (vdma_probe_color_format color_format vdma).2.green_support = false) ∧
      ((∀ c ∈ color_format, c ≠ 'b') →
        (vdma_probe_color_format color_format vdma).2.blue_offset = 0 ∧
        (vdma_probe_color_format color_format vdma).2.blue_support = false) ∧
      ((∀ c ∈ color_format, c ≠ 'a') →
        (vdma_probe_color_format color_format vdma).2.alpha_offset = 0 ∧
        (vdma_probe_color_format color_format vdma).2.alpha_support = false) ∧
      ∀ fmt, (vdma_get_px_format (vdma_probe_color_format color_format vdma).2 fmt).1 = 0 ↔
        color_format.take 4 = ['r', 'g', 'b', 'a']) := by
  generalize hv0 : ({ vdma with
    red_offset := 0, green_offset := 0, blue_offset := 0, alpha_offset := 0,
    red_support := false, green_support := false, blue_support := false,
    alpha_support := false } : vdma_channel) = v0
  generalize hch : vdma_probe_color_format_loop color_format 0 v0 = ch
  have hprobe : vdma_probe_color_format color_format vdma =
      if ch.red_offset ≥ 32 ∨ ch.green_offset ≥ 32 ∨ ch.blue_offset ≥ 32 ∨
          ch.alpha_offset ≥ 32 then (-ENOTSUPP, ch) else (0, ch) := by
    unfold vdma_probe_color_format
    simp only [Id.run, hv0, hch, bind, pure]
  have hsmall : ∀ pre post : List Char, ∀ c, color_format = pre ++ c :: post →
      u32 ((0 + pre.length) * 8) = 8 * pre.length := by
    intro pre post c hs
    have : pre.length < color_format.length := by
      rw [hs, List.length_append, List.length_cons]
      omega
    unfold u32
    omega
  have hz : v0.red_offset = 0 ∧ v0.green_offset = 0 ∧ v0.blue_offset = 0 ∧
      v0.alpha_offset = 0 ∧ v0.red_support = false ∧ v0.green_support = false ∧
      v0.blue_support = false ∧ v0.alpha_support = false := by
    subst hv0
    exact ⟨rfl, rfl, rfl, rfl, rfl, rfl, rfl, rfl⟩
  obtain ⟨z1, z2, z3, z4, z5, z6, z7, z8⟩ := hz
  have ar : (∀ c ∈ color_format, c ≠ 'r') → ch.red_offset = 0 ∧ ch.red_support = false := by
    intro h
    have := vdma_probe_color_format_loop_red_absent color_format 0 v0 h
    rw [hch, z1, z5] at this
    exact this
  have ag : (∀ c ∈ color_format, c ≠ 'g') →
      ch.green_offset = 0 ∧ ch.green_support = false := by
    intro h
    have := vdma_probe_color_format_loop_green_absent color_format 0 v0 h
    rw [hch, z2, z6] at this
    exact this
  have ab : (∀ c ∈ color_format, c ≠ 'b') → ch.blue_offset = 0 ∧ ch.blue_support = false := by
    intro h
    have := vdma_probe_color_format_loop_blue_absent color_format 0 v0 h
    rw [hch, z3, z7] at this
    exact this
  have aa : (∀ c ∈ color_format, c ≠ 'a') →
      ch.alpha_offset = 0 ∧ ch.alpha_support = false := by
    intro h
    have := vdma_probe_color_format_loop_alpha_absent color_format 0 v0 h
    rw [hch, z4, z8] at this
    exact this
  have lr : ∀ pre post, color_format = pre ++ 'r' :: post → (∀ c ∈ post, c ≠ 'r') →
      ch.red_offset = 8 * pre.length ∧ ch.red_support = true := by
    intro pre post hs hp
    have := (vdma_probe_color_format_loop_last pre post 0 v0).1 hp
    rw [← hs, hch, hsmall pre post _ hs] at this
    exact this
  have lg : ∀ pre post, color_format = pre ++ 'g' :: post → (∀ c ∈ post, c ≠ 'g') →
      ch.green_offset = 8 * pre.length ∧ ch.green_support = true := by
    intro pre post hs hp
    have := (vdma_probe_color_format_loop_last pre post 0 v0).2.1 hp
    rw [← hs, hch, hsmall pre post _ hs] at this
    exact this
  have lb : ∀ pre post, color_format = pre ++ 'b' :: post → (∀ c ∈ post, c ≠ 'b') →
      ch.blue_offset = 8 * pre.length ∧ ch.blue_support = true := by
    intro pre post hs hp
    have := (vdma_probe_color_format_loop_last pre post 0 v0).2.2.1 hp
    rw [← hs, hch, hsmall pre post _ hs] at this
    exact this
  have la : ∀ pre post, color_format = pre ++ 'a' :: post → (∀ c ∈ post, c ≠ 'a') →
      ch.alpha_offset = 8 * pre.length ∧ ch.alpha_support = true := by
    intro pre post hs hp
    have := (vdma_probe_color_format_loop_last pre post 0 v0).2.2.2 hp
    rw [← hs, hch, hsmall pre post _ hs] at this
    exact this
  have br := color_offset_below_32 'r' color_format ch.red_offset (fun h => (ar h).1)
    (fun pre post hs hp => (lr pre post hs hp).1)
  have bg := color_offset_below_32 'g' color_format ch.green_offset (fun h => (ag h).1)
    (fun pre post hs hp => (lg pre post hs hp).1)
  have bb := color_offset_below_32 'b' color_format ch.blue_offset (fun h => (ab h).1)
    (fun pre post hs hp => (lb pre post hs hp).1)
  have ba := color_offset_below_32 'a' color_format ch.alpha_offset (fun h => (aa h).1)
    (fun pre post hs hp => (la pre post hs hp).1)
  have hacc : (vdma_probe_color_format color_format vdma).1 = 0 ↔
      ch.red_offset < 32 ∧ ch.green_offset < 32 ∧ ch.blue_offset < 32 ∧
        ch.alpha_offset < 32 := by
    rw [hprobe]
    have hE : ¬ (-ENOTSUPP : Int) = 0 := by decide
    split_ifs with hc
    · constructor
      · intro h
        exact absurd h hE
      · intro h
        omega
    · constructor
      · intro _
        omega
      · intro _
        rfl
  have hsnd : (vdma_probe_color_format color_format vdma).2 = ch := by
    rw [hprobe]
    split_ifs <;> rfl
  have hdrop : (vdma_probe_color_format color_format vdma).1 = 0 ↔
      ∀ c ∈ color_format.drop 4, c ≠ 'r' ∧ c ≠ 'g' ∧ c ≠ 'b' ∧ c ≠ 'a' := by
    rw [hacc, br, bg, bb, ba]
    constructor
    · intro h c hc
      exact ⟨h.1 c hc, h.2.1 c hc, h.2.2.1 c hc, h.2.2.2 c hc⟩
    · intro h
      exact ⟨fun c hc => (h c hc).1, fun c hc => (h c hc).2.1, fun c hc => (h c hc).2.2.1,
        fun c hc => (h c hc).2.2.2⟩
  refine ⟨hdrop, ?_, ?_⟩
  · intro hne
    rw [hprobe] at hne ⊢
    split_ifs at hne ⊢ with hc
    · rfl
    · exact absurd rfl hne
  · intro hok
    have hlt := hacc.mp hok
    rw [hsnd]
    refine ⟨?_, ?_, ?_, ?_, ar, ag, ab, aa, ?_⟩
    · intro pre post hs hp
      have h := lr pre post hs hp
      exact ⟨h.1, by omega, h.2⟩
    · intro pre post hs hp
      have h := lg pre post hs hp
      exact ⟨h.1, by omega, h.2⟩
    · intro pre post hs hp
      have h := lb pre post hs hp
      exact ⟨h.1, by omega, h.2⟩
    · intro pre post hs hp
      have h := la pre post hs hp
      exact ⟨h.1, by omega, h.2⟩
    · intro fmt
      rw [← rgba_first_four color_format (hdrop.mp hok),
        ← color_offset_at 'r' color_format 0 ch.red_offset ch.red_support ar lr,
        ← color_offset_at 'g' color_format 1 ch.green_offset ch.green_support ag lg,
        ← color_offset_at 'b' color_format 2 ch.blue_offset ch.blue_support ab lb,
        ← color_offset_at 'a' color_format 3 ch.alpha_offset ch.alpha_support aa la]
      have hE : ¬ (-EINVAL : Int) = 0 := by decide
      unfold vdma_get_px_format
      cases ch.red_support <;> cases ch.green_support <;> cases ch.blue_support <;>
        cases ch.alpha_support <;> simp [Id.run, hE]
      split_ifs with hc
      · exact ⟨fun _ => hc, fun _ => rfl⟩
      · exact ⟨fun h => absurd h hE, fun h => absurd h hc⟩

/-- C28, witness: the string `rgba` is accepted, its alpha offset is 24 and
`vdma_get_px_format` recognises the channel; the string `bgra` is accepted and is
not recognised; the string `rgbxa` is refused with `-ENOTSUPP`. -/
theorem vdma_probe_color_format_parsing_witness :
    ['r', 'g', 'b', 'a'].length ≤ 2 ^ 28 ∧
    (vdma_probe_color_format ['r', 'g', 'b', 'a'] (channel_zero regs_zero)).1 = 0 ∧
    (vdma_probe_color_format ['r', 'g', 'b', 'a'] (channel_zero regs_zero)).2.alpha_offset =
      24 ∧
    (vdma_get_px_format
      (vdma_probe_color_format ['r', 'g', 'b', 'a'] (channel_zero regs_zero)).2 0).1 = 0 ∧
    (vdma_probe_color_format ['b', 'g', 'r', 'a'] (channel_zero regs_zero)).1 = 0 ∧
    (vdma_get_px_format
      (vdma_probe_color_format ['b', 'g', 'r', 'a'] (channel_zero regs_zero)).2 0).1 ≠ 0 ∧
    (vdma_probe_color_format ['r', 'g', 'b', 'x', 'a'] (channel_zero regs_zero)).1 =
      -ENOTSUPP :=
  have h1 := vdma_probe_color_format_parsing ['r', 'g', 'b', 'a'] (channel_zero regs_zero)
    (by decide)
  have h2 := vdma_probe_color_format_parsing ['b', 'g', 'r', 'a'] (channel_zero regs_zero)
    (by decide)
  have h3 := vdma_probe_color_format_parsing ['r', 'g', 'b', 'x', 'a']
    (channel_zero regs_zero) (by decide)
  have ok1 := h1.1.mpr (by decide)
  have ok2 := h2.1.mpr (by decide)
  ⟨by decide, ok1, ((h1.2.2 ok1).2.2.2.1 ['r', 'g', 'b'] [] rfl (by decide)).1,
    ((h1.2.2 ok1).2.2.2.2.2.2.2.2 0).mpr rfl, ok2,
    fun h => absurd (((h2.2.2 ok2).2.2.2.2.2.2.2.2 0).mp h) (by decide),
    h3.2.1 (fun h => absurd (h3.1.mp h) (by decide))⟩

end DataRespons
